import Mathlib

/-!
The channel splitter node (spa/plugins/audioconvert/splitter.c).

A shallow embedding of the splitter node: one input port, `port_count`
output ports, format negotiation, buffer assignment, the available queue
of every port and the per-cycle process function.

Conventions of the embedding:

* C `uint32_t` values are `Nat`, C `int` values are `Int`; conversions
  between the two and 32-bit wrap-around are written out (`toU32`, `toI32`,
  `% 4294967296`).
* C arrays (`out_ports`, `buffers`) are total functions from the index:
  an index past the C array bound addresses a further cell of the model
  instead of neighbouring memory.
* Objects owned by the driver and reached through a pointer (the I/O cell,
  the range control, a buffer descriptor with its regions and chunks) are
  held by value in the place of the pointer; `none` is the null pointer.
  Distinct pointers are taken to reference distinct objects.
* The sample memory itself is not modelled: a call of the transform is
  recorded with its arguments.
-/

namespace Splitter

/-! ## Constants -/

def MAX_SAMPLES : Nat := 1024
def MAX_BUFFERS : Nat := 64
def MAX_PORTS : Nat := 128
def DEFAULT_RATE : Nat := 48000
def DEFAULT_CHANNELS : Nat := 2

def BUFFER_FLAG_QUEUED : Nat := 1

def INT_MAX : Nat := 2147483647

/-- Errno values of `<errno.h>` (Linux). -/
def ENOENT : Int := 2
def ESRCH : Int := 3
def EIO : Int := 5
def EINVAL : Int := 22
def EPIPE : Int := 32
def EPROTO : Int := 71
def ENOTSUP : Int := 95

/-- Modelled from the spec: the status bits of an I/O cell (spa/node/io.h is
not among the sources): "need buffer" and "buffer available", two distinct
bits that can be OR-ed. -/
def SPA_STATUS_OK : Int := 0
def SPA_STATUS_NEED_BUFFER : Int := 1
def SPA_STATUS_HAVE_BUFFER : Int := 2

def SPA_ID_INVALID : Nat := 4294967295

/-- Modelled from the spec: the memory-backing kinds of a region
(spa/buffer/buffer.h is not among the sources): host pointer, shared file
descriptor, device-memory handle; 0 is the invalid kind. -/
def SPA_DATA_Invalid : Nat := 0
def SPA_DATA_MemPtr : Nat := 1
def SPA_DATA_MemFd : Nat := 2
def SPA_DATA_DmaBuf : Nat := 3

/-- Modelled from the spec: the parameter ids (spa/param/param.h is not among
the sources); only their being distinct is used. -/
def SPA_PARAM_Invalid : Nat := 0
def SPA_PARAM_List : Nat := 1
def SPA_PARAM_PropInfo : Nat := 2
def SPA_PARAM_Props : Nat := 3
def SPA_PARAM_EnumFormat : Nat := 4
def SPA_PARAM_Format : Nat := 5
def SPA_PARAM_Buffers : Nat := 6
def SPA_PARAM_Meta : Nat := 7
def SPA_PARAM_IO : Nat := 8
def SPA_PARAM_Profile : Nat := 9

/-- Modelled from the spec: the ids of the I/O areas of a port
(spa/node/io.h is not among the sources). -/
def SPA_IO_Invalid : Nat := 0
def SPA_IO_Buffers : Nat := 1
def SPA_IO_Range : Nat := 2

/-- Modelled from the spec: object types of the tagged values used here
(spa/utils/type.h is not among the sources); only their being distinct is
used. -/
def SPA_TYPE_OBJECT_ParamList : Nat := 0x50002
def SPA_TYPE_OBJECT_Format : Nat := 0x50005
def SPA_TYPE_OBJECT_ParamBuffers : Nat := 0x50006
def SPA_TYPE_OBJECT_ParamMeta : Nat := 0x50007
def SPA_TYPE_OBJECT_ParamIO : Nat := 0x50008
def SPA_TYPE_OBJECT_ParamProfile : Nat := 0x50009

/-- Modelled from the spec: property keys of the objects used here
(spa/param/format.h and spa/param/param.h are not among the sources); only
their being distinct within one object type is used. -/
def SPA_FORMAT_mediaType : Nat := 1
def SPA_FORMAT_mediaSubtype : Nat := 2
def SPA_FORMAT_AUDIO_format : Nat := 0x10001
def SPA_FORMAT_AUDIO_flags : Nat := 0x10002
def SPA_FORMAT_AUDIO_rate : Nat := 0x10003
def SPA_FORMAT_AUDIO_channels : Nat := 0x10004
def SPA_FORMAT_AUDIO_position : Nat := 0x10005
def SPA_PARAM_PROFILE_format : Nat := 1
def SPA_PARAM_LIST_id : Nat := 1
def SPA_PARAM_BUFFERS_buffers : Nat := 1
def SPA_PARAM_BUFFERS_blocks : Nat := 2
def SPA_PARAM_BUFFERS_size : Nat := 3
def SPA_PARAM_BUFFERS_stride : Nat := 4
def SPA_PARAM_BUFFERS_align : Nat := 5
def SPA_PARAM_META_type : Nat := 1
def SPA_PARAM_META_size : Nat := 2
def SPA_PARAM_IO_id : Nat := 1
def SPA_PARAM_IO_size : Nat := 2

def SPA_MEDIA_TYPE_audio : Nat := 1
def SPA_MEDIA_SUBTYPE_raw : Nat := 1

def SPA_AUDIO_MAX_CHANNELS : Nat := 64
def SPA_AUDIO_FLAG_UNPOSITIONED : Nat := 1

/-- Modelled from the spec: the sample formats (spa/param/audio/raw.h is not
among the sources). The interleaved formats lie strictly between 0x100 and
0x200, the planar ones strictly between 0x200 and 0x400; `_OE` is the
other-endian variant of a format. Only the formats named in splitter.c are
listed; every other value is a format too. -/
def SPA_AUDIO_FORMAT_UNKNOWN : Nat := 0
def SPA_AUDIO_FORMAT_START_Interleaved : Nat := 0x100
def SPA_AUDIO_FORMAT_U8 : Nat := 0x102
def SPA_AUDIO_FORMAT_S16 : Nat := 0x103
def SPA_AUDIO_FORMAT_S16_OE : Nat := 0x104
def SPA_AUDIO_FORMAT_S24_32 : Nat := 0x107
def SPA_AUDIO_FORMAT_S24_32_OE : Nat := 0x108
def SPA_AUDIO_FORMAT_S32 : Nat := 0x10b
def SPA_AUDIO_FORMAT_S32_OE : Nat := 0x10c
def SPA_AUDIO_FORMAT_S24 : Nat := 0x10f
def SPA_AUDIO_FORMAT_S24_OE : Nat := 0x110
def SPA_AUDIO_FORMAT_F32 : Nat := 0x11b
def SPA_AUDIO_FORMAT_F32_OE : Nat := 0x11c
def SPA_AUDIO_FORMAT_START_Planar : Nat := 0x200
def SPA_AUDIO_FORMAT_U8P : Nat := 0x201
def SPA_AUDIO_FORMAT_S16P : Nat := 0x202
def SPA_AUDIO_FORMAT_S24_32P : Nat := 0x203
def SPA_AUDIO_FORMAT_S32P : Nat := 0x204
def SPA_AUDIO_FORMAT_S24P : Nat := 0x205
def SPA_AUDIO_FORMAT_F32P : Nat := 0x206
def SPA_AUDIO_FORMAT_START_Other : Nat := 0x400

/-- Modelled from the spec: `SPA_AUDIO_FORMAT_IS_PLANAR` of
spa/param/audio/raw.h (not among the sources): a format is planar when it
lies in the planar range. -/
def SPA_AUDIO_FORMAT_IS_PLANAR (fmt : Nat) : Bool :=
  decide (SPA_AUDIO_FORMAT_START_Planar < fmt) && decide (fmt < SPA_AUDIO_FORMAT_START_Other)

/-- Modelled from the spec: the node event ids (spa/node/event.h is not among
the sources); `PortsChanged` is the topology-changed notification. -/
def SPA_NODE_EVENT_PortsChanged : Nat := 3

def SPA_NODE_COMMAND_Pause : Nat := 1
def SPA_NODE_COMMAND_Start : Nat := 2

/-! ## Machine integers -/

/-- Conversion of a C `int` to `uint32_t`. -/
def toU32 (i : Int) : Nat := (i % 4294967296).toNat

/-- Conversion of a `uint32_t` to a C `int` (two's complement). -/
def toI32 (n : Nat) : Int :=
  if n % 4294967296 < 2147483648 then ((n % 4294967296 : Nat) : Int)
  else ((n % 4294967296 : Nat) : Int) - 4294967296

/-- `SPA_MIN` on two unsigned values. -/
def SPA_MIN (a b : Nat) : Nat := if a < b then a else b

/-- `SPA_FLAG_CHECK(field, flag)`. -/
def SPA_FLAG_CHECK (field flag : Nat) : Bool := (field &&& flag) == flag

/-- `SPA_FLAG_SET(field, flag)`. -/
def SPA_FLAG_SET (field flag : Nat) : Nat := field ||| flag

/-- `SPA_FLAG_UNSET(field, flag)` on a 32-bit field: `field & ~flag`. -/
def SPA_FLAG_UNSET (field flag : Nat) : Nat := field &&& (4294967295 ^^^ flag)

/-! ## Tagged values (pods) -/

/-- Modelled from the spec: the type tags of a tagged value (§3 of the
specification; spa/utils/type.h is not among the sources). -/
inductive TypeTag where
  | None | Bool | Id | Int | Long | Float | Double | String | Bytes
  | Rectangle | Fraction | Bitmap | Array | Struct | Object | Sequence
  | Pointer | Fd | Choice
  deriving DecidableEq, Repr

/-- Modelled from the spec: the kinds of a choice (§3). -/
inductive ChoiceKind where
  | None | Range | Step | Enum | Flags
  deriving DecidableEq, Repr

/-- Modelled from the spec: a tagged value (§3; spa/pod/pod.h is not among
the sources). Only the shapes the splitter builds or reads carry their
payload: ids, 32-bit ints, arrays of 32-bit words with their element type,
choices with their alternatives (the first is the default) and objects with
their ordered properties; `other` is a value of any other type. -/
inductive Pod where
  | none : Pod
  | id (v : Nat) : Pod
  | int (v : Int) : Pod
  | array (child : TypeTag) (values : List Nat) : Pod
  | choice (kind : ChoiceKind) (alternatives : List Pod) : Pod
  | object (type : Nat) (id : Nat) (props : List (Nat × Pod)) : Pod
  | other (type : TypeTag) : Pod

/-! ## Audio format description -/

/-- The record `struct spa_audio_info_raw`; `position` is the array of
`SPA_AUDIO_MAX_CHANNELS` channel positions. -/
structure AudioInfoRaw where
  format : Nat
  flags : Nat
  rate : Nat
  channels : Nat
  position : List Nat
  deriving DecidableEq, Repr

/-- The record `struct spa_audio_info`. -/
structure AudioInfo where
  media_type : Nat
  media_subtype : Nat
  raw : AudioInfoRaw
  deriving DecidableEq, Repr

/-- A zero-filled `struct spa_audio_info_raw`. -/
def AudioInfoRaw.zero : AudioInfoRaw :=
  { format := 0, flags := 0, rate := 0, channels := 0,
    position := List.replicate SPA_AUDIO_MAX_CHANNELS 0 }

/-- A zero-filled `struct spa_audio_info` (`= { 0, }`). -/
def AudioInfo.zero : AudioInfo :=
  { media_type := 0, media_subtype := 0, raw := AudioInfoRaw.zero }

/-! ## Parsing tagged values -/

/-- Modelled from the spec: the two failures of `parse_object` (§4.1;
spa/pod/parser.h is not among the sources). The specification names them
without a number; the model gives each a negative errno, and only that
they are negative is used. -/
def MissingProperty : Int := -ESRCH
def TypeMismatch : Int := -EPROTO

/-- Modelled from the spec: the lookup of a key among the properties of an
object (§3, §4.1: the first property with the key; a value that is not an
object has no property). -/
def spa_pod_find_prop : Pod → Nat → Option Pod
  | Pod.object _ _ props, key => (props.find? (fun kv => kv.1 == key)).map (fun kv => kv.2)
  | _, _ => none

/-- Modelled from the spec: matching one `(key, "I")` entry of a pattern
(§4.1): the property must be present and an Id. -/
def parse_Id (obj : Pod) (key : Nat) : Except Int Nat :=
  match spa_pod_find_prop obj key with
  | none => Except.error MissingProperty
  | some (Pod.id v) => Except.ok v
  | some _ => Except.error TypeMismatch

/-- Modelled from the spec: matching one `(key, "i")` entry of a pattern
(§4.1): the property must be present and a 32-bit Int. -/
def parse_Int (obj : Pod) (key : Nat) : Except Int Int :=
  match spa_pod_find_prop obj key with
  | none => Except.error MissingProperty
  | some (Pod.int v) => Except.ok v
  | some _ => Except.error TypeMismatch

/-- Modelled from the spec: matching one `(key, "P")` entry of a pattern
(§4.1): the property must be present; its value is handed out as it is. -/
def parse_Pod (obj : Pod) (key : Nat) : Except Int Pod :=
  match spa_pod_find_prop obj key with
  | none => Except.error MissingProperty
  | some v => Except.ok v

/-- Modelled from the spec: `spa_format_parse` of spa/param/format-utils.h
(not among the sources): `parse_object` with the pattern
`(mediaType, Id), (mediaSubtype, Id)`. Returns the result code and the two
outputs; an output whose entry was not reached keeps its old value. -/
def spa_format_parse (format : Pod) (media_type media_subtype : Nat) : Int × Nat × Nat :=
  match parse_Id format SPA_FORMAT_mediaType with
  | Except.error e => (e, media_type, media_subtype)
  | Except.ok t =>
    match parse_Id format SPA_FORMAT_mediaSubtype with
    | Except.error e => (e, t, media_subtype)
    | Except.ok st => (0, t, st)

/-- The `spa_pod_object_parse` call of `spa_format_audio_raw_parse`: the
pattern `format "I", rate "i", channels "i", flags "?i", position "?P"`.
Matching stops at the first required entry that fails; an optional entry
that is absent or of another type leaves its output untouched. An int read
into a `uint32_t` field is converted. -/
def audio_raw_object_parse (format : Pod) (info : AudioInfoRaw) (position : Option Pod) :
    Int × AudioInfoRaw × Option Pod :=
  match parse_Id format SPA_FORMAT_AUDIO_format with
  | Except.error e => (e, info, position)
  | Except.ok f =>
    let info := { info with format := f }
    match parse_Int format SPA_FORMAT_AUDIO_rate with
    | Except.error e => (e, info, position)
    | Except.ok r =>
      let info := { info with rate := toU32 r }
      match parse_Int format SPA_FORMAT_AUDIO_channels with
      | Except.error e => (e, info, position)
      | Except.ok c =>
        let info := { info with channels := toU32 c }
        let info :=
          match parse_Int format SPA_FORMAT_AUDIO_flags with
          | Except.ok fl => { info with flags := toU32 fl }
          | Except.error _ => info
        let position :=
          match parse_Pod format SPA_FORMAT_AUDIO_position with
          | Except.ok p => some p
          | Except.error _ => position
        (0, info, position)

/-- The function `spa_format_audio_raw_parse` of format-utils.h. -/
def spa_format_audio_raw_parse (format : Pod) (info : AudioInfoRaw) : Int × AudioInfoRaw :=
  let (res, info, position) := audio_raw_object_parse format info none
  match position with
  | some (Pod.array TypeTag.Id values) =>
    let n_values := SPA_MIN values.length SPA_AUDIO_MAX_CHANNELS
    (res, { info with position := values.take n_values ++ info.position.drop n_values })
  | _ => (res, { info with flags := SPA_FLAG_SET info.flags SPA_AUDIO_FLAG_UNPOSITIONED })

/-- The function `spa_format_audio_raw_build` of format-utils.h: the object
of type Format and the given id with the properties mediaType,
mediaSubtype, format, rate, channels and, unless the info is flagged
unpositioned, position (an array of `channels` ids read from
`info.position`). The array `info.position` has SPA_AUDIO_MAX_CHANNELS
entries: for a positioned info with more channels the C code copies the
memory that follows the array, where this definition gives the id 0, so it
tells what the C code builds only for an unpositioned info or a channel
count of at most SPA_AUDIO_MAX_CHANNELS. -/
def spa_format_audio_raw_build (id : Nat) (info : AudioInfoRaw) : Pod :=
  let props :=
    [ (SPA_FORMAT_mediaType, Pod.id SPA_MEDIA_TYPE_audio),
      (SPA_FORMAT_mediaSubtype, Pod.id SPA_MEDIA_SUBTYPE_raw),
      (SPA_FORMAT_AUDIO_format, Pod.id info.format),
      (SPA_FORMAT_AUDIO_rate, Pod.int (toI32 info.rate)),
      (SPA_FORMAT_AUDIO_channels, Pod.int (toI32 info.channels)) ]
  let props :=
    if !SPA_FLAG_CHECK info.flags SPA_AUDIO_FLAG_UNPOSITIONED then
      props ++ [ (SPA_FORMAT_AUDIO_position,
                  Pod.array TypeTag.Id ((List.range info.channels).map (fun i => info.position.getD i 0))) ]
    else props
  Pod.object SPA_TYPE_OBJECT_Format id props

/-! ## Buffers, ports and the node -/

/-- The record `struct spa_chunk` of a region: the valid bytes. -/
structure SpaChunk where
  offset : Nat
  size : Nat
  deriving DecidableEq, Repr

/-- The record `struct spa_data`, one memory region of a buffer descriptor;
`data` is the base pointer (`none` is NULL) and `chunk` stands for the chunk
the region points to. -/
structure SpaData where
  type : Nat
  data : Option Nat
  maxsize : Nat
  chunk : SpaChunk
  deriving DecidableEq, Repr

/-- The record `struct spa_buffer`, a buffer descriptor owned by the driver;
`n_datas` is the length of `datas`. -/
structure SpaBuffer where
  id : Nat
  datas : List SpaData
  deriving DecidableEq, Repr

/-- The record `struct buffer`, one slot of a port. The `link` member is the
membership of the slot in the queue of the port, see `Port.queue`. -/
structure Buffer where
  flags : Nat
  buf : Option SpaBuffer
  deriving DecidableEq, Repr

/-- The record `struct spa_io_buffers`, the I/O cell shared with the driver. -/
structure SpaIoBuffers where
  status : Int
  buffer_id : Nat
  deriving DecidableEq, Repr

/-- The record `struct spa_io_range`, the range control of a port. -/
structure SpaIoRange where
  offset : Nat
  min_size : Nat
  max_size : Nat
  deriving DecidableEq, Repr

/-- The record `struct port`. The members `info`, `info_props`,
`info_props_items` and `position` only describe the port to the driver and
are left out.

Modelled from the spec: `queue` (spa/utils/list.h is not among the sources)
is the available queue, a FIFO of slot indices: `spa_list_init` empties
it, `spa_list_append` adds a slot at the tail, `spa_list_first` and
`spa_list_remove` take the slot at the head. -/
structure Port where
  id : Nat
  io : Option SpaIoBuffers
  ctrl : Option SpaIoRange
  have_format : Bool
  format : AudioInfo
  blocks : Nat
  stride : Nat
  buffers : Nat → Buffer
  n_buffers : Nat
  queue : List Nat

/-- The type `convert_func_t`: a transform is known by its identity. -/
abbrev ConvertFunc := Nat

/-- The record `struct impl`, the node. `log` and `cpu` only feed logging and
`cpu_flags`; `has_event_callback` says whether `callbacks` and
`callbacks->event` are both set; `events` lists the events handed to that
callback so far, the latest last; `empty` is the scratch region. -/
structure Impl where
  has_event_callback : Bool
  events : List Nat
  in_port : Port
  out_ports : Nat → Port
  port_count : Int
  started : Bool
  cpu_flags : Nat
  convert : Option ConvertFunc
  have_profile : Bool

/-- The two directions of a port. -/
inductive Direction where
  | Input | Output
  deriving DecidableEq, Repr

/-- A zero-filled slot. -/
def Buffer.zero : Buffer := { flags := 0, buf := none }

/-- A zero-filled port. In C the list head of a zero-filled port is not an
initialised list: `spa_list_init` (in `init_port` and `clear_buffers`) has
to run before the queue is used. The empty `queue` given here stands for
the initialised empty list; it tells what the C code holds only on a port
on which one of the two functions has run, as it has on every output port
below a port count between 0 and MAX_PORTS of a reachable node. -/
def Port.zero : Port :=
  { id := 0, io := none, ctrl := none, have_format := false, format := AudioInfo.zero,
    blocks := 0, stride := 0, buffers := fun _ => Buffer.zero, n_buffers := 0, queue := [] }

/-- The function `impl_init` on the zero-filled instance memory the factory
is given; `cpu_flags` is what the CPU support service reports (0 without
one). -/
def impl_init (cpu_flags : Nat) : Impl :=
  { has_event_callback := false, events := [],
    in_port := { Port.zero with id := 0 },
    out_ports := fun _ => Port.zero, port_count := 0, started := false,
    cpu_flags := cpu_flags, convert := none, have_profile := false }

/-- `CHECK_OUT_PORT(this, d, p)`: the port id is compared with `port_count`
as unsigned values. -/
def CHECK_OUT_PORT (this : Impl) (d : Direction) (p : Nat) : Bool :=
  d == Direction.Output && decide (p < toU32 this.port_count)

/-- `CHECK_IN_PORT(this, d, p)`. -/
def CHECK_IN_PORT (_this : Impl) (d : Direction) (p : Nat) : Bool :=
  d == Direction.Input && p == 0

/-- `CHECK_PORT(this, d, p)`. -/
def CHECK_PORT (this : Impl) (d : Direction) (p : Nat) : Bool :=
  CHECK_OUT_PORT this d p || CHECK_IN_PORT this d p

/-- `GET_PORT(this, d, p)`; the input port array has the single element 0. -/
def GET_PORT (this : Impl) (d : Direction) (p : Nat) : Port :=
  match d with
  | Direction.Input => this.in_port
  | Direction.Output => this.out_ports p

/-- Writing back through the pointer `GET_PORT(this, d, p)`. -/
def SET_PORT (this : Impl) (d : Direction) (p : Nat) (port : Port) : Impl :=
  match d with
  | Direction.Input => { this with in_port := port }
  | Direction.Output => { this with out_ports := Function.update this.out_ports p port }

/-- The function `init_port`. The members it fills in to describe the port to
the driver are left out of `Port`, and with them the name of the channel,
which the C code reads from the table `spa_type_audio_channel` at the index
`position` (splitter.c:117): that read is a fault for a position without an
entry in the table, so this definition tells what the C code does only for
a position that has one (see `n_named_channels`). -/
def init_port (this : Impl) (port_id : Nat) (rate : Nat) (position : Nat) : Impl :=
  let port := this.out_ports port_id
  let port : Port :=
    { port with
      id := port_id
      queue := []
      n_buffers := 0
      have_format := false
      format :=
        { media_type := SPA_MEDIA_TYPE_audio
          media_subtype := SPA_MEDIA_SUBTYPE_raw
          raw := { port.format.raw with
                   format := SPA_AUDIO_FORMAT_F32P
                   rate := rate
                   channels := 1
                   position := port.format.raw.position.set 0 position } } }
  { this with out_ports := Function.update this.out_ports port_id port }

/-- `SPA_POD_IS_OBJECT_TYPE(pod, t)`. -/
def SPA_POD_IS_OBJECT_TYPE : Pod → Nat → Bool
  | Pod.object type _ _, t => type == t
  | _, _ => false

/-- The function `impl_node_set_param` (the node pointer and the param are
not null). The loop over the output ports reads `info.raw.position[i]` for
every i below the port count; the array has SPA_AUDIO_MAX_CHANNELS entries,
and past them the C code reads the memory that follows, where this
definition reads the position 0. It tells what the C code does on the
parameters of `profile_in_range`. -/
def impl_node_set_param (this : Impl) (id : Nat) (_flags : Nat) (param : Pod) : Int × Impl :=
  if id == SPA_PARAM_Profile then
    match parse_Pod param SPA_PARAM_PROFILE_format with
    | Except.error _ => (-EINVAL, this)
    | Except.ok format =>
      if !SPA_POD_IS_OBJECT_TYPE format SPA_TYPE_OBJECT_Format then (-EINVAL, this)
      else
        let (res, media_type, media_subtype) := spa_format_parse format 0 0
        if res < 0 then (res, this)
        else if media_type != SPA_MEDIA_TYPE_audio || media_subtype != SPA_MEDIA_SUBTYPE_raw then
          (-EINVAL, this)
        else
          let (res, raw) := spa_format_audio_raw_parse format AudioInfoRaw.zero
          if res < 0 then (-EINVAL, this)
          else
            let info : AudioInfo :=
              { media_type := media_type, media_subtype := media_subtype, raw := raw }
            let port := this.in_port
            if port.have_format && decide (port.format = info) then (0, this)
            else
              let this := { this with have_profile := true, port_count := toI32 info.raw.channels }
              let this := (List.range this.port_count.toNat).foldl
                (fun t i => init_port t i info.raw.rate (info.raw.position.getD i 0)) this
              let this := { this with in_port := { this.in_port with have_format := true, format := info } }
              let this :=
                if this.has_event_callback then
                  { this with events := this.events ++ [SPA_NODE_EVENT_PortsChanged] }
                else this
              (0, this)
  else (-ENOENT, this)

/-- The function `impl_node_send_command`; `command` is the id of the command. -/
def impl_node_send_command (this : Impl) (command : Nat) : Int × Impl :=
  if command == SPA_NODE_COMMAND_Start then (0, { this with started := true })
  else if command == SPA_NODE_COMMAND_Pause then (0, { this with started := false })
  else (-ENOTSUP, this)

/-- The function `impl_node_set_callbacks`; the argument says whether the
callbacks are set and have an event callback. -/
def impl_node_set_callbacks (this : Impl) (has_event : Bool) : Int × Impl :=
  (0, { this with has_event_callback := has_event })

/-! ## Formats -/

/-- The function `clear_buffers`; the node is only used for logging. -/
def clear_buffers (port : Port) : Port :=
  if port.n_buffers > 0 then { port with n_buffers := 0, queue := [] }
  else port

/-- The lookup `find_conv_info(src_fmt, dst_fmt, cpu_flags)` of fmt-ops.c,
which is not among the sources: it is a parameter of the model. `none` is
the null result, `some f` a converter whose function is `f`. -/
abbrev FindConvInfo := Nat → Nat → Nat → Option ConvertFunc

/-- The function `setup_convert`. -/
def setup_convert (find_conv_info : FindConvInfo) (this : Impl) : Int × Impl :=
  let inport := this.in_port
  let src_fmt := inport.format.raw.format
  let dst_fmt := SPA_AUDIO_FORMAT_F32P
  match find_conv_info src_fmt dst_fmt this.cpu_flags with
  | some func => (0, { this with convert := some func })
  | none => (-ENOTSUP, this)

/-- The function `calc_width`. -/
def calc_width (info : AudioInfo) : Int :=
  if info.raw.format = SPA_AUDIO_FORMAT_U8 ∨ info.raw.format = SPA_AUDIO_FORMAT_U8P then 1
  else if info.raw.format = SPA_AUDIO_FORMAT_S16P ∨ info.raw.format = SPA_AUDIO_FORMAT_S16
      ∨ info.raw.format = SPA_AUDIO_FORMAT_S16_OE then 2
  else if info.raw.format = SPA_AUDIO_FORMAT_S24P ∨ info.raw.format = SPA_AUDIO_FORMAT_S24
      ∨ info.raw.format = SPA_AUDIO_FORMAT_S24_OE then 3
  else 4

/-- The function `port_set_format`; `format = none` is the null format. -/
def port_set_format (find_conv_info : FindConvInfo) (this : Impl) (direction : Direction)
    (port_id : Nat) (_flags : Nat) (format : Option Pod) : Int × Impl :=
  let port := GET_PORT this direction port_id
  match format with
  | none =>
    if port.have_format then
      let port :=
        if direction == Direction.Input then { port with have_format := this.have_profile }
        else { port with have_format := false }
      (0, SET_PORT this direction port_id (clear_buffers port))
    else (0, this)
  | some format =>
    let (res, media_type, media_subtype) := spa_format_parse format 0 0
    if res < 0 then (res, this)
    else if media_type != SPA_MEDIA_TYPE_audio || media_subtype != SPA_MEDIA_SUBTYPE_raw then
      (-EINVAL, this)
    else
      let (res, raw) := spa_format_audio_raw_parse format AudioInfoRaw.zero
      if res < 0 then (-EINVAL, this)
      else
        let info : AudioInfo :=
          { media_type := media_type, media_subtype := media_subtype, raw := raw }
        let rejected :=
          match direction with
          | Direction.Output =>
            info.raw.rate != port.format.raw.rate
              || info.raw.format != SPA_AUDIO_FORMAT_F32P
              || info.raw.channels != 1
          | Direction.Input => info.raw.channels != toU32 this.port_count
        if rejected then (-EINVAL, this)
        else
          let port := { port with format := info, stride := toU32 (calc_width info) }
          let port :=
            if SPA_AUDIO_FORMAT_IS_PLANAR info.raw.format then
              { port with blocks := info.raw.channels }
            else
              { port with stride := (port.stride * info.raw.channels) % 4294967296, blocks := 1 }
          let this := SET_PORT this direction port_id port
          let this :=
            if direction == Direction.Input then (setup_convert find_conv_info this).2
            else this
          let port := GET_PORT this direction port_id
          (0, SET_PORT this direction port_id { port with have_format := true })

/-- The function `impl_node_port_set_param` (the node pointer is not null). -/
def impl_node_port_set_param (find_conv_info : FindConvInfo) (this : Impl)
    (direction : Direction) (port_id : Nat) (id : Nat) (flags : Nat) (param : Option Pod) :
    Int × Impl :=
  if !CHECK_PORT this direction port_id then (-EINVAL, this)
  else if id == SPA_PARAM_Format then
    port_set_format find_conv_info this direction port_id flags param
  else (-ENOENT, this)

/-! ## The available queue and the buffers of a port -/

/-- The function `queue_buffer`; the node is only used for logging. -/
def queue_buffer (port : Port) (id : Nat) : Port :=
  let b := port.buffers id
  if SPA_FLAG_CHECK b.flags BUFFER_FLAG_QUEUED then port
  else
    { port with
      queue := port.queue ++ [id]
      buffers := Function.update port.buffers id
        { b with flags := SPA_FLAG_SET b.flags BUFFER_FLAG_QUEUED } }

/-- The function `dequeue_buffer`: the slot taken from the head of the queue
(`none` is the null result) and the port afterwards. -/
def dequeue_buffer (port : Port) : Option Nat × Port :=
  match port.queue with
  | [] => (none, port)
  | id :: rest =>
    let b := port.buffers id
    (some id,
     { port with
       queue := rest
       buffers := Function.update port.buffers id
         { b with flags := SPA_FLAG_UNSET b.flags BUFFER_FLAG_QUEUED } })

/-- A zero-filled region: what `d[0]` reads in a descriptor that has no
region at all (the C code reads past the array there). -/
def SpaData.zero : SpaData :=
  { type := SPA_DATA_Invalid, data := none, maxsize := 0, chunk := { offset := 0, size := 0 } }

/-- The test of the first region in `impl_node_port_use_buffers`. -/
def valid_memory (d : SpaData) : Bool :=
  (d.type == SPA_DATA_MemPtr || d.type == SPA_DATA_MemFd || d.type == SPA_DATA_DmaBuf)
    && d.data != none

/-- The loop of `impl_node_port_use_buffers` from index `i` on, over the
descriptors that are left: the result code of an early return, or 0 when
the loop runs to its end, and the port afterwards. -/
def use_buffers_loop (direction : Direction) : Port → List SpaBuffer → Nat → Int × Port
  | port, [], _ => (0, port)
  | port, buffer :: rest, i =>
    let d0 := buffer.datas.getD 0 SpaData.zero
    let port := { port with
                  buffers := Function.update port.buffers i { flags := 0, buf := some buffer } }
    if !valid_memory d0 then (-EINVAL, port)
    else
      let port := if direction == Direction.Output then queue_buffer port i else port
      use_buffers_loop direction port rest (i + 1)

/-- The function `impl_node_port_use_buffers`; `n_buffers` is the length of
the list `buffers`. -/
def impl_node_port_use_buffers (this : Impl) (direction : Direction) (port_id : Nat)
    (buffers : List SpaBuffer) : Int × Impl :=
  if !CHECK_PORT this direction port_id then (-EINVAL, this)
  else
    let port := GET_PORT this direction port_id
    if !port.have_format then (- EIO, this)
    else
      let port := clear_buffers port
      let (res, port) := use_buffers_loop direction port buffers 0
      if res != 0 then (res, SET_PORT this direction port_id port)
      else (0, SET_PORT this direction port_id { port with n_buffers := buffers.length })

/-- The area handed to `impl_node_port_set_io`: a null pointer, an I/O cell
or a range control. -/
inductive IoData where
  | null
  | buffers (cell : SpaIoBuffers)
  | range (ctrl : SpaIoRange)
  deriving DecidableEq, Repr

/-- The function `impl_node_port_set_io`. The area is read as the record the
id names; an area of the other kind reads as null. -/
def impl_node_port_set_io (this : Impl) (direction : Direction) (port_id : Nat)
    (id : Nat) (data : IoData) : Int × Impl :=
  if !CHECK_PORT this direction port_id then (-EINVAL, this)
  else
    let port := GET_PORT this direction port_id
    if id == SPA_IO_Buffers then
      let cell := match data with
        | IoData.buffers c => some c
        | _ => none
      (0, SET_PORT this direction port_id { port with io := cell })
    else if id == SPA_IO_Range then
      let ctrl := match data with
        | IoData.range r => some r
        | _ => none
      (0, SET_PORT this direction port_id { port with ctrl := ctrl })
    else (-ENOENT, this)

/-- The function `impl_node_port_reuse_buffer`. -/
def impl_node_port_reuse_buffer (this : Impl) (port_id : Nat) (buffer_id : Nat) : Int × Impl :=
  if !CHECK_PORT this Direction.Output port_id then (-EINVAL, this)
  else
    let port := this.out_ports port_id
    (0, { this with out_ports := Function.update this.out_ports port_id (queue_buffer port buffer_id) })

/-! ## The process cycle -/

/-- A destination pointer given to the transform: the scratch region
`this->empty` or the base pointer of a region of a dequeued buffer. -/
inductive Dest where
  | empty
  | data (p : Option Nat)
  deriving DecidableEq, Repr

/-- One call `this->convert(this, n_dst_datas, dst_datas, n_src_datas,
src_datas, n_samples)`; a source pointer is the base pointer of a region
with the chunk offset added to it. -/
structure ConvertCall where
  func : ConvertFunc
  n_dst_datas : Nat
  dst_datas : List Dest
  n_src_datas : Nat
  src_datas : List (Option Nat × Nat)
  n_samples : Nat
  deriving DecidableEq, Repr

/-- What one call of `impl_node_process` yields: the returned value, the
node afterwards and the call of the transform, if one was made. -/
structure ProcessResult where
  res : Int
  this : Impl
  call : Option ConvertCall

/-- The descriptor a slot points to. A slot whose `buf` is null reads as a
descriptor without regions; the C code dereferences the null pointer there,
which is a fault (see `process_defined`). -/
def Buffer.desc (b : Buffer) : SpaBuffer := b.buf.getD { id := 0, datas := [] }

/-- The local variables of `impl_node_process` that the loop over the output
ports updates, with the node. -/
structure ProcessLoop where
  this : Impl
  res : Int
  n_samples : Nat
  dst_datas : List Dest

/-- The body of the loop over the output ports in `impl_node_process`, for
the output port `i`. The variable `maxsize` is an `int` that is only ever
read back as an unsigned value, so it is held unsigned. A division by a
zero stride, which stops the C program, yields 0, and a dequeued slot
without a descriptor, which the C program dereferences, reads as a
descriptor without regions: the definition tells what the C code does on
the ports of `port_slot_ready`. -/
def process_out_port (l : ProcessLoop) (i : Nat) : ProcessLoop :=
  let outport := l.this.out_ports i
  match outport.io with
  | none => { l with dst_datas := l.dst_datas ++ [Dest.empty] }
  | some outio =>
    if outio.status == SPA_STATUS_HAVE_BUFFER then
      { l with res := Int.lor l.res SPA_STATUS_HAVE_BUFFER
               dst_datas := l.dst_datas ++ [Dest.empty] }
    else
      let (outport, outio) :=
        if outio.buffer_id < outport.n_buffers then
          (queue_buffer outport outio.buffer_id, { outio with buffer_id := SPA_ID_INVALID })
        else (outport, outio)
      match dequeue_buffer outport with
      | (none, outport) =>
        let outio := { outio with status := -EPIPE }
        let outport := { outport with io := some outio }
        { l with this := { l.this with out_ports := Function.update l.this.out_ports i outport }
                 dst_datas := l.dst_datas ++ [Dest.empty] }
      | (some slot, outport) =>
        let dbuf := outport.buffers slot
        let dd := dbuf.desc.datas
        let maxsize := (dd.getD 0 SpaData.zero).maxsize
        let maxsize :=
          match outport.ctrl with
          | some ctrl => SPA_MIN ctrl.max_size maxsize
          | none => maxsize
        let n_samples := SPA_MIN l.n_samples (maxsize / outport.stride)
        let dst_datas := l.dst_datas ++ dd.map (fun d => Dest.data d.data)
        let dd := dd.map (fun d =>
          { d with chunk := { d.chunk with
                              offset := 0
                              size := (n_samples * outport.stride) % 4294967296 } })
        let dbuf := { dbuf with buf := some { dbuf.desc with datas := dd } }
        let outio := { outio with status := SPA_STATUS_HAVE_BUFFER, buffer_id := dbuf.desc.id }
        let outport := { outport with
                         io := some outio
                         buffers := Function.update outport.buffers slot dbuf }
        { this := { l.this with out_ports := Function.update l.this.out_ports i outport }
          res := Int.lor l.res SPA_STATUS_HAVE_BUFFER
          n_samples := n_samples
          dst_datas := dst_datas }

/-- The function `impl_node_process` (the node pointer is not null). A
division by a zero stride, which stops the C program (splitter.c:880),
yields 0, and every read of a slot or a port is total: the definition tells
what the C function does on the node states of `process_defined`. -/
def impl_node_process (this : Impl) : ProcessResult :=
  let inport := this.in_port
  match inport.io with
  | none => { res := - EIO, this := this, call := none }
  | some inio =>
    match this.convert with
    | none => { res := - EIO, this := this, call := none }
    | some convert =>
      if inio.status != SPA_STATUS_HAVE_BUFFER then
        { res := SPA_STATUS_NEED_BUFFER, this := this, call := none }
      else if inio.buffer_id >= inport.n_buffers then
        { res := -EINVAL
          this := { this with in_port := { inport with io := some { inio with status := -EINVAL } } }
          call := none }
      else
        let sbuf := inport.buffers inio.buffer_id
        let sd := sbuf.desc.datas
        let n_src_datas := sd.length
        let src_datas := sd.map (fun d => (d.data, d.chunk.offset))
        let maxsize := sd.foldl (fun m d => SPA_MIN d.chunk.size m) INT_MAX
        let n_samples := maxsize / inport.stride
        let l := (List.range this.port_count.toNat).foldl process_out_port
          { this := this, res := 0, n_samples := n_samples, dst_datas := [] }
        let call : ConvertCall :=
          { func := convert, n_dst_datas := l.dst_datas.length, dst_datas := l.dst_datas
            n_src_datas := n_src_datas, src_datas := src_datas, n_samples := l.n_samples }
        let this := l.this
        let this :=
          { this with in_port := { this.in_port with
                                   io := some { inio with status := SPA_STATUS_NEED_BUFFER } } }
        { res := Int.lor l.res SPA_STATUS_NEED_BUFFER, this := this, call := some call }

/-! ## Enumeration of the port parameters -/

/-- The id `SPA_META_Header` and the two sizes that
`impl_node_port_enum_params` writes into its Meta and IO candidates
(spa/buffer/meta.h and spa/node/io.h are not among the sources; the values
are those of the records of this version, and no property depends on
them). -/
def SPA_META_Header : Nat := 1
def sizeof_spa_meta_header : Int := 24
def sizeof_spa_io_buffers : Int := 8

/-- Modelled from the spec: `spa_pod_filter(builder, result, param, filter)`
(§4.1, §4.2; spa/pod/filter.h is not among the sources). The primitive
`filter(input_value, constraint_value)` of the specification is the
parameter `filter_fn`, whose `none` is NoIntersection. Without a constraint
(a null `filter`) nothing is filtered and the candidate itself is the
result. The value is the filtered form of the candidate, or `none` when it
is rejected. -/
def filtered (filter_fn : Pod → Pod → Option Pod) (param : Pod) (filter : Option Pod) :
    Option Pod :=
  match filter with
  | none => some param
  | some constraint => filter_fn param constraint

/-- Modelled from the spec: the call `spa_pod_filter(builder, result, param,
filter)`: the result code, negative when the candidate is rejected, and
what `*result` holds afterwards (a rejected candidate leaves it as it
was). -/
def spa_pod_filter (filter_fn : Pod → Pod → Option Pod) (result : Option Pod) (param : Pod)
    (filter : Option Pod) : Int × Option Pod :=
  match filtered filter_fn param filter with
  | some r => (0, some r)
  | none => (-EINVAL, result)

/-- The function `port_enum_formats`: the result code and the candidate it
builds. The capacity of the scratch builder is not modelled. -/
def port_enum_formats (this : Impl) (direction : Direction) (port_id : Nat) (index : Nat) :
    Int × Option Pod :=
  let port := GET_PORT this direction port_id
  if index == 0 then
    if direction == Direction.Output || port.have_format then
      (1, some (spa_format_audio_raw_build SPA_PARAM_EnumFormat port.format.raw))
    else
      (1, some (Pod.object SPA_TYPE_OBJECT_Format SPA_PARAM_EnumFormat
        [ (SPA_FORMAT_mediaType, Pod.id SPA_MEDIA_TYPE_audio),
          (SPA_FORMAT_mediaSubtype, Pod.id SPA_MEDIA_SUBTYPE_raw),
          (SPA_FORMAT_AUDIO_format, Pod.choice ChoiceKind.Enum
            [ Pod.id SPA_AUDIO_FORMAT_F32,
              Pod.id SPA_AUDIO_FORMAT_F32P,
              Pod.id SPA_AUDIO_FORMAT_F32,
              Pod.id SPA_AUDIO_FORMAT_F32_OE,
              Pod.id SPA_AUDIO_FORMAT_S32P,
              Pod.id SPA_AUDIO_FORMAT_S32,
              Pod.id SPA_AUDIO_FORMAT_S32_OE,
              Pod.id SPA_AUDIO_FORMAT_S24_32P,
              Pod.id SPA_AUDIO_FORMAT_S24_32,
              Pod.id SPA_AUDIO_FORMAT_S24_32_OE,
              Pod.id SPA_AUDIO_FORMAT_S24P,
              Pod.id SPA_AUDIO_FORMAT_S24,
              Pod.id SPA_AUDIO_FORMAT_S24_OE,
              Pod.id SPA_AUDIO_FORMAT_S16P,
              Pod.id SPA_AUDIO_FORMAT_S16,
              Pod.id SPA_AUDIO_FORMAT_S16_OE,
              Pod.id SPA_AUDIO_FORMAT_U8P,
              Pod.id SPA_AUDIO_FORMAT_U8 ]),
          (SPA_FORMAT_AUDIO_rate, Pod.choice ChoiceKind.Range
            [Pod.int DEFAULT_RATE, Pod.int 1, Pod.int INT_MAX]),
          (SPA_FORMAT_AUDIO_channels, Pod.choice ChoiceKind.Range
            [Pod.int DEFAULT_CHANNELS, Pod.int 1, Pod.int MAX_PORTS]) ]))
  else (0, none)

/-- How one pass through the switch of `impl_node_port_enum_params` ends: with
a return statement, or past the switch with the candidate `param`. -/
inductive EnumStep where
  | ret (res : Int)
  | param (p : Pod)

/-- The switch of `impl_node_port_enum_params` for the parameter `id` at the
cursor `index`. The capacity of the scratch builder is not modelled. -/
def enum_params_switch (this : Impl) (direction : Direction) (port_id : Nat) (id index : Nat) :
    EnumStep :=
  let port := GET_PORT this direction port_id
  if id == SPA_PARAM_List then
    let list := [SPA_PARAM_EnumFormat, SPA_PARAM_Format, SPA_PARAM_Buffers, SPA_PARAM_Meta,
      SPA_PARAM_IO]
    if index < list.length then
      EnumStep.param (Pod.object SPA_TYPE_OBJECT_ParamList id
        [(SPA_PARAM_LIST_id, Pod.id (list.getD index 0))])
    else EnumStep.ret 0
  else if id == SPA_PARAM_EnumFormat then
    match port_enum_formats this direction port_id index with
    | (res, param) =>
      if res ≤ 0 then EnumStep.ret res else EnumStep.param (param.getD Pod.none)
  else if id == SPA_PARAM_Format then
    if !port.have_format then EnumStep.ret (- EIO)
    else if index > 0 then EnumStep.ret 0
    else EnumStep.param (spa_format_audio_raw_build id port.format.raw)
  else if id == SPA_PARAM_Buffers then
    if !port.have_format then EnumStep.ret (- EIO)
    else if index > 0 then EnumStep.ret 0
    else
      EnumStep.param (Pod.object SPA_TYPE_OBJECT_ParamBuffers id
        [ (SPA_PARAM_BUFFERS_buffers, Pod.choice ChoiceKind.Range
            [Pod.int 1, Pod.int 1, Pod.int MAX_BUFFERS]),
          (SPA_PARAM_BUFFERS_blocks, Pod.int (toI32 port.blocks)),
          (SPA_PARAM_BUFFERS_size, Pod.choice ChoiceKind.Range
            [ Pod.int (toI32 (1024 * port.stride)),
              Pod.int (toI32 (16 * port.stride)),
              Pod.int (toI32 (MAX_SAMPLES * port.stride)) ]),
          (SPA_PARAM_BUFFERS_stride, Pod.int (toI32 port.stride)),
          (SPA_PARAM_BUFFERS_align, Pod.int 16) ])
  else if id == SPA_PARAM_Meta then
    if !port.have_format then EnumStep.ret (- EIO)
    else if index == 0 then
      EnumStep.param (Pod.object SPA_TYPE_OBJECT_ParamMeta id
        [ (SPA_PARAM_META_type, Pod.id SPA_META_Header),
          (SPA_PARAM_META_size, Pod.int sizeof_spa_meta_header) ])
    else EnumStep.ret 0
  else if id == SPA_PARAM_IO then
    if index == 0 then
      EnumStep.param (Pod.object SPA_TYPE_OBJECT_ParamIO id
        [ (SPA_PARAM_IO_id, Pod.id SPA_IO_Buffers),
          (SPA_PARAM_IO_size, Pod.int sizeof_spa_io_buffers) ])
    else EnumStep.ret 0
  else EnumStep.ret (-ENOENT)

/-- What a call of `impl_node_port_enum_params` yields: the returned value,
the cursor `*index` and what `*result` holds afterwards. -/
structure EnumResult where
  res : Int
  index : Nat
  result : Option Pod

/-- The loop of `impl_node_port_enum_params` around the label `next`, from the
cursor `index` on. The first argument bounds the number of passes through
the switch; `none` says that the bound was used up before the loop
returned. -/
def enum_params_loop (filter_fn : Pod → Pod → Option Pod) (this : Impl)
    (direction : Direction) (port_id : Nat) (id : Nat) (filter : Option Pod) :
    Nat → Nat → Option Pod → Option EnumResult
  | 0, _, _ => none
  | fuel + 1, index, result =>
    match enum_params_switch this direction port_id id index with
    | EnumStep.ret res => some { res := res, index := index, result := result }
    | EnumStep.param param =>
      let index := (index + 1) % 4294967296
      match spa_pod_filter filter_fn result param filter with
      | (r, result) =>
        if r < 0 then enum_params_loop filter_fn this direction port_id id filter fuel index result
        else some { res := 1, index := index, result := result }

/-- The function `impl_node_port_enum_params` (the node, index and builder
pointers are not null), with a bound on the number of passes through its
switch. It reads the node and writes only to `*index` and `*result`. -/
def impl_node_port_enum_params (filter_fn : Pod → Pod → Option Pod) (this : Impl)
    (direction : Direction) (port_id : Nat) (id : Nat) (index : Nat) (filter : Option Pod)
    (fuel : Nat) : Option EnumResult :=
  if !CHECK_PORT this direction port_id then
    some { res := -EINVAL, index := index, result := none }
  else enum_params_loop filter_fn this direction port_id id filter fuel index none

/-- The number of candidates the switch of `impl_node_port_enum_params` has
for a parameter id. -/
def n_candidates (id : Nat) : Nat :=
  if id == SPA_PARAM_List then 5
  else if id == SPA_PARAM_EnumFormat || id == SPA_PARAM_Format || id == SPA_PARAM_Buffers
      || id == SPA_PARAM_Meta || id == SPA_PARAM_IO then 1
  else 0

/-! ## Reachable node states -/

/-- The node states that the public operations of the node produce, one
after the other, from a freshly initialised node; `find_conv_info` is the
converter table the node was built with. The operations that never write
to the node (the enumerations, `impl_node_set_io`, add and remove port,
`impl_node_port_alloc_buffers`, `impl_node_port_send_command`, the getters)
are left out. -/
inductive Reachable (find_conv_info : FindConvInfo) : Impl → Prop where
  | init (cpu_flags : Nat) : Reachable find_conv_info (impl_init cpu_flags)
  | set_param {s : Impl} (id flags : Nat) (param : Pod) :
      Reachable find_conv_info s →
      Reachable find_conv_info (impl_node_set_param s id flags param).2
  | send_command {s : Impl} (command : Nat) :
      Reachable find_conv_info s →
      Reachable find_conv_info (impl_node_send_command s command).2
  | set_callbacks {s : Impl} (has_event : Bool) :
      Reachable find_conv_info s →
      Reachable find_conv_info (impl_node_set_callbacks s has_event).2
  | port_set_param {s : Impl} (direction : Direction) (port_id id flags : Nat)
      (param : Option Pod) :
      Reachable find_conv_info s →
      Reachable find_conv_info
        (impl_node_port_set_param find_conv_info s direction port_id id flags param).2
  | port_use_buffers {s : Impl} (direction : Direction) (port_id : Nat)
      (buffers : List SpaBuffer) :
      Reachable find_conv_info s →
      Reachable find_conv_info (impl_node_port_use_buffers s direction port_id buffers).2
  | port_set_io {s : Impl} (direction : Direction) (port_id id : Nat) (data : IoData) :
      Reachable find_conv_info s →
      Reachable find_conv_info (impl_node_port_set_io s direction port_id id data).2
  | port_reuse_buffer {s : Impl} (port_id buffer_id : Nat) :
      Reachable find_conv_info s →
      Reachable find_conv_info (impl_node_port_reuse_buffer s port_id buffer_id).2
  | process {s : Impl} :
      Reachable find_conv_info s →
      Reachable find_conv_info (impl_node_process s).this

/-! ## Concrete nodes -/

/-- A freshly initialised node whose input port was given an I/O cell with
status "need buffer": no format was set, so no transform is selected. -/
def node_with_input_cell : Impl :=
  (impl_node_port_set_io (impl_init 0) Direction.Input 0 SPA_IO_Buffers
    (IoData.buffers { status := SPA_STATUS_NEED_BUFFER, buffer_id := 0 })).2

/-- The node `node_with_input_cell` with the transform 7 selected. -/
def node_with_input_cell_and_transform : Impl :=
  { node_with_input_cell with convert := some 7 }

/-- A converter table that knows the transform 1 from interleaved F32 to
planar F32 and nothing else. -/
def f32_only : FindConvInfo := fun src_fmt dst_fmt _ =>
  if src_fmt == SPA_AUDIO_FORMAT_F32 && dst_fmt == SPA_AUDIO_FORMAT_F32P then some 1 else none

/-- A converter table without any transform. -/
def no_converter : FindConvInfo := fun _ _ _ => none

/-- A raw audio description with the given sample format, rate and channel
count, no flags and every position 0. -/
def raw_info (format rate channels : Nat) : AudioInfoRaw :=
  { AudioInfoRaw.zero with format := format, rate := rate, channels := channels }

/-- The format object of a raw audio description, as a driver builds it. -/
def format_param (format rate channels : Nat) : Pod :=
  spa_format_audio_raw_build SPA_PARAM_Format (raw_info format rate channels)

/-- A profile parameter: an object of type ParamProfile whose format
property is the format object of the description. -/
def profile_param (format rate channels : Nat) : Pod :=
  Pod.object SPA_TYPE_OBJECT_ParamProfile SPA_PARAM_Profile
    [(SPA_PARAM_PROFILE_format, format_param format rate channels)]

/-- A buffer descriptor with one region of host memory of the given size,
its chunk holding `size` valid bytes. -/
def mem_buffer (id maxsize size : Nat) : SpaBuffer :=
  { id := id
    datas := [{ type := SPA_DATA_MemPtr, data := some (65536 * (id + 1)), maxsize := maxsize
                chunk := { offset := 0, size := size } }] }

/-- A buffer descriptor whose single region has a null base pointer. -/
def null_buffer (id : Nat) : SpaBuffer :=
  { id := id
    datas := [{ type := SPA_DATA_MemPtr, data := none, maxsize := 1024
                chunk := { offset := 0, size := 0 } }] }

/-- A fresh node after a profile of one channel at 48000 Hz. -/
def node_profile1 : Impl :=
  (impl_node_set_param (impl_init 0) SPA_PARAM_Profile 0
    (profile_param SPA_AUDIO_FORMAT_F32P 48000 1)).2

/-- The node `node_profile1` after the format F32P, 48000 Hz, 1 channel was
set on output port 0. -/
def node_out_format : Impl :=
  (impl_node_port_set_param f32_only node_profile1 Direction.Output 0 SPA_PARAM_Format 0
    (some (format_param SPA_AUDIO_FORMAT_F32P 48000 1))).2

/-- The node `node_out_format` after a use_buffers call on output port 0 with
a valid descriptor followed by an invalid one; the call fails. -/
def node_rejected_buffers : Impl :=
  (impl_node_port_use_buffers node_out_format Direction.Output 0
    [mem_buffer 0 1024 0, null_buffer 1]).2

/-- The node `node_rejected_buffers` after a use_buffers call on output port 0
with one valid descriptor; the call succeeds. -/
def node_double_queued : Impl :=
  (impl_node_port_use_buffers node_rejected_buffers Direction.Output 0 [mem_buffer 0 1024 0]).2

/-- A fresh node after a profile of two channels at 48000 Hz. -/
def node_profile2 : Impl :=
  (impl_node_set_param (impl_init 0) SPA_PARAM_Profile 0
    (profile_param SPA_AUDIO_FORMAT_F32P 48000 2)).2

/-- The node `node_out_format` after two valid descriptors were attached to
output port 0. -/
def node_two_buffers : Impl :=
  (impl_node_port_use_buffers node_out_format Direction.Output 0
    [mem_buffer 0 1024 0, mem_buffer 1 1024 0]).2

/-- The node `node_profile2` after the interleaved two-channel F32 format was
set on the input port and the F32P format on both output ports. -/
def node_formats : Impl :=
  (impl_node_port_set_param f32_only
    (impl_node_port_set_param f32_only
      (impl_node_port_set_param f32_only node_profile2 Direction.Input 0 SPA_PARAM_Format 0
        (some (format_param SPA_AUDIO_FORMAT_F32 48000 2))).2
      Direction.Output 0 SPA_PARAM_Format 0 (some (format_param SPA_AUDIO_FORMAT_F32P 48000 1))).2
    Direction.Output 1 SPA_PARAM_Format 0 (some (format_param SPA_AUDIO_FORMAT_F32P 48000 1))).2

/-- The node `node_formats` after one buffer was attached to every port: the
input buffer holds a chunk of 2048 bytes (256 frames), each output buffer
has room for 1024 bytes. -/
def node_buffers : Impl :=
  (impl_node_port_use_buffers
    (impl_node_port_use_buffers
      (impl_node_port_use_buffers node_formats Direction.Input 0 [mem_buffer 0 2048 2048]).2
      Direction.Output 0 [mem_buffer 0 1024 0]).2
    Direction.Output 1 [mem_buffer 0 1024 0]).2

/-- The node `node_buffers` after every port was given an I/O cell: the
input cell holds buffer 0, the output cells hold nothing. -/
def node_ready : Impl :=
  (impl_node_port_set_io
    (impl_node_port_set_io
      (impl_node_port_set_io node_buffers Direction.Input 0 SPA_IO_Buffers
        (IoData.buffers { status := SPA_STATUS_HAVE_BUFFER, buffer_id := 0 })).2
      Direction.Output 0 SPA_IO_Buffers
      (IoData.buffers { status := SPA_STATUS_NEED_BUFFER, buffer_id := SPA_ID_INVALID })).2
    Direction.Output 1 SPA_IO_Buffers
    (IoData.buffers { status := SPA_STATUS_NEED_BUFFER, buffer_id := SPA_ID_INVALID })).2

/-- The node `node_ready` after one process cycle. -/
def node_processed : Impl := (impl_node_process node_ready).this

/-- The queued flags of a port tell the truth about its attached slots: every
slot below the buffer count whose queued flag is set is in the available
queue. -/
def QueuedFlagsSound (port : Port) : Prop :=
  ∀ id, id < port.n_buffers →
    SPA_FLAG_CHECK (port.buffers id).flags BUFFER_FLAG_QUEUED = true → id ∈ port.queue

/-- A fresh node with an event callback installed. -/
def node_with_callback : Impl := (impl_node_set_callbacks (impl_init 0) true).2

/-- The node `node_with_callback` after a profile of two channels at
48000 Hz. -/
def node_callback_profile2 : Impl :=
  (impl_node_set_param node_with_callback SPA_PARAM_Profile 0
    (profile_param SPA_AUDIO_FORMAT_F32P 48000 2)).2

/-- The recycle step of the loop in `impl_node_process`: the output port and
its I/O cell after the slot the cell names, if it is a slot of the port, was
put back on the queue. -/
def recycle (outport : Port) (outio : SpaIoBuffers) : Port × SpaIoBuffers :=
  if outio.buffer_id < outport.n_buffers then
    (queue_buffer outport outio.buffer_id, { outio with buffer_id := SPA_ID_INVALID })
  else (outport, outio)

/-- The frame count of the loop in `impl_node_process` after the clamp to a
dequeued slot of the port. -/
def clamp_n_samples (n_samples : Nat) (outport : Port) (slot : Nat) : Nat :=
  let maxsize := ((outport.buffers slot).desc.datas.getD 0 SpaData.zero).maxsize
  let maxsize :=
    match outport.ctrl with
    | some ctrl => SPA_MIN ctrl.max_size maxsize
    | none => maxsize
  SPA_MIN n_samples (maxsize / outport.stride)

/-- The output port of the loop in `impl_node_process` after it was given the
dequeued slot: every region of the slot's buffer has its chunk set to
`n_samples` frames at offset 0, and the cell publishes the buffer. -/
def publish_slot (n_samples : Nat) (outport : Port) (outio : SpaIoBuffers) (slot : Nat) : Port :=
  let dbuf := outport.buffers slot
  let dd := dbuf.desc.datas.map (fun (d : SpaData) =>
    { d with chunk := { d.chunk with
                        offset := 0
                        size := (n_samples * outport.stride) % 4294967296 } })
  let dbuf : Buffer := { dbuf with buf := some { dbuf.desc with datas := dd } }
  { outport with
    io := some { outio with status := SPA_STATUS_HAVE_BUFFER, buffer_id := dbuf.desc.id }
    buffers := Function.update outport.buffers slot dbuf }

/-- The frame count `impl_node_process` computes from the input buffer in
slot `buffer_id`, before the loop over the output ports: the least chunk
size of its regions, capped at INT_MAX, divided by the stride. -/
def input_n_samples (inport : Port) (buffer_id : Nat) : Nat :=
  ((inport.buffers buffer_id).desc.datas.foldl (fun m d => SPA_MIN d.chunk.size m) INT_MAX)
    / inport.stride

/-- The loop over the output ports in `impl_node_process`, run over the
first `n` output ports, for the input buffer in slot `buffer_id`. -/
def process_out_ports (this : Impl) (buffer_id : Nat) (n : Nat) : ProcessLoop :=
  (List.range n).foldl process_out_port
    { this := this, res := 0, n_samples := input_n_samples this.in_port buffer_id, dst_datas := [] }

/-- A freshly initialised node whose input port, which has no buffers, was
given an I/O cell that announces buffer 0; no transform is selected. -/
def node_with_full_input_cell : Impl :=
  (impl_node_port_set_io (impl_init 0) Direction.Input 0 SPA_IO_Buffers
    (IoData.buffers { status := SPA_STATUS_HAVE_BUFFER, buffer_id := 0 })).2

/-- The node `node_with_full_input_cell` with the transform 7 selected. -/
def node_with_full_input_cell_and_transform : Impl :=
  { node_with_full_input_cell with convert := some 7 }

/-- The node `node_processed`, whose output cells both hold a buffer the
driver has not taken, after the driver announced input buffer 0 again. -/
def node_second_cycle : Impl :=
  (impl_node_port_set_io node_processed Direction.Input 0 SPA_IO_Buffers
    (IoData.buffers { status := SPA_STATUS_HAVE_BUFFER, buffer_id := 0 })).2

/-- The node `node_processed` after the driver took the buffers of both
output ports without giving them back (the output cells hold nothing) and
announced input buffer 0 again: the queues of both output ports are
empty. -/
def node_exhausted : Impl :=
  (impl_node_port_set_io
    (impl_node_port_set_io node_second_cycle Direction.Output 0 SPA_IO_Buffers
      (IoData.buffers { status := SPA_STATUS_NEED_BUFFER, buffer_id := SPA_ID_INVALID })).2
    Direction.Output 1 SPA_IO_Buffers
    (IoData.buffers { status := SPA_STATUS_NEED_BUFFER, buffer_id := SPA_ID_INVALID })).2

/-- The node `node_formats` after an input buffer holding a chunk of 16384
bytes (2048 frames of two F32 channels) was attached to the input port and
every port was given an I/O cell; the input cell announces the buffer, the
output ports have no buffers. -/
def node_long_input : Impl :=
  (impl_node_port_set_io
    (impl_node_port_set_io
      (impl_node_port_set_io
        (impl_node_port_use_buffers node_formats Direction.Input 0
          [mem_buffer 0 16384 16384]).2
        Direction.Input 0 SPA_IO_Buffers
        (IoData.buffers { status := SPA_STATUS_HAVE_BUFFER, buffer_id := 0 })).2
      Direction.Output 0 SPA_IO_Buffers
      (IoData.buffers { status := SPA_STATUS_NEED_BUFFER, buffer_id := SPA_ID_INVALID })).2
    Direction.Output 1 SPA_IO_Buffers
    (IoData.buffers { status := SPA_STATUS_NEED_BUFFER, buffer_id := SPA_ID_INVALID })).2

/-- The node `node_formats` after one buffer was attached to every port and
every port was given an I/O cell: the input buffer holds a chunk of 2048
bytes (256 frames), the buffer of output port 0 has room for 1024 bytes and
the buffer of output port 1 for 512 bytes. -/
def node_uneven_outputs : Impl :=
  (impl_node_port_set_io
    (impl_node_port_set_io
      (impl_node_port_set_io
        (impl_node_port_use_buffers
          (impl_node_port_use_buffers
            (impl_node_port_use_buffers node_formats Direction.Input 0
              [mem_buffer 0 2048 2048]).2
            Direction.Output 0 [mem_buffer 0 1024 0]).2
          Direction.Output 1 [mem_buffer 0 512 0]).2
        Direction.Input 0 SPA_IO_Buffers
        (IoData.buffers { status := SPA_STATUS_HAVE_BUFFER, buffer_id := 0 })).2
      Direction.Output 0 SPA_IO_Buffers
      (IoData.buffers { status := SPA_STATUS_NEED_BUFFER, buffer_id := SPA_ID_INVALID })).2
    Direction.Output 1 SPA_IO_Buffers
    (IoData.buffers { status := SPA_STATUS_NEED_BUFFER, buffer_id := SPA_ID_INVALID })).2

/-- The node `node_rejected_buffers`, whose output port 0 has no buffers and
a queue that still holds slot 0, after a use_buffers call on that port with
two valid descriptors; the call succeeds. -/
def node_requeued : Impl :=
  (impl_node_port_use_buffers node_rejected_buffers Direction.Output 0
    [mem_buffer 0 1024 0, mem_buffer 1 1024 0]).2

/-- A fresh node, without a profile, after the interleaved F32 format with 0
channels was set on the input port, one buffer with a chunk of 2048 bytes
was attached to it and its I/O cell announces that buffer. -/
def node_zero_channels : Impl :=
  (impl_node_port_set_io
    (impl_node_port_use_buffers
      (impl_node_port_set_param f32_only (impl_init 0) Direction.Input 0 SPA_PARAM_Format 0
        (some (format_param SPA_AUDIO_FORMAT_F32 48000 0))).2
      Direction.Input 0 [mem_buffer 0 2048 2048]).2
    Direction.Input 0 SPA_IO_Buffers
    (IoData.buffers { status := SPA_STATUS_HAVE_BUFFER, buffer_id := 0 })).2

/-- A list of `n` valid buffer descriptors with the ids 0 to n - 1. -/
def mem_buffers (n : Nat) : List SpaBuffer :=
  (List.range n).map (fun i => mem_buffer i 1024 0)

/-- An output port that process skips: its I/O cell is live and still has
the status "buffer available". -/
def port_pending (port : Port) : Bool :=
  match port.io with
  | some cell => cell.status == SPA_STATUS_HAVE_BUFFER
  | none => false

/-- An output port that process services: its I/O cell is live, does not
have the status "buffer available", and a slot can be dequeued for it after
the recycle step. -/
def port_serviced (port : Port) : Bool :=
  match port.io with
  | some cell =>
    cell.status != SPA_STATUS_HAVE_BUFFER && (dequeue_buffer (recycle port cell).1).1.isSome
  | none => false

/-- The node `node_formats` after a buffer with a chunk of 2048 bytes (256
frames) was attached to the input port. -/
def node_input_buffer : Impl :=
  (impl_node_port_use_buffers node_formats Direction.Input 0 [mem_buffer 0 2048 2048]).2

/-- The end-to-end scenario: the node `node_input_buffer` after a buffer with
room for `m0` bytes was attached to output port 0 and one with room for
`m1` bytes to output port 1, the input cell was set to announce buffer 0 and
the output ports were given the I/O cells `c0` and `c1`. -/
def node_scenario (m0 m1 : Nat) (c0 c1 : SpaIoBuffers) : Impl :=
  (impl_node_port_set_io
    (impl_node_port_set_io
      (impl_node_port_set_io
        (impl_node_port_use_buffers
          (impl_node_port_use_buffers node_input_buffer Direction.Output 0
            [mem_buffer 0 m0 0]).2
          Direction.Output 1 [mem_buffer 0 m1 0]).2
        Direction.Input 0 SPA_IO_Buffers
        (IoData.buffers { status := SPA_STATUS_HAVE_BUFFER, buffer_id := 0 })).2
      Direction.Output 0 SPA_IO_Buffers (IoData.buffers c0)).2
    Direction.Output 1 SPA_IO_Buffers (IoData.buffers c1)).2

/-- A filter that finds no intersection, whatever the candidate and the
constraint. -/
def reject_all : Pod → Pod → Option Pod := fun _ _ => none

/-- The number of entries at the head of the table `spa_type_audio_channel`
that this development counts on. The function `init_port` reads the name at
the index `position` of the table (splitter.c:117); a position without an
entry makes that read a fault. The table is declared in
spa/param/audio/type-info.h, which is not among the sources; it gives the
channel ids of `enum spa_audio_channel` their names. All that is assumed of
it here is that its first five entries are there and have a name (in the
header the ids UNKNOWN, NA, MONO, FL and FR, of which splitter.c uses the
last two in its default mask). -/
def n_named_channels : Nat := 5

/-- The profile parameters on which the loop over the output ports in
`impl_node_set_param` reads only what is there: either the parameter is
rejected before the loop (no format property, a format that is no Format
object or not audio/raw, a failing parse), or the parsed description has at
most SPA_AUDIO_MAX_CHANNELS channels, the size of its position array, and
each of the positions the loop hands to `init_port` is one of the first
`n_named_channels` channel ids, which have a name in the table
`spa_type_audio_channel`. -/
def profile_in_range (param : Pod) : Bool :=
  match parse_Pod param SPA_PARAM_PROFILE_format with
  | Except.error _ => true
  | Except.ok format =>
    if !SPA_POD_IS_OBJECT_TYPE format SPA_TYPE_OBJECT_Format then true
    else
      let (res, media_type, media_subtype) := spa_format_parse format 0 0
      if res < 0 then true
      else if media_type != SPA_MEDIA_TYPE_audio || media_subtype != SPA_MEDIA_SUBTYPE_raw then
        true
      else
        let (res, raw) := spa_format_audio_raw_parse format AudioInfoRaw.zero
        if res < 0 then true
        else
          decide (raw.channels ≤ SPA_AUDIO_MAX_CHANNELS)
            && (List.range raw.channels).all
                (fun i => decide (raw.position.getD i 0 < n_named_channels))

/-- A raw audio description with the given sample format, rate and channel
count, flagged unpositioned: it carries no channel positions. -/
def raw_info_unpositioned (format rate channels : Nat) : AudioInfoRaw :=
  { AudioInfoRaw.zero with
    format := format, rate := rate, channels := channels
    flags := SPA_AUDIO_FLAG_UNPOSITIONED }

/-- The format object of an unpositioned raw audio description: it has no
position property. -/
def format_param_unpositioned (format rate channels : Nat) : Pod :=
  spa_format_audio_raw_build SPA_PARAM_Format (raw_info_unpositioned format rate channels)

/-- A profile parameter whose format property is the format object of an
unpositioned description. -/
def profile_param_unpositioned (format rate channels : Nat) : Pod :=
  Pod.object SPA_TYPE_OBJECT_ParamProfile SPA_PARAM_Profile
    [(SPA_PARAM_PROFILE_format, format_param_unpositioned format rate channels)]

/-- A fresh node after an unpositioned profile of 4294967295 channels: the
channel count is stored in the `int` port count as -1, and the loop over the
output ports does not run. -/
def node_negative_port_count : Impl :=
  (impl_node_set_param (impl_init 0) SPA_PARAM_Profile 0
    (profile_param_unpositioned SPA_AUDIO_FORMAT_F32P 48000 4294967295)).2

/-- The node `node_negative_port_count` after the interleaved F32 format of
4294967295 channels was set on the input port. -/
def node_wrapped_stride : Impl :=
  (impl_node_port_set_param f32_only node_negative_port_count Direction.Input 0
    SPA_PARAM_Format 0
    (some (format_param_unpositioned SPA_AUDIO_FORMAT_F32 48000 4294967295))).2

/-- The node `node_two_buffers` after the format of output port 0 was cleared
by a null format parameter: the port has no buffer and an empty available
queue, while the slots 0 and 1 keep the queued flag that use_buffers set. -/
def node_cleared_format : Impl :=
  (impl_node_port_set_param f32_only node_two_buffers Direction.Output 0 SPA_PARAM_Format 0
    none).2

/-- A node whose input port has the stride 0 and one output port: a fresh
node after the interleaved F32 format with 0 channels was set on the input
port (the port count of a fresh node is 0), a profile of one channel was set
(which leaves the stride of the input port alone), one buffer with a chunk
of 2048 bytes was attached to the input port and its I/O cell announces that
buffer. -/
def node_zero_stride : Impl :=
  (impl_node_port_set_io
    (impl_node_port_use_buffers
      (impl_node_set_param
        (impl_node_port_set_param f32_only (impl_init 0) Direction.Input 0 SPA_PARAM_Format 0
          (some (format_param SPA_AUDIO_FORMAT_F32 48000 0))).2
        SPA_PARAM_Profile 0 (profile_param SPA_AUDIO_FORMAT_F32P 48000 1)).2
      Direction.Input 0 [mem_buffer 0 2048 2048]).2
    Direction.Input 0 SPA_IO_Buffers
    (IoData.buffers { status := SPA_STATUS_HAVE_BUFFER, buffer_id := 0 })).2

/-- The node `node_zero_stride` after output port 0 was given an I/O cell
that already has the status "buffer available". -/
def node_zero_stride_pending : Impl :=
  (impl_node_port_set_io node_zero_stride Direction.Output 0 SPA_IO_Buffers
    (IoData.buffers { status := SPA_STATUS_HAVE_BUFFER, buffer_id := 0 })).2

/-- The node `node_zero_stride` after output port 0, which has no buffers,
was given an I/O cell that holds nothing. -/
def node_zero_stride_exhausted : Impl :=
  (impl_node_port_set_io node_zero_stride Direction.Output 0 SPA_IO_Buffers
    (IoData.buffers { status := SPA_STATUS_NEED_BUFFER, buffer_id := SPA_ID_INVALID })).2

/-- The node `node_profile2` after the interleaved two-channel F32 format was
set on the input port; no format was set on an output port. -/
def node_input_format : Impl :=
  (impl_node_port_set_param f32_only node_profile2 Direction.Input 0 SPA_PARAM_Format 0
    (some (format_param SPA_AUDIO_FORMAT_F32 48000 2))).2

/-- The node `node_input_format` after the remaining steps of the end-to-end
scenario were made without a format on the output ports: a buffer with a
chunk of 2048 bytes on the input port, a use_buffers call with one buffer of
1024 bytes on each output port, and an I/O cell on every port, the input
cell announcing buffer 0, the output cells holding nothing. -/
def node_scenario_unformatted : Impl :=
  (impl_node_port_set_io
    (impl_node_port_set_io
      (impl_node_port_set_io
        (impl_node_port_use_buffers
          (impl_node_port_use_buffers
            (impl_node_port_use_buffers node_input_format Direction.Input 0
              [mem_buffer 0 2048 2048]).2
            Direction.Output 0 [mem_buffer 0 1024 0]).2
          Direction.Output 1 [mem_buffer 0 1024 0]).2
        Direction.Input 0 SPA_IO_Buffers
        (IoData.buffers { status := SPA_STATUS_HAVE_BUFFER, buffer_id := 0 })).2
      Direction.Output 0 SPA_IO_Buffers
      (IoData.buffers { status := SPA_STATUS_NEED_BUFFER, buffer_id := SPA_ID_INVALID })).2
    Direction.Output 1 SPA_IO_Buffers
    (IoData.buffers { status := SPA_STATUS_NEED_BUFFER, buffer_id := SPA_ID_INVALID })).2

/-- An output port on which the body of the loop in `impl_node_process`
reads, writes and divides only what is there, and on which the FIFO `queue`
tells what the linked list of the C code holds. The buffer count is within
the MAX_BUFFERS slots of the port; the queue holds no slot twice, and every
slot in it is one of the MAX_BUFFERS slots and has its queued flag set, so
that the recycle step does not link a slot that is already linked. A port
without a cell, a port that is skipped and a port with nothing to dequeue
after the recycle step need no more. A port that is given a slot needs the
slot to be one of the MAX_BUFFERS slots, with a descriptor attached
(`dbuf->buf->datas`) that has a region (`dd->maxsize`), and the stride of
the port, by which `maxsize` is divided, to be positive. -/
def port_slot_ready (port : Port) : Bool :=
  decide (port.n_buffers ≤ MAX_BUFFERS)
    && decide port.queue.Nodup
    && port.queue.all (fun id =>
        decide (id < MAX_BUFFERS) && SPA_FLAG_CHECK (port.buffers id).flags BUFFER_FLAG_QUEUED)
    && match port.io with
       | none => true
       | some cell =>
         if cell.status == SPA_STATUS_HAVE_BUFFER then true
         else
           match dequeue_buffer (recycle port cell).1 with
           | (none, _) => true
           | (some slot, q) =>
             decide (slot < MAX_BUFFERS) && (q.buffers slot).buf.isSome
               && !(q.buffers slot).desc.datas.isEmpty && decide (0 < q.stride)

/-- The node states on which a call of `impl_node_process` is a defined run
of the C function, so that `impl_node_process` of this development, which
makes every read and every division total, tells what the C function does.
A call that returns at one of the four input checks is always defined. A
call that gets past them needs: a positive stride of the input port, by
which the least chunk size is divided (splitter.c:880); the buffer count of
the input port within MAX_BUFFERS and the announced input slot attached to
a descriptor (`sbuf->buf->datas`); a port count of at most MAX_PORTS, the
size of `out_ports`; every output port below the port count ready in the
sense of `port_slot_ready`; at most MAX_PORTS destinations, the size of
`dst_datas`; and, when the scratch region is one of the destinations, a
frame count of at most MAX_SAMPLES, the size of the scratch region. -/
def process_defined (this : Impl) : Bool :=
  match this.in_port.io, this.convert with
  | some inio, some _ =>
    if inio.status != SPA_STATUS_HAVE_BUFFER || decide (inio.buffer_id >= this.in_port.n_buffers)
    then true
    else
      decide (0 < this.in_port.stride)
        && decide (this.in_port.n_buffers ≤ MAX_BUFFERS)
        && (this.in_port.buffers inio.buffer_id).buf.isSome
        && decide (this.port_count ≤ MAX_PORTS)
        && (List.range this.port_count.toNat).all (fun i => port_slot_ready (this.out_ports i))
        && decide ((process_out_ports this inio.buffer_id this.port_count.toNat).dst_datas.length
            ≤ MAX_PORTS)
        && (!(process_out_ports this inio.buffer_id this.port_count.toNat).dst_datas.contains
              Dest.empty
            || decide ((process_out_ports this inio.buffer_id this.port_count.toNat).n_samples
                ≤ MAX_SAMPLES))
  | _, _ => true

/-! # Properties -/

/-! ## Process: the backpressure path -/

/-- C1, as stated, fails: on a node whose input cell is live with status
"need buffer" but that has no transform selected, process returns -EIO, not
"need buffer". -/
theorem process_without_transform_returns_eio :
    node_with_input_cell.in_port.io
        = some { status := SPA_STATUS_NEED_BUFFER, buffer_id := 0 }
      ∧ SPA_STATUS_NEED_BUFFER ≠ SPA_STATUS_HAVE_BUFFER
      ∧ (impl_node_process node_with_input_cell).res = - EIO
      ∧ (impl_node_process node_with_input_cell).res ≠ SPA_STATUS_NEED_BUFFER := by
  refine ⟨rfl, by decide, rfl, by decide⟩

/-- C1, amended: when the input port has a live I/O cell whose status is not
"buffer available", process leaves the whole node state unchanged and calls
no transform; it returns "need buffer" when a transform is selected and -EIO
when none is. -/
theorem process_backpressure (s : Impl) (cell : SpaIoBuffers)
    (hcell : s.in_port.io = some cell)
    (hstatus : cell.status ≠ SPA_STATUS_HAVE_BUFFER) :
    (impl_node_process s).this = s
      ∧ (impl_node_process s).call = none
      ∧ (s.convert ≠ none → (impl_node_process s).res = SPA_STATUS_NEED_BUFFER)
      ∧ (s.convert = none → (impl_node_process s).res = - EIO) := by
  unfold impl_node_process
  simp only [hcell]
  cases hconv : s.convert with
  | none => simp
  | some f => simp [hstatus]

/-- The amended C1 on a node with the transform 7 selected and a live input
cell of status "need buffer": process returns "need buffer" and the node is
unchanged. -/
theorem process_backpressure_witness :
    (impl_node_process node_with_input_cell_and_transform).this
        = node_with_input_cell_and_transform
      ∧ (impl_node_process node_with_input_cell_and_transform).call = none
      ∧ (impl_node_process node_with_input_cell_and_transform).res = SPA_STATUS_NEED_BUFFER :=
  have h := process_backpressure node_with_input_cell_and_transform
    { status := SPA_STATUS_NEED_BUFFER, buffer_id := 0 } rfl (by decide)
  ⟨h.1, h.2.1, h.2.2.1 (by decide)⟩

/-! ## The queued flag -/

/-- A flag field in which the queued flag was set passes the check. -/
theorem flag_check_set (f : Nat) :
    SPA_FLAG_CHECK (SPA_FLAG_SET f BUFFER_FLAG_QUEUED) BUFFER_FLAG_QUEUED = true := by
  unfold SPA_FLAG_CHECK SPA_FLAG_SET BUFFER_FLAG_QUEUED
  have h : (f ||| 1) &&& 1 = 1 := by
    rw [Nat.and_one_is_mod, Nat.or_mod_two_eq_one]; right; rfl
  simp [h]

/-- A flag field in which the queued flag was unset fails the check. -/
theorem flag_check_unset (f : Nat) :
    SPA_FLAG_CHECK (SPA_FLAG_UNSET f BUFFER_FLAG_QUEUED) BUFFER_FLAG_QUEUED = false := by
  unfold SPA_FLAG_CHECK SPA_FLAG_UNSET BUFFER_FLAG_QUEUED
  have h : (f &&& (4294967295 ^^^ 1)) &&& 1 = 0 := by
    rw [Nat.and_assoc]
    show f &&& 0 = 0
    simp
  simp [h]

/-- Queueing a slot a second time changes nothing. -/
theorem queue_buffer_idem (port : Port) (id : Nat) :
    queue_buffer (queue_buffer port id) id = queue_buffer port id := by
  by_cases h : SPA_FLAG_CHECK (port.buffers id).flags BUFFER_FLAG_QUEUED = true
  · simp [queue_buffer, h]
  · have h2 : queue_buffer port id =
        { port with
          queue := port.queue ++ [id]
          buffers := Function.update port.buffers id
            { port.buffers id with
              flags := SPA_FLAG_SET (port.buffers id).flags BUFFER_FLAG_QUEUED } } := by
      simp [queue_buffer, h]
    rw [h2]
    simp [queue_buffer, flag_check_set]

/-- Queueing a slot whose queued flag is clear appends it at the tail. -/
theorem queue_buffer_queue_of_clear (port : Port) (id : Nat)
    (h : SPA_FLAG_CHECK (port.buffers id).flags BUFFER_FLAG_QUEUED = false) :
    (queue_buffer port id).queue = port.queue ++ [id] := by
  simp [queue_buffer, h]

/-- On a valid output port `impl_node_port_reuse_buffer` returns 0 and queues
the slot on that port. -/
theorem reuse_buffer_of_valid (s : Impl) (port_id buffer_id : Nat)
    (hport : CHECK_PORT s Direction.Output port_id = true) :
    impl_node_port_reuse_buffer s port_id buffer_id
      = (0, { s with out_ports := (Function.update s.out_ports port_id
                (queue_buffer (s.out_ports port_id) buffer_id)) }) := by
  simp [impl_node_port_reuse_buffer, hport]

/-- Two calls of `impl_node_port_reuse_buffer` in a row on a valid output
port: both return 0, the second changes nothing, and a slot that was not
in the queue and whose queued flag, if set, would tell the truth is
appended once. -/
theorem reuse_buffer_twice (s : Impl) (port_id buffer_id : Nat)
    (hport : CHECK_PORT s Direction.Output port_id = true) :
    (impl_node_port_reuse_buffer s port_id buffer_id).1 = 0
      ∧ (impl_node_port_reuse_buffer
          (impl_node_port_reuse_buffer s port_id buffer_id).2 port_id buffer_id).1 = 0
      ∧ (impl_node_port_reuse_buffer
          (impl_node_port_reuse_buffer s port_id buffer_id).2 port_id buffer_id).2
        = (impl_node_port_reuse_buffer s port_id buffer_id).2
      ∧ ((SPA_FLAG_CHECK ((s.out_ports port_id).buffers buffer_id).flags BUFFER_FLAG_QUEUED = true
            → buffer_id ∈ (s.out_ports port_id).queue) →
          buffer_id ∉ (s.out_ports port_id).queue →
          (((impl_node_port_reuse_buffer s port_id buffer_id).2.out_ports port_id).queue
              = (s.out_ports port_id).queue ++ [buffer_id]
            ∧ ((impl_node_port_reuse_buffer
                (impl_node_port_reuse_buffer s port_id buffer_id).2 port_id buffer_id).2.out_ports
                  port_id).queue.count buffer_id = 1)) := by
  have h1 := reuse_buffer_of_valid s port_id buffer_id hport
  have hport2 : CHECK_PORT { s with out_ports := (Function.update s.out_ports port_id
      (queue_buffer (s.out_ports port_id) buffer_id)) } Direction.Output port_id = true := by
    simpa [CHECK_PORT, CHECK_OUT_PORT, CHECK_IN_PORT] using hport
  have h2 := reuse_buffer_of_valid _ port_id buffer_id hport2
  rw [h1]
  simp only []
  rw [h2]
  simp only [Function.update_same, Function.update_idem, queue_buffer_idem, true_and]
  intro hcoh hnot
  have hclear : SPA_FLAG_CHECK ((s.out_ports port_id).buffers buffer_id).flags
      BUFFER_FLAG_QUEUED = false := by
    cases hc : SPA_FLAG_CHECK ((s.out_ports port_id).buffers buffer_id).flags BUFFER_FLAG_QUEUED
    · rfl
    · exact absurd (hcoh hc) hnot
  rw [queue_buffer_queue_of_clear _ _ hclear, List.count_append,
    List.count_eq_zero_of_not_mem hnot]
  simp

/-! ## Stride and blocks of a committed format -/

/-- The sample width is 1, 2, 3 or 4. -/
theorem toU32_calc_width (info : AudioInfo) :
    toU32 (calc_width info) = 1 ∨ toU32 (calc_width info) = 2
      ∨ toU32 (calc_width info) = 3 ∨ toU32 (calc_width info) = 4 := by
  unfold calc_width
  split_ifs <;> decide

/-- The sample width only depends on the raw part of the description. -/
theorem calc_width_raw (mt mst mt2 mst2 : Nat) (raw : AudioInfoRaw) :
    calc_width { media_type := mt, media_subtype := mst, raw := raw }
      = calc_width { media_type := mt2, media_subtype := mst2, raw := raw } := rfl

/-- The function `setup_convert` leaves the input port alone. -/
theorem setup_convert_in_port (find_conv_info : FindConvInfo) (s : Impl) :
    (setup_convert find_conv_info s).2.in_port = s.in_port := by
  simp only [setup_convert]
  split <;> rfl

/-- The function `setup_convert` leaves the output ports alone. -/
theorem setup_convert_out_ports (find_conv_info : FindConvInfo) (s : Impl) :
    (setup_convert find_conv_info s).2.out_ports = s.out_ports := by
  simp only [setup_convert]
  split <;> rfl

/-- The sample width by sample format. -/
theorem calc_width_table (info : AudioInfo) :
    (toU32 (calc_width info) = 1 ↔
        info.raw.format = SPA_AUDIO_FORMAT_U8 ∨ info.raw.format = SPA_AUDIO_FORMAT_U8P)
      ∧ (toU32 (calc_width info) = 2 ↔
        info.raw.format = SPA_AUDIO_FORMAT_S16P ∨ info.raw.format = SPA_AUDIO_FORMAT_S16
          ∨ info.raw.format = SPA_AUDIO_FORMAT_S16_OE)
      ∧ (toU32 (calc_width info) = 3 ↔
        info.raw.format = SPA_AUDIO_FORMAT_S24P ∨ info.raw.format = SPA_AUDIO_FORMAT_S24
          ∨ info.raw.format = SPA_AUDIO_FORMAT_S24_OE)
      ∧ (toU32 (calc_width info) = 4 ↔
        ¬ (info.raw.format = SPA_AUDIO_FORMAT_U8 ∨ info.raw.format = SPA_AUDIO_FORMAT_U8P
          ∨ info.raw.format = SPA_AUDIO_FORMAT_S16P ∨ info.raw.format = SPA_AUDIO_FORMAT_S16
          ∨ info.raw.format = SPA_AUDIO_FORMAT_S16_OE ∨ info.raw.format = SPA_AUDIO_FORMAT_S24P
          ∨ info.raw.format = SPA_AUDIO_FORMAT_S24 ∨ info.raw.format = SPA_AUDIO_FORMAT_S24_OE)) := by
  unfold calc_width
  simp only [SPA_AUDIO_FORMAT_U8, SPA_AUDIO_FORMAT_U8P, SPA_AUDIO_FORMAT_S16P,
    SPA_AUDIO_FORMAT_S16, SPA_AUDIO_FORMAT_S16_OE, SPA_AUDIO_FORMAT_S24P, SPA_AUDIO_FORMAT_S24,
    SPA_AUDIO_FORMAT_S24_OE]
  split_ifs with a b c
  · have e : toU32 1 = 1 := by decide
    rw [e]; omega
  · have e : toU32 2 = 2 := by decide
    rw [e]; omega
  · have e : toU32 3 = 3 := by decide
    rw [e]; omega
  · have e : toU32 4 = 4 := by decide
    rw [e]; omega

/-- What a successful `port_set_format` records in the port, on a node whose
port count is within MAX_PORTS. -/
theorem port_set_format_commits (find_conv_info : FindConvInfo) (s : Impl)
    (direction : Direction) (port_id flags : Nat) (format : Pod)
    (hcount : toU32 s.port_count ≤ MAX_PORTS)
    (hres : (port_set_format find_conv_info s direction port_id flags (some format)).1 = 0) :
    let raw := (spa_format_audio_raw_parse format AudioInfoRaw.zero).2
    let port := GET_PORT (port_set_format find_conv_info s direction port_id flags (some format)).2
      direction port_id
    let w := toU32 (calc_width { media_type := SPA_MEDIA_TYPE_audio,
                                 media_subtype := SPA_MEDIA_SUBTYPE_raw, raw := raw })
    port.have_format = true ∧ port.format.raw = raw
      ∧ (SPA_AUDIO_FORMAT_IS_PLANAR raw.format = true →
          port.blocks = raw.channels ∧ port.stride = w)
      ∧ (SPA_AUDIO_FORMAT_IS_PLANAR raw.format = false →
          port.blocks = 1 ∧ port.stride = w * raw.channels) := by
  rcases h1 : spa_format_parse format 0 0 with ⟨r1, mt, mst⟩
  rcases h2 : spa_format_audio_raw_parse format AudioInfoRaw.zero with ⟨r2, raw⟩
  have hw2 := calc_width_raw mt mst SPA_MEDIA_TYPE_audio SPA_MEDIA_SUBTYPE_raw raw
  have hw := toU32_calc_width ⟨SPA_MEDIA_TYPE_audio, SPA_MEDIA_SUBTYPE_raw, raw⟩
  simp only [MAX_PORTS] at hcount
  cases direction
  · -- the input port
    simp only [port_set_format, h1, h2, hw2] at hres ⊢
    split_ifs at hres ⊢ with c1 c2 c3 c4 c5 c6
    · simp at hres; omega
    · simp [EINVAL] at hres
    · simp [EINVAL] at hres
    · simp [EINVAL] at hres
    · simp [GET_PORT, SET_PORT, setup_convert_in_port, c6]
    · have hch : raw.channels = toU32 s.port_count := by simpa using c4
      have hlt : toU32 (calc_width ⟨SPA_MEDIA_TYPE_audio, SPA_MEDIA_SUBTYPE_raw, raw⟩)
          * raw.channels < 4294967296 := by
        rcases hw with h | h | h | h <;> rw [h, hch] <;> omega
      simp [GET_PORT, SET_PORT, setup_convert_in_port, c6, Nat.mod_eq_of_lt hlt]
    · simp at c5
    · simp at c5
  · -- an output port
    simp only [port_set_format, h1, h2, hw2] at hres ⊢
    split_ifs at hres ⊢ with c1 c2 c3 c4 c5 c6
    · simp at hres; omega
    · simp [EINVAL] at hres
    · simp [EINVAL] at hres
    · simp [EINVAL] at hres
    · simp at c5
    · simp at c5
    · rename_i c6
      simp [GET_PORT, SET_PORT, c6]
    · rename_i c6
      have hch : raw.channels = 1 := by
        simp at c4; exact c4.2
      have hlt : toU32 (calc_width ⟨SPA_MEDIA_TYPE_audio, SPA_MEDIA_SUBTYPE_raw, raw⟩)
          < 4294967296 := by
        rcases hw with h | h | h | h <;> rw [h] <;> omega
      simp [GET_PORT, SET_PORT, c6, hch, Nat.mod_eq_of_lt hlt]

/-- After a successful port_set_format with a non-null format on a node
whose port count is within MAX_PORTS, the port has a committed format equal
to the parsed one, and with c its channel count and w its sample width:
blocks = c and stride = w when the format is planar, blocks = 1 and
stride = w * c when it is interleaved; w is 1 exactly for U8 and U8P, 2
exactly for S16P, S16 and S16_OE, 3 exactly for S24P, S24 and S24_OE, and 4
exactly for every other format. -/
theorem port_set_format_stride_blocks (find_conv_info : FindConvInfo) (s : Impl)
    (direction : Direction) (port_id flags : Nat) (format : Pod)
    (hcount : toU32 s.port_count ≤ MAX_PORTS)
    (hres : (port_set_format find_conv_info s direction port_id flags (some format)).1 = 0) :
    let raw := (spa_format_audio_raw_parse format AudioInfoRaw.zero).2
    let port := GET_PORT (port_set_format find_conv_info s direction port_id flags (some format)).2
      direction port_id
    let w := toU32 (calc_width { media_type := SPA_MEDIA_TYPE_audio,
                                 media_subtype := SPA_MEDIA_SUBTYPE_raw, raw := raw })
    port.have_format = true ∧ port.format.raw = raw
      ∧ (SPA_AUDIO_FORMAT_IS_PLANAR raw.format = true →
          port.blocks = raw.channels ∧ port.stride = w)
      ∧ (SPA_AUDIO_FORMAT_IS_PLANAR raw.format = false →
          port.blocks = 1 ∧ port.stride = w * raw.channels)
      ∧ (w = 1 ↔ raw.format = SPA_AUDIO_FORMAT_U8 ∨ raw.format = SPA_AUDIO_FORMAT_U8P)
      ∧ (w = 2 ↔ raw.format = SPA_AUDIO_FORMAT_S16P ∨ raw.format = SPA_AUDIO_FORMAT_S16
          ∨ raw.format = SPA_AUDIO_FORMAT_S16_OE)
      ∧ (w = 3 ↔ raw.format = SPA_AUDIO_FORMAT_S24P ∨ raw.format = SPA_AUDIO_FORMAT_S24
          ∨ raw.format = SPA_AUDIO_FORMAT_S24_OE)
      ∧ (w = 4 ↔ ¬ (raw.format = SPA_AUDIO_FORMAT_U8 ∨ raw.format = SPA_AUDIO_FORMAT_U8P
          ∨ raw.format = SPA_AUDIO_FORMAT_S16P ∨ raw.format = SPA_AUDIO_FORMAT_S16
          ∨ raw.format = SPA_AUDIO_FORMAT_S16_OE ∨ raw.format = SPA_AUDIO_FORMAT_S24P
          ∨ raw.format = SPA_AUDIO_FORMAT_S24 ∨ raw.format = SPA_AUDIO_FORMAT_S24_OE)) := by
  have h := port_set_format_commits find_conv_info s direction port_id flags format hcount hres
  exact ⟨h.1, h.2.1, h.2.2.1, h.2.2.2, calc_width_table _⟩

/-- The strides and blocks on the input port of a node with a two-channel
profile: interleaved F32 (4-byte samples) with 2 channels gives blocks = 1
and stride = 8, planar F32P with 2 channels gives blocks = 2 and
stride = 4. -/
theorem port_set_format_stride_blocks_witness :
    ((port_set_format f32_only node_profile2 Direction.Input 0 0
        (some (format_param SPA_AUDIO_FORMAT_F32 48000 2))).2.in_port.blocks = 1
      ∧ (port_set_format f32_only node_profile2 Direction.Input 0 0
        (some (format_param SPA_AUDIO_FORMAT_F32 48000 2))).2.in_port.stride = 8)
    ∧ ((port_set_format f32_only node_profile2 Direction.Input 0 0
        (some (format_param SPA_AUDIO_FORMAT_F32P 48000 2))).2.in_port.blocks = 2
      ∧ (port_set_format f32_only node_profile2 Direction.Input 0 0
        (some (format_param SPA_AUDIO_FORMAT_F32P 48000 2))).2.in_port.stride = 4) :=
  ⟨(port_set_format_stride_blocks f32_only node_profile2 Direction.Input 0 0
      (format_param SPA_AUDIO_FORMAT_F32 48000 2) (by decide) (by decide)).2.2.2.1 (by decide),
   (port_set_format_stride_blocks f32_only node_profile2 Direction.Input 0 0
      (format_param SPA_AUDIO_FORMAT_F32P 48000 2) (by decide) (by decide)).2.2.1 (by decide)⟩

/-- The node `node_wrapped_stride` is a reachable state of the node. -/
theorem node_wrapped_stride_reachable : Reachable f32_only node_wrapped_stride :=
  Reachable.port_set_param Direction.Input 0 SPA_PARAM_Format 0
    (some (format_param_unpositioned SPA_AUDIO_FORMAT_F32 48000 4294967295))
    (Reachable.set_param SPA_PARAM_Profile 0
      (profile_param_unpositioned SPA_AUDIO_FORMAT_F32P 48000 4294967295)
      (Reachable.init 0))

/-- C4 at a failing input: a profile of 4294967295 channels is accepted and
leaves the port count -1; the interleaved F32 format of 4294967295 channels
is then accepted on the input port, `port_set_format` returns 0, and the
port records the format with c = 4294967295 channels and sample width
w = 4, blocks = 1 and stride = 4294967292, the product w * c reduced modulo
2^32, which is not w * c. -/
theorem port_set_format_stride_wraps :
    Reachable f32_only node_wrapped_stride
      ∧ (impl_node_set_param (impl_init 0) SPA_PARAM_Profile 0
          (profile_param_unpositioned SPA_AUDIO_FORMAT_F32P 48000 4294967295)).1 = 0
      ∧ node_negative_port_count.port_count = -1
      ∧ (port_set_format f32_only node_negative_port_count Direction.Input 0 0
          (some (format_param_unpositioned SPA_AUDIO_FORMAT_F32 48000 4294967295))).1 = 0
      ∧ (port_set_format f32_only node_negative_port_count Direction.Input 0 0
          (some (format_param_unpositioned SPA_AUDIO_FORMAT_F32 48000 4294967295))).2
          = node_wrapped_stride
      ∧ node_wrapped_stride.in_port.have_format = true
      ∧ node_wrapped_stride.in_port.format.raw.format = SPA_AUDIO_FORMAT_F32
      ∧ SPA_AUDIO_FORMAT_IS_PLANAR node_wrapped_stride.in_port.format.raw.format = false
      ∧ node_wrapped_stride.in_port.format.raw.channels = 4294967295
      ∧ calc_width node_wrapped_stride.in_port.format = 4
      ∧ node_wrapped_stride.in_port.blocks = 1
      ∧ node_wrapped_stride.in_port.stride = 4294967292
      ∧ node_wrapped_stride.in_port.stride
          ≠ 4 * node_wrapped_stride.in_port.format.raw.channels := by
  refine ⟨node_wrapped_stride_reachable, by decide, by decide, by decide, rfl, by decide,
    by decide, by decide, by decide, by decide, by decide, by decide, by decide⟩

/-! ## The available queue after a rejected buffer list -/

/-- The node `node_double_queued` is reachable. -/
theorem node_double_queued_reachable : Reachable f32_only node_double_queued :=
  Reachable.port_use_buffers Direction.Output 0 [mem_buffer 0 1024 0]
    (Reachable.port_use_buffers Direction.Output 0 [mem_buffer 0 1024 0, null_buffer 1]
      (Reachable.port_set_param Direction.Output 0 SPA_PARAM_Format 0
        (some (format_param SPA_AUDIO_FORMAT_F32P 48000 1))
        (Reachable.set_param SPA_PARAM_Profile 0 (profile_param SPA_AUDIO_FORMAT_F32P 48000 1)
          (Reachable.init 0))))

/-- C3 fails on the code: after a profile of one channel and a format on
output port 0, a use_buffers call with a valid descriptor followed by an
invalid one fails with -EINVAL and leaves slot 0 in the queue with a buffer
count of 0; the next use_buffers call with one valid descriptor succeeds
without emptying the queue, and slot 0 is then in the queue twice. -/
theorem use_buffers_after_rejection_queues_twice :
    Reachable f32_only node_double_queued
      ∧ (impl_node_port_use_buffers node_out_format Direction.Output 0
          [mem_buffer 0 1024 0, null_buffer 1]).1 = -EINVAL
      ∧ (node_rejected_buffers.out_ports 0).n_buffers = 0
      ∧ (node_rejected_buffers.out_ports 0).queue = [0]
      ∧ (impl_node_port_use_buffers node_rejected_buffers Direction.Output 0
          [mem_buffer 0 1024 0]).1 = 0
      ∧ (node_double_queued.out_ports 0).queue = [0, 0]
      ∧ ¬ (node_double_queued.out_ports 0).queue.Nodup := by
  refine ⟨node_double_queued_reachable, by decide, by decide, by decide, by decide, by decide,
    by decide⟩

/-! ## Validation of a format -/

/-- The two outcomes of matching an Id entry. -/
theorem parse_Id_cases (obj : Pod) (key : Nat) :
    (∃ v, spa_pod_find_prop obj key = some (Pod.id v) ∧ parse_Id obj key = Except.ok v)
      ∨ ((∀ v, spa_pod_find_prop obj key ≠ some (Pod.id v))
          ∧ (parse_Id obj key = Except.error MissingProperty
              ∨ parse_Id obj key = Except.error TypeMismatch)) := by
  unfold parse_Id
  cases h : spa_pod_find_prop obj key with
  | none => right; simp
  | some p => cases p <;> simp

/-- The two outcomes of matching an Int entry. -/
theorem parse_Int_cases (obj : Pod) (key : Nat) :
    (∃ v, spa_pod_find_prop obj key = some (Pod.int v) ∧ parse_Int obj key = Except.ok v)
      ∨ ((∀ v, spa_pod_find_prop obj key ≠ some (Pod.int v))
          ∧ (parse_Int obj key = Except.error MissingProperty
              ∨ parse_Int obj key = Except.error TypeMismatch)) := by
  unfold parse_Int
  cases h : spa_pod_find_prop obj key with
  | none => right; simp
  | some p => cases p <;> simp

/-- Both parse errors are negative. -/
theorem parse_errors_negative : MissingProperty < 0 ∧ TypeMismatch < 0 := by decide

/-- The outcome of `spa_format_parse`: 0 with the two ids when both
properties are ids, a negative parse error otherwise. -/
theorem spa_format_parse_cases (format : Pod) :
    (∃ t st, spa_pod_find_prop format SPA_FORMAT_mediaType = some (Pod.id t)
        ∧ spa_pod_find_prop format SPA_FORMAT_mediaSubtype = some (Pod.id st)
        ∧ spa_format_parse format 0 0 = (0, t, st))
      ∨ (((∀ v, spa_pod_find_prop format SPA_FORMAT_mediaType ≠ some (Pod.id v))
            ∨ (∀ v, spa_pod_find_prop format SPA_FORMAT_mediaSubtype ≠ some (Pod.id v)))
          ∧ ((spa_format_parse format 0 0).1 = MissingProperty
              ∨ (spa_format_parse format 0 0).1 = TypeMismatch)) := by
  unfold spa_format_parse
  rcases parse_Id_cases format SPA_FORMAT_mediaType with ⟨t, ht, hp⟩ | ⟨hn, hp | hp⟩
  · rcases parse_Id_cases format SPA_FORMAT_mediaSubtype with ⟨st, hst, hp2⟩ | ⟨hn2, hp2 | hp2⟩
    · left; exact ⟨t, st, ht, hst, by simp [hp, hp2]⟩
    · right; exact ⟨Or.inr hn2, by simp [hp, hp2]⟩
    · right; exact ⟨Or.inr hn2, by simp [hp, hp2]⟩
  · right; exact ⟨Or.inl hn, by simp [hp]⟩
  · right; exact ⟨Or.inl hn, by simp [hp]⟩

/-- The result code, format, rate and channels of
`spa_format_audio_raw_parse` are those of its object parse. -/
theorem spa_format_audio_raw_parse_proj (format : Pod) (info : AudioInfoRaw) :
    (spa_format_audio_raw_parse format info).1 = (audio_raw_object_parse format info none).1
      ∧ (spa_format_audio_raw_parse format info).2.format
          = (audio_raw_object_parse format info none).2.1.format
      ∧ (spa_format_audio_raw_parse format info).2.rate
          = (audio_raw_object_parse format info none).2.1.rate
      ∧ (spa_format_audio_raw_parse format info).2.channels
          = (audio_raw_object_parse format info none).2.1.channels := by
  unfold spa_format_audio_raw_parse
  rcases audio_raw_object_parse format info none with ⟨res, i, pos⟩
  simp only []
  split <;> simp

/-- The outcome of `spa_format_audio_raw_parse`: 0 with the format, rate and
channels read when the three required properties have their types, a
negative parse error otherwise. -/
theorem spa_format_audio_raw_parse_cases (format : Pod) (info : AudioInfoRaw) :
    (∃ f r c, spa_pod_find_prop format SPA_FORMAT_AUDIO_format = some (Pod.id f)
        ∧ spa_pod_find_prop format SPA_FORMAT_AUDIO_rate = some (Pod.int r)
        ∧ spa_pod_find_prop format SPA_FORMAT_AUDIO_channels = some (Pod.int c)
        ∧ (spa_format_audio_raw_parse format info).1 = 0
        ∧ (spa_format_audio_raw_parse format info).2.format = f
        ∧ (spa_format_audio_raw_parse format info).2.rate = toU32 r
        ∧ (spa_format_audio_raw_parse format info).2.channels = toU32 c)
      ∨ (((∀ v, spa_pod_find_prop format SPA_FORMAT_AUDIO_format ≠ some (Pod.id v))
            ∨ (∀ v, spa_pod_find_prop format SPA_FORMAT_AUDIO_rate ≠ some (Pod.int v))
            ∨ (∀ v, spa_pod_find_prop format SPA_FORMAT_AUDIO_channels ≠ some (Pod.int v)))
          ∧ (spa_format_audio_raw_parse format info).1 < 0) := by
  have hneg := parse_errors_negative
  obtain ⟨e1, e2, e3, e4⟩ := spa_format_audio_raw_parse_proj format info
  rw [e1, e2, e3, e4]
  unfold audio_raw_object_parse
  rcases parse_Id_cases format SPA_FORMAT_AUDIO_format with ⟨f, hf, hp⟩ | ⟨hn, hp | hp⟩
  · rcases parse_Int_cases format SPA_FORMAT_AUDIO_rate with ⟨r, hr, hp2⟩ | ⟨hn2, hp2 | hp2⟩
    · rcases parse_Int_cases format SPA_FORMAT_AUDIO_channels with
        ⟨c, hc, hp3⟩ | ⟨hn3, hp3 | hp3⟩
      · left
        refine ⟨f, r, c, hf, hr, hc, ?_⟩
        simp only [hp, hp2, hp3]
        refine ⟨trivial, ?_, ?_, ?_⟩ <;> (split <;> rfl)
      · right
        refine ⟨Or.inr (Or.inr hn3), ?_⟩
        simp only [hp, hp2, hp3]
        exact hneg.1
      · right
        refine ⟨Or.inr (Or.inr hn3), ?_⟩
        simp only [hp, hp2, hp3]
        exact hneg.2
    · right
      refine ⟨Or.inr (Or.inl hn2), ?_⟩
      simp only [hp, hp2]
      exact hneg.1
    · right
      refine ⟨Or.inr (Or.inl hn2), ?_⟩
      simp only [hp, hp2]
      exact hneg.2
  · right
    refine ⟨Or.inl hn, ?_⟩
    simp only [hp]
    exact hneg.1
  · right
    refine ⟨Or.inl hn, ?_⟩
    simp only [hp]
    exact hneg.2

/-- The result code of `port_set_format` on a non-null format, read off the
two parse results. -/
theorem port_set_format_result (find_conv_info : FindConvInfo) (s : Impl)
    (direction : Direction) (port_id flags : Nat) (format : Pod) :
    (port_set_format find_conv_info s direction port_id flags (some format)).1
      = if (spa_format_parse format 0 0).1 < 0 then (spa_format_parse format 0 0).1
        else if ((spa_format_parse format 0 0).2.1 != SPA_MEDIA_TYPE_audio
            || (spa_format_parse format 0 0).2.2 != SPA_MEDIA_SUBTYPE_raw) = true then -EINVAL
        else if (spa_format_audio_raw_parse format AudioInfoRaw.zero).1 < 0 then -EINVAL
        else if (match direction with
            | Direction.Output =>
              (spa_format_audio_raw_parse format AudioInfoRaw.zero).2.rate
                  != (s.out_ports port_id).format.raw.rate
                || (spa_format_audio_raw_parse format AudioInfoRaw.zero).2.format
                  != SPA_AUDIO_FORMAT_F32P
                || (spa_format_audio_raw_parse format AudioInfoRaw.zero).2.channels != 1
            | Direction.Input =>
              (spa_format_audio_raw_parse format AudioInfoRaw.zero).2.channels
                != toU32 s.port_count) = true then -EINVAL
        else 0 := by
  rcases h1 : spa_format_parse format 0 0 with ⟨r1, mt, mst⟩
  rcases h2 : spa_format_audio_raw_parse format AudioInfoRaw.zero with ⟨r2, raw⟩
  cases direction <;> simp only [port_set_format, h1, h2, GET_PORT] <;> split_ifs <;> rfl

/-- C5: `port_set_format` on a non-null format fails, with -EINVAL or the
parse error, when the media type or subtype is not the id audio or raw or
one of the required properties format, rate, channels is missing or of
another type; otherwise the result is 0 or -EINVAL, and it is 0 on an
output port exactly when the rate equals the rate in the format of the port
(set from the profile), the sample format is F32P and the channel count is
1, and on the input port exactly when the channel count equals the port
count of the node. -/
theorem port_set_format_validation (find_conv_info : FindConvInfo) (s : Impl)
    (direction : Direction) (port_id flags : Nat) (format : Pod) :
    ((spa_pod_find_prop format SPA_FORMAT_mediaType ≠ some (Pod.id SPA_MEDIA_TYPE_audio)
        ∨ spa_pod_find_prop format SPA_FORMAT_mediaSubtype ≠ some (Pod.id SPA_MEDIA_SUBTYPE_raw)
        ∨ (∀ v, spa_pod_find_prop format SPA_FORMAT_AUDIO_format ≠ some (Pod.id v))
        ∨ (∀ v, spa_pod_find_prop format SPA_FORMAT_AUDIO_rate ≠ some (Pod.int v))
        ∨ (∀ v, spa_pod_find_prop format SPA_FORMAT_AUDIO_channels ≠ some (Pod.int v))) →
      (port_set_format find_conv_info s direction port_id flags (some format)).1 < 0
        ∧ ((port_set_format find_conv_info s direction port_id flags (some format)).1 = -EINVAL
          ∨ (port_set_format find_conv_info s direction port_id flags (some format)).1
              = MissingProperty
          ∨ (port_set_format find_conv_info s direction port_id flags (some format)).1
              = TypeMismatch))
    ∧ (∀ f r c,
        spa_pod_find_prop format SPA_FORMAT_mediaType = some (Pod.id SPA_MEDIA_TYPE_audio) →
        spa_pod_find_prop format SPA_FORMAT_mediaSubtype = some (Pod.id SPA_MEDIA_SUBTYPE_raw) →
        spa_pod_find_prop format SPA_FORMAT_AUDIO_format = some (Pod.id f) →
        spa_pod_find_prop format SPA_FORMAT_AUDIO_rate = some (Pod.int r) →
        spa_pod_find_prop format SPA_FORMAT_AUDIO_channels = some (Pod.int c) →
        ((port_set_format find_conv_info s direction port_id flags (some format)).1 = 0
          ∨ (port_set_format find_conv_info s direction port_id flags (some format)).1 = -EINVAL)
        ∧ (direction = Direction.Output →
            ((port_set_format find_conv_info s direction port_id flags (some format)).1 = 0
              ↔ (toU32 r = (s.out_ports port_id).format.raw.rate
                  ∧ f = SPA_AUDIO_FORMAT_F32P ∧ toU32 c = 1)))
        ∧ (direction = Direction.Input →
            ((port_set_format find_conv_info s direction port_id flags (some format)).1 = 0
              ↔ toU32 c = toU32 s.port_count))) := by
  have hneg := parse_errors_negative
  have heinval : -EINVAL < 0 ∧ -EINVAL ≠ 0 := by decide
  rw [port_set_format_result]
  constructor
  · intro hbad
    rcases spa_format_parse_cases format with ⟨t, st, ht, hst, hp⟩ | ⟨_, hp | hp⟩
    · rcases spa_format_audio_raw_parse_cases format AudioInfoRaw.zero with
        ⟨f, r, c, hf, hr, hc, h0, _, _, _⟩ | ⟨_, hlt⟩
      · have hmedia : (t != SPA_MEDIA_TYPE_audio || st != SPA_MEDIA_SUBTYPE_raw) = true := by
          rcases hbad with h | h | h | h | h
          · rw [ht] at h
            have : t ≠ SPA_MEDIA_TYPE_audio := fun e => h (by rw [e])
            simp [this]
          · rw [hst] at h
            have : st ≠ SPA_MEDIA_SUBTYPE_raw := fun e => h (by rw [e])
            simp [this]
          · exact absurd hf (h f)
          · exact absurd hr (h r)
          · exact absurd hc (h c)
        simp only [hp, hmedia, lt_self_iff_false, if_false, if_true]
        exact ⟨heinval.1, Or.inl trivial⟩
      · simp only [hp, hlt, lt_self_iff_false, if_false, if_true]
        split_ifs <;> exact ⟨heinval.1, Or.inl rfl⟩
    · simp only [hp, hneg.1, if_true]
      exact ⟨trivial, Or.inr (Or.inl trivial)⟩
    · simp only [hp, hneg.2, if_true]
      exact ⟨trivial, Or.inr (Or.inr trivial)⟩
  · intro f r c ht hst hf hr hc
    have hp : spa_format_parse format 0 0 = (0, SPA_MEDIA_TYPE_audio, SPA_MEDIA_SUBTYPE_raw) := by
      rcases spa_format_parse_cases format with ⟨t, st, ht2, hst2, hp⟩ | ⟨h | h, _⟩
      · rw [ht] at ht2; rw [hst] at hst2
        simp only [Option.some.injEq, Pod.id.injEq] at ht2 hst2
        rw [hp, ← ht2, ← hst2]
      · exact absurd ht (h _)
      · exact absurd hst (h _)
    rcases spa_format_audio_raw_parse_cases format AudioInfoRaw.zero with
      ⟨f2, r2, c2, hf2, hr2, hc2, h0, e1, e2, e3⟩ | ⟨h | h | h, _⟩
    · rw [hf] at hf2; rw [hr] at hr2; rw [hc] at hc2
      simp only [Option.some.injEq, Pod.id.injEq, Pod.int.injEq] at hf2 hr2 hc2
      subst hf2 hr2 hc2
      simp only [hp, h0, e1, e2, e3, lt_self_iff_false, if_false]
      have hm : (SPA_MEDIA_TYPE_audio != SPA_MEDIA_TYPE_audio
          || SPA_MEDIA_SUBTYPE_raw != SPA_MEDIA_SUBTYPE_raw) = false := by decide
      simp only [hm, Bool.false_eq_true, if_false]
      refine ⟨?_, ?_, ?_⟩
      · split_ifs
        · right; rfl
        · left; rfl
      · intro hd
        subst hd
        simp only []
        split_ifs with h
        · simp only [heinval.2, false_iff]
          simp at h
          intro ⟨a, b, c⟩
          rcases h with (h | h) | h
          · exact h a
          · exact h b
          · exact h c
        · simp at h
          simp [h]
      · intro hd
        subst hd
        simp only []
        split_ifs with h
        · simp only [heinval.2, false_iff]
          simpa using h
        · simp at h
          simp [h]
    · exact absurd hf (h _)
    · exact absurd hr (h _)
    · exact absurd hc (h _)

/-- C5 on a node with a two-channel profile at 48000 Hz: the input port
accepts a two-channel format and refuses a three-channel one; output port 0
accepts F32P at 48000 Hz with one channel and refuses the rate 44100. -/
theorem port_set_format_validation_witness :
    (port_set_format f32_only node_profile2 Direction.Input 0 0
        (some (format_param SPA_AUDIO_FORMAT_F32 48000 2))).1 = 0
      ∧ (port_set_format f32_only node_profile2 Direction.Input 0 0
        (some (format_param SPA_AUDIO_FORMAT_F32 48000 3))).1 ≠ 0
      ∧ (port_set_format f32_only node_profile2 Direction.Output 0 0
        (some (format_param SPA_AUDIO_FORMAT_F32P 48000 1))).1 = 0
      ∧ (port_set_format f32_only node_profile2 Direction.Output 0 0
        (some (format_param SPA_AUDIO_FORMAT_F32P 44100 1))).1 ≠ 0 :=
  ⟨((port_set_format_validation f32_only node_profile2 Direction.Input 0 0
      (format_param SPA_AUDIO_FORMAT_F32 48000 2)).2 SPA_AUDIO_FORMAT_F32 48000 2
      rfl rfl rfl rfl rfl).2.2 rfl |>.mpr (by decide),
   fun h => absurd (((port_set_format_validation f32_only node_profile2 Direction.Input 0 0
      (format_param SPA_AUDIO_FORMAT_F32 48000 3)).2 SPA_AUDIO_FORMAT_F32 48000 3
      rfl rfl rfl rfl rfl).2.2 rfl |>.mp h) (by decide),
   ((port_set_format_validation f32_only node_profile2 Direction.Output 0 0
      (format_param SPA_AUDIO_FORMAT_F32P 48000 1)).2 SPA_AUDIO_FORMAT_F32P 48000 1
      rfl rfl rfl rfl rfl).2.1 rfl |>.mpr (by decide),
   fun h => absurd (((port_set_format_validation f32_only node_profile2 Direction.Output 0 0
      (format_param SPA_AUDIO_FORMAT_F32P 44100 1)).2 SPA_AUDIO_FORMAT_F32P 44100 1
      rfl rfl rfl rfl rfl).2.1 rfl |>.mp h).1 (by decide)⟩

/-- A non-null format that `port_set_format` does not accept leaves the node
as it was. -/
theorem port_set_format_error_state (find_conv_info : FindConvInfo) (s : Impl)
    (direction : Direction) (port_id flags : Nat) (format : Pod)
    (herr : (port_set_format find_conv_info s direction port_id flags (some format)).1 ≠ 0) :
    (port_set_format find_conv_info s direction port_id flags (some format)).2 = s := by
  rcases h1 : spa_format_parse format 0 0 with ⟨r1, mt, mst⟩
  rcases h2 : spa_format_audio_raw_parse format AudioInfoRaw.zero with ⟨r2, raw⟩
  simp only [port_set_format, h1, h2] at herr ⊢
  split_ifs at herr ⊢ <;> first | rfl | exact absurd rfl herr

/-- C6: whenever `impl_node_port_set_param` returns an error for a non-null
format, the node state, with every port's format, have_format flag, stride,
blocks, buffers and queue and with the selected transform, is exactly what
it was before the call. -/
theorem port_set_param_error_leaves_state (find_conv_info : FindConvInfo) (s : Impl)
    (direction : Direction) (port_id id flags : Nat) (format : Pod)
    (herr : (impl_node_port_set_param find_conv_info s direction port_id id flags
      (some format)).1 < 0) :
    (impl_node_port_set_param find_conv_info s direction port_id id flags (some format)).2 = s := by
  unfold impl_node_port_set_param at herr ⊢
  split_ifs at herr ⊢
  · rfl
  · exact port_set_format_error_state find_conv_info s direction port_id flags format
      (by omega)
  · rfl

/-- C6 on a node with a two-channel profile: a three-channel format on the
input port is refused with -EINVAL and the node is unchanged. -/
theorem port_set_param_error_leaves_state_witness :
    (impl_node_port_set_param f32_only node_profile2 Direction.Input 0 SPA_PARAM_Format 0
        (some (format_param SPA_AUDIO_FORMAT_F32 48000 3))).1 = -EINVAL
      ∧ (impl_node_port_set_param f32_only node_profile2 Direction.Input 0 SPA_PARAM_Format 0
        (some (format_param SPA_AUDIO_FORMAT_F32 48000 3))).2 = node_profile2 :=
  ⟨by decide,
   port_set_param_error_leaves_state f32_only node_profile2 Direction.Input 0 SPA_PARAM_Format 0
     (format_param SPA_AUDIO_FORMAT_F32 48000 3) (by decide)⟩

/-! ## A format without a transform -/

/-- C7 fails on the code: on a node with a two-channel profile and a
converter table without any transform, committing the two-channel S16
format on the input port returns 0 although `setup_convert` returns
-ENOTSUP; the format, stride and blocks of the port are replaced and
have_format is set, while no transform is selected. -/
theorem input_format_without_transform_is_committed :
    no_converter SPA_AUDIO_FORMAT_S16 SPA_AUDIO_FORMAT_F32P node_profile2.cpu_flags = none
      ∧ (impl_node_port_set_param no_converter node_profile2 Direction.Input 0 SPA_PARAM_Format 0
          (some (format_param SPA_AUDIO_FORMAT_S16 48000 2))).1 = 0
      ∧ (setup_convert no_converter
          (impl_node_port_set_param no_converter node_profile2 Direction.Input 0 SPA_PARAM_Format 0
            (some (format_param SPA_AUDIO_FORMAT_S16 48000 2))).2).1 = -ENOTSUP
      ∧ node_profile2.in_port.format.raw.format = SPA_AUDIO_FORMAT_F32P
      ∧ (impl_node_port_set_param no_converter node_profile2 Direction.Input 0 SPA_PARAM_Format 0
          (some (format_param SPA_AUDIO_FORMAT_S16 48000 2))).2.in_port.format.raw.format
          = SPA_AUDIO_FORMAT_S16
      ∧ (impl_node_port_set_param no_converter node_profile2 Direction.Input 0 SPA_PARAM_Format 0
          (some (format_param SPA_AUDIO_FORMAT_S16 48000 2))).2.in_port.have_format = true
      ∧ node_profile2.in_port.stride = 0
      ∧ (impl_node_port_set_param no_converter node_profile2 Direction.Input 0 SPA_PARAM_Format 0
          (some (format_param SPA_AUDIO_FORMAT_S16 48000 2))).2.in_port.stride = 4
      ∧ (impl_node_port_set_param no_converter node_profile2 Direction.Input 0 SPA_PARAM_Format 0
          (some (format_param SPA_AUDIO_FORMAT_S16 48000 2))).2.convert = none := by
  refine ⟨rfl, by decide, by decide, by decide, by decide, by decide, by decide, by decide,
    by decide⟩

/-! ## Buffers of a port without a format -/

/-- C8: `impl_node_port_use_buffers` on a valid port without a committed
format returns -EIO for every buffer list and leaves the node, with the
slot table, buffer count and available queue of the port, unchanged. -/
theorem use_buffers_without_format (s : Impl) (direction : Direction) (port_id : Nat)
    (buffers : List SpaBuffer)
    (hport : CHECK_PORT s direction port_id = true)
    (hformat : (GET_PORT s direction port_id).have_format = false) :
    impl_node_port_use_buffers s direction port_id buffers = (- EIO, s) := by
  simp [impl_node_port_use_buffers, hport, hformat]

/-- C8 on output port 0 of a node with a one-channel profile and no format
on that port. -/
theorem use_buffers_without_format_witness :
    impl_node_port_use_buffers node_profile1 Direction.Output 0 [mem_buffer 0 1024 0]
      = (- EIO, node_profile1) :=
  use_buffers_without_format node_profile1 Direction.Output 0 [mem_buffer 0 1024 0]
    (by decide) (by decide)

/-! ## Validation of the buffer list -/

/-- The result code of the loop of `impl_node_port_use_buffers`: 0 when the
first region of every descriptor passes the memory test, -EINVAL
otherwise. -/
theorem use_buffers_loop_result (direction : Direction) (buffers : List SpaBuffer) :
    ∀ (port : Port) (i : Nat),
      (use_buffers_loop direction port buffers i).1
        = if buffers.all (fun b => valid_memory (b.datas.getD 0 SpaData.zero)) then 0
          else -EINVAL := by
  induction buffers with
  | nil => intro port i; simp [use_buffers_loop]
  | cons b rest ih =>
    intro port i
    simp only [use_buffers_loop, List.all_cons]
    by_cases hv : valid_memory (b.datas.getD 0 SpaData.zero) = true
    · simp only [hv, Bool.not_true, Bool.false_eq_true, if_false, Bool.true_and]
      exact ih _ _
    · have hv2 : valid_memory (b.datas.getD 0 SpaData.zero) = false := by
        simpa using hv
      simp only [hv2, Bool.not_false, if_true, Bool.false_and, Bool.false_eq_true, if_false]

/-- The memory test of the first region, spelled out. -/
theorem valid_memory_iff (d : SpaData) :
    valid_memory d = true
      ↔ (d.type = SPA_DATA_MemPtr ∨ d.type = SPA_DATA_MemFd ∨ d.type = SPA_DATA_DmaBuf)
          ∧ d.data ≠ none := by
  simp [valid_memory, or_assoc]

/-- C9: on a valid port with a committed format, and for descriptors that
each have a first region, `impl_node_port_use_buffers` returns 0 exactly
when the first region of every descriptor has type MemPtr, MemFd or DmaBuf
and a non-null data pointer, and returns -EINVAL otherwise. -/
theorem use_buffers_validates_memory (s : Impl) (direction : Direction) (port_id : Nat)
    (buffers : List SpaBuffer)
    (hport : CHECK_PORT s direction port_id = true)
    (hformat : (GET_PORT s direction port_id).have_format = true)
    (hregion : ∀ b ∈ buffers, b.datas ≠ []) :
    ((impl_node_port_use_buffers s direction port_id buffers).1 = 0
        ↔ ∀ b ∈ buffers, ∃ d, b.datas.head? = some d
            ∧ (d.type = SPA_DATA_MemPtr ∨ d.type = SPA_DATA_MemFd ∨ d.type = SPA_DATA_DmaBuf)
            ∧ d.data ≠ none)
      ∧ ((impl_node_port_use_buffers s direction port_id buffers).1 ≠ 0
          → (impl_node_port_use_buffers s direction port_id buffers).1 = -EINVAL) := by
  have hres : (impl_node_port_use_buffers s direction port_id buffers).1
      = if buffers.all (fun b => valid_memory (b.datas.getD 0 SpaData.zero)) then 0
        else -EINVAL := by
    have hl := use_buffers_loop_result direction buffers
      (clear_buffers (GET_PORT s direction port_id)) 0
    rcases hloop : use_buffers_loop direction (clear_buffers (GET_PORT s direction port_id))
      buffers 0 with ⟨r, p⟩
    rw [hloop] at hl
    simp only [impl_node_port_use_buffers, hport, hformat, hloop]
    simp only [] at hl
    rw [hl]
    split_ifs <;> simp_all
  have hall : buffers.all (fun b => valid_memory (b.datas.getD 0 SpaData.zero)) = true
      ↔ ∀ b ∈ buffers, ∃ d, b.datas.head? = some d
            ∧ (d.type = SPA_DATA_MemPtr ∨ d.type = SPA_DATA_MemFd ∨ d.type = SPA_DATA_DmaBuf)
            ∧ d.data ≠ none := by
    rw [List.all_eq_true]
    constructor
    · intro h b hb
      have hne := hregion b hb
      cases hd : b.datas with
      | nil => exact absurd hd hne
      | cons d rest =>
        have := h b hb
        rw [hd] at this
        exact ⟨d, rfl, (valid_memory_iff d).mp (by simpa using this)⟩
    · intro h b hb
      obtain ⟨d, hd, hv⟩ := h b hb
      cases hds : b.datas with
      | nil => rw [hds] at hd; simp at hd
      | cons d2 rest =>
        rw [hds] at hd
        simp only [List.head?_cons, Option.some.injEq] at hd
        subst hd
        simpa using (valid_memory_iff d2).mpr hv
  rw [hres]
  constructor
  · rw [← hall]
    by_cases h : buffers.all (fun b => valid_memory (b.datas.getD 0 SpaData.zero)) = true
    · rw [if_pos h]
      exact ⟨fun _ => h, fun _ => rfl⟩
    · rw [if_neg h]
      exact ⟨fun e => absurd e (by decide), fun e => absurd e h⟩
  · intro hne
    split_ifs at hne ⊢ with h
    · exact absurd rfl hne
    · rfl

/-- C9 on output port 0 of a node with a format on that port: two
descriptors of host memory are accepted, and a list whose second descriptor
has a null data pointer is refused with -EINVAL. -/
theorem use_buffers_validates_memory_witness :
    (impl_node_port_use_buffers node_out_format Direction.Output 0
        [mem_buffer 0 1024 0, mem_buffer 1 1024 0]).1 = 0
      ∧ (impl_node_port_use_buffers node_out_format Direction.Output 0
        [mem_buffer 0 1024 0, null_buffer 1]).1 = -EINVAL :=
  ⟨(use_buffers_validates_memory node_out_format Direction.Output 0
      [mem_buffer 0 1024 0, mem_buffer 1 1024 0] (by decide) (by decide) (by decide)).1.mpr
      (by decide),
   (use_buffers_validates_memory node_out_format Direction.Output 0
      [mem_buffer 0 1024 0, null_buffer 1] (by decide) (by decide) (by decide)).2 (by decide)⟩

/-! ## The state after a rejected buffer list -/

/-- What `queue_buffer` leaves alone. -/
theorem queue_buffer_fields (port : Port) (id : Nat) :
    (queue_buffer port id).id = port.id ∧ (queue_buffer port id).io = port.io
      ∧ (queue_buffer port id).ctrl = port.ctrl
      ∧ (queue_buffer port id).have_format = port.have_format
      ∧ (queue_buffer port id).format = port.format
      ∧ (queue_buffer port id).blocks = port.blocks
      ∧ (queue_buffer port id).stride = port.stride
      ∧ (queue_buffer port id).n_buffers = port.n_buffers := by
  simp only [queue_buffer]
  split_ifs <;> simp

/-- What the loop of `impl_node_port_use_buffers` leaves alone. -/
theorem use_buffers_loop_fields (direction : Direction) (buffers : List SpaBuffer) :
    ∀ (port : Port) (i : Nat),
      (use_buffers_loop direction port buffers i).2.id = port.id
        ∧ (use_buffers_loop direction port buffers i).2.io = port.io
        ∧ (use_buffers_loop direction port buffers i).2.ctrl = port.ctrl
        ∧ (use_buffers_loop direction port buffers i).2.have_format = port.have_format
        ∧ (use_buffers_loop direction port buffers i).2.format = port.format
        ∧ (use_buffers_loop direction port buffers i).2.blocks = port.blocks
        ∧ (use_buffers_loop direction port buffers i).2.stride = port.stride
        ∧ (use_buffers_loop direction port buffers i).2.n_buffers = port.n_buffers := by
  induction buffers with
  | nil => intro port i; simp [use_buffers_loop]
  | cons b rest ih =>
    intro port i
    simp only [use_buffers_loop]
    split_ifs with h1 h2
    · simp
    · obtain ⟨a1, a2, a3, a4, a5, a6, a7, a8⟩ := ih (queue_buffer
        { port with buffers := Function.update port.buffers i { flags := 0, buf := some b } } i)
        (i + 1)
      obtain ⟨b1, b2, b3, b4, b5, b6, b7, b8⟩ := queue_buffer_fields
        { port with buffers := Function.update port.buffers i { flags := 0, buf := some b } } i
      rw [a1, a2, a3, a4, a5, a6, a7, a8, b1, b2, b3, b4, b5, b6, b7, b8]
      simp
    · obtain ⟨a1, a2, a3, a4, a5, a6, a7, a8⟩ := ih
        { port with buffers := Function.update port.buffers i { flags := 0, buf := some b } }
        (i + 1)
      rw [a1, a2, a3, a4, a5, a6, a7, a8]
      simp

/-- What `clear_buffers` leaves alone, and the buffer count after it. -/
theorem clear_buffers_fields (port : Port) :
    (clear_buffers port).id = port.id ∧ (clear_buffers port).io = port.io
      ∧ (clear_buffers port).ctrl = port.ctrl
      ∧ (clear_buffers port).have_format = port.have_format
      ∧ (clear_buffers port).format = port.format
      ∧ (clear_buffers port).blocks = port.blocks
      ∧ (clear_buffers port).stride = port.stride
      ∧ (clear_buffers port).n_buffers = 0 := by
  unfold clear_buffers
  split_ifs with h
  · simp
  · simp; omega

/-- Soundness of the queued flags only depends on the flags, the buffer
count and the queue. -/
theorem queuedFlagsSound_of_same (p q : Port)
    (hflags : ∀ id, (q.buffers id).flags = (p.buffers id).flags)
    (hn : q.n_buffers = p.n_buffers) (hq : q.queue = p.queue)
    (h : QueuedFlagsSound p) : QueuedFlagsSound q := by
  intro id hid hflag
  rw [hq]
  rw [hn] at hid
  rw [hflags] at hflag
  exact h id hid hflag

/-- A port without buffers has sound queued flags. -/
theorem queuedFlagsSound_of_no_buffers (p : Port) (hn : p.n_buffers = 0) :
    QueuedFlagsSound p := by
  intro id hid
  rw [hn] at hid
  exact absurd hid (Nat.not_lt_zero _)

/-- The function `clear_buffers` keeps the queued flags sound. -/
theorem clear_buffers_sound (p : Port) (h : QueuedFlagsSound p) :
    QueuedFlagsSound (clear_buffers p) := by
  unfold clear_buffers
  split_ifs
  · exact queuedFlagsSound_of_no_buffers _ rfl
  · exact h

/-- The function `queue_buffer` keeps the queued flags sound. -/
theorem queue_buffer_sound (p : Port) (id : Nat) (h : QueuedFlagsSound p) :
    QueuedFlagsSound (queue_buffer p id) := by
  simp only [queue_buffer]
  split_ifs with hc
  · exact h
  · intro id2 hid2 hflag
    simp only at hid2 hflag ⊢
    by_cases he : id2 = id
    · subst he; simp
    · rw [Function.update_noteq he] at hflag
      exact List.mem_append_left _ (h id2 hid2 hflag)

/-- The function `dequeue_buffer` keeps the queued flags sound. -/
theorem dequeue_buffer_sound (p : Port) (h : QueuedFlagsSound p) :
    QueuedFlagsSound (dequeue_buffer p).2 := by
  unfold dequeue_buffer
  cases hq : p.queue with
  | nil => simpa using h
  | cons id rest =>
    intro id2 hid2 hflag
    simp only at hid2 hflag ⊢
    by_cases he : id2 = id
    · subst he
      rw [Function.update_same] at hflag
      simp only [flag_check_unset] at hflag
      exact absurd hflag (by decide)
    · rw [Function.update_noteq he] at hflag
      have := h id2 hid2 hflag
      rw [hq] at this
      rcases List.mem_cons.mp this with h1 | h1
      · exact absurd h1 he
      · exact h1

/-- A zero flag field fails the check. -/
theorem flag_check_zero : SPA_FLAG_CHECK 0 BUFFER_FLAG_QUEUED = false := by decide

/-- The loop of `impl_node_port_use_buffers`, when it runs to its end, leaves
every slot it wrote with a truthful queued flag. -/
theorem use_buffers_loop_sound (direction : Direction) (buffers : List SpaBuffer) :
    ∀ (port : Port) (i : Nat),
      (∀ id, id < i → SPA_FLAG_CHECK (port.buffers id).flags BUFFER_FLAG_QUEUED = true
        → id ∈ port.queue) →
      (use_buffers_loop direction port buffers i).1 = 0 →
      ∀ id, id < i + buffers.length →
        SPA_FLAG_CHECK ((use_buffers_loop direction port buffers i).2.buffers id).flags
          BUFFER_FLAG_QUEUED = true
        → id ∈ (use_buffers_loop direction port buffers i).2.queue := by
  induction buffers with
  | nil =>
    intro port i h _ id hid hflag
    simp only [use_buffers_loop, List.length_nil, Nat.add_zero] at hid hflag ⊢
    exact h id hid hflag
  | cons b rest ih =>
    intro port i h hres id hid hflag
    simp only [use_buffers_loop] at hres hflag ⊢
    split_ifs at hres hflag ⊢ with h1 h2
    · simp [EINVAL] at hres
    · refine ih _ (i + 1) ?_ hres id (by simp only [List.length_cons] at hid; omega) hflag
      intro id2 hid2 hflag2
      simp only [queue_buffer, Function.update_same, flag_check_zero, Bool.false_eq_true,
        if_false] at hflag2 ⊢
      by_cases he : id2 = i
      · subst he; simp
      · rw [Function.update_noteq he, Function.update_noteq he] at hflag2
        exact List.mem_append_left _ (h id2 (by omega) hflag2)
    · refine ih _ (i + 1) ?_ hres id (by simp only [List.length_cons] at hid; omega) hflag
      intro id2 hid2 hflag2
      simp only at hflag2 ⊢
      by_cases he : id2 = i
      · subst he
        rw [Function.update_same] at hflag2
        simp only [flag_check_zero] at hflag2
        exact absurd hflag2 (by decide)
      · rw [Function.update_noteq he] at hflag2
        exact h id2 (by omega) hflag2

/-- The function `impl_node_port_use_buffers` keeps the queued flags of the
output ports sound. -/
theorem use_buffers_sound (s : Impl) (direction : Direction) (port_id : Nat)
    (buffers : List SpaBuffer) (h : ∀ p, QueuedFlagsSound (s.out_ports p)) :
    ∀ p, QueuedFlagsSound ((impl_node_port_use_buffers s direction port_id buffers).2.out_ports p) := by
  intro p
  have hl := use_buffers_loop_sound direction buffers
    (clear_buffers (GET_PORT s direction port_id)) 0 (fun id hid => absurd hid (Nat.not_lt_zero _))
  obtain ⟨_, _, _, _, _, _, _, a8⟩ := use_buffers_loop_fields direction buffers
    (clear_buffers (GET_PORT s direction port_id)) 0
  obtain ⟨_, _, _, _, _, _, _, b8⟩ := clear_buffers_fields (GET_PORT s direction port_id)
  rcases hloop : use_buffers_loop direction (clear_buffers (GET_PORT s direction port_id))
    buffers 0 with ⟨r, q⟩
  rw [hloop] at hl a8
  simp only [] at hl a8
  simp only [impl_node_port_use_buffers, hloop]
  cases direction
  · split_ifs <;> exact h p
  · by_cases hp : p = port_id
    · subst hp
      split_ifs with h1 h2 hr
      · exact h p
      · exact h p
      · simp only [SET_PORT, Function.update_same]
        exact queuedFlagsSound_of_no_buffers _ (a8.trans b8)
      · simp only [SET_PORT, Function.update_same]
        have hr0 : r = 0 := by simpa using hr
        intro id hid hflag
        exact hl hr0 id (by simpa using hid) hflag
    · split_ifs
      · exact h p
      · exact h p
      · simp only [SET_PORT, Function.update_noteq hp]; exact h p
      · simp only [SET_PORT, Function.update_noteq hp]; exact h p

/-- The function `init_port` keeps the queued flags of the output ports
sound. -/
theorem init_port_sound (s : Impl) (port_id rate position : Nat)
    (h : ∀ p, QueuedFlagsSound (s.out_ports p)) :
    ∀ p, QueuedFlagsSound ((init_port s port_id rate position).out_ports p) := by
  intro p
  simp only [init_port]
  by_cases hp : p = port_id
  · subst hp
    rw [Function.update_same]
    exact queuedFlagsSound_of_no_buffers _ rfl
  · rw [Function.update_noteq hp]
    exact h p

/-- The loop over `init_port` keeps the queued flags of the output ports
sound. -/
theorem init_ports_sound (rate : Nat) (position : Nat → Nat) (l : List Nat) :
    ∀ (s : Impl), (∀ p, QueuedFlagsSound (s.out_ports p)) →
      ∀ p, QueuedFlagsSound
        ((l.foldl (fun t i => init_port t i rate (position i)) s).out_ports p) := by
  induction l with
  | nil => intro s h; exact h
  | cons i rest ih =>
    intro s h
    exact ih _ (init_port_sound s i rate (position i) h)

/-- The function `impl_node_set_param` keeps the queued flags of the output
ports sound. -/
theorem set_param_sound (s : Impl) (id flags : Nat) (param : Pod)
    (h : ∀ p, QueuedFlagsSound (s.out_ports p)) :
    ∀ p, QueuedFlagsSound ((impl_node_set_param s id flags param).2.out_ports p) := by
  intro p
  rcases hp : parse_Pod param SPA_PARAM_PROFILE_format with e | format
  · simp only [impl_node_set_param, hp]
    split_ifs <;> exact h p
  · rcases h1 : spa_format_parse format 0 0 with ⟨r1, mt, mst⟩
    rcases h2 : spa_format_audio_raw_parse format AudioInfoRaw.zero with ⟨r2, raw⟩
    simp only [impl_node_set_param, hp, h1, h2]
    split_ifs
    all_goals first
      | exact h p
      | exact init_ports_sound raw.rate (fun i => raw.position.getD i 0) _
          { s with have_profile := true, port_count := toI32 raw.channels } h p

/-- The function `port_set_format` keeps the queued flags of the output
ports sound. -/
theorem port_set_format_sound (find_conv_info : FindConvInfo) (s : Impl)
    (direction : Direction) (port_id flags : Nat) (format : Option Pod)
    (h : ∀ p, QueuedFlagsSound (s.out_ports p)) :
    ∀ p, QueuedFlagsSound
      ((port_set_format find_conv_info s direction port_id flags format).2.out_ports p) := by
  intro p
  cases format with
  | none =>
    simp only [port_set_format]
    split_ifs with h1 h2
    · cases direction
      · exact h p
      · simp at h2
    · cases direction
      · simp at h2
      · simp only [SET_PORT, GET_PORT]
        by_cases hp : p = port_id
        · subst hp
          rw [Function.update_same]
          apply clear_buffers_sound
          exact queuedFlagsSound_of_same (s.out_ports p) _ (fun _ => rfl) rfl rfl (h p)
        · rw [Function.update_noteq hp]; exact h p
    · exact h p
  | some format =>
    rcases h1 : spa_format_parse format 0 0 with ⟨r1, mt, mst⟩
    rcases h2 : spa_format_audio_raw_parse format AudioInfoRaw.zero with ⟨r2, raw⟩
    have e1 : (Direction.Output == Direction.Input) = false := rfl
    have e2 : (Direction.Input == Direction.Input) = true := rfl
    cases direction
    · simp only [port_set_format, h1, h2, e2, if_true]
      split_ifs
      all_goals first
        | exact h p
        | (simp only [SET_PORT, GET_PORT, setup_convert_out_ports]; exact h p)
    · simp only [port_set_format, h1, h2, e1, Bool.false_eq_true, if_false]
      split_ifs
      all_goals first
        | exact h p
        | (simp only [SET_PORT, GET_PORT, Function.update_same, Function.update_idem]
           by_cases hp : p = port_id
           · subst hp
             rw [Function.update_same]
             exact queuedFlagsSound_of_same (s.out_ports p) _ (fun _ => rfl) rfl rfl (h p)
           · rw [Function.update_noteq hp]; exact h p)

/-- The function `impl_node_port_set_param` keeps the queued flags of the
output ports sound. -/
theorem port_set_param_sound (find_conv_info : FindConvInfo) (s : Impl)
    (direction : Direction) (port_id id flags : Nat) (param : Option Pod)
    (h : ∀ p, QueuedFlagsSound (s.out_ports p)) :
    ∀ p, QueuedFlagsSound
      ((impl_node_port_set_param find_conv_info s direction port_id id flags param).2.out_ports
        p) := by
  unfold impl_node_port_set_param
  split_ifs
  · exact h
  · exact port_set_format_sound find_conv_info s direction port_id flags param h
  · exact h

/-- The function `impl_node_port_set_io` keeps the queued flags of the
output ports sound. -/
theorem port_set_io_sound (s : Impl) (direction : Direction) (port_id id : Nat) (data : IoData)
    (h : ∀ p, QueuedFlagsSound (s.out_ports p)) :
    ∀ p, QueuedFlagsSound ((impl_node_port_set_io s direction port_id id data).2.out_ports p) := by
  intro p
  unfold impl_node_port_set_io
  cases direction
  · split_ifs <;> exact h p
  · split_ifs
    · exact h p
    all_goals first
      | exact h p
      | (simp only [SET_PORT, GET_PORT]
         by_cases hp : p = port_id
         · subst hp
           rw [Function.update_same]
           exact queuedFlagsSound_of_same (s.out_ports p) _ (fun _ => rfl) rfl rfl (h p)
         · rw [Function.update_noteq hp]; exact h p)

/-- The function `impl_node_port_reuse_buffer` keeps the queued flags of the
output ports sound. -/
theorem port_reuse_buffer_sound (s : Impl) (port_id buffer_id : Nat)
    (h : ∀ p, QueuedFlagsSound (s.out_ports p)) :
    ∀ p, QueuedFlagsSound ((impl_node_port_reuse_buffer s port_id buffer_id).2.out_ports p) := by
  intro p
  unfold impl_node_port_reuse_buffer
  split_ifs
  · exact h p
  · simp only
    by_cases hp : p = port_id
    · subst hp
      rw [Function.update_same]
      exact queue_buffer_sound _ _ (h p)
    · rw [Function.update_noteq hp]; exact h p

/-- The body of the loop of `impl_node_process` keeps the queued flags of the
output ports sound. -/
theorem process_out_port_sound (l : ProcessLoop) (i : Nat)
    (h : ∀ p, QueuedFlagsSound (l.this.out_ports p)) :
    ∀ p, QueuedFlagsSound ((process_out_port l i).this.out_ports p) := by
  intro p
  have key : ∀ (port : Port) (cell : SpaIoBuffers), QueuedFlagsSound port →
      QueuedFlagsSound
        ((match dequeue_buffer port with
          | (none, outport) =>
            ({ l with
               this := { l.this with
                         out_ports := Function.update l.this.out_ports i
                           { outport with io := some { cell with status := -EPIPE } } }
               dst_datas := l.dst_datas ++ [Dest.empty] } : ProcessLoop)
          | (some slot, outport) =>
            let dbuf := outport.buffers slot
            let dd := dbuf.desc.datas
            let maxsize := (dd.getD 0 SpaData.zero).maxsize
            let maxsize :=
              match outport.ctrl with
              | some ctrl => SPA_MIN ctrl.max_size maxsize
              | none => maxsize
            let n_samples := SPA_MIN l.n_samples (maxsize / outport.stride)
            let dst_datas := l.dst_datas ++ dd.map (fun (d : SpaData) => Dest.data d.data)
            let dd := dd.map (fun (d : SpaData) =>
              { d with chunk := { d.chunk with
                                  offset := 0
                                  size := (n_samples * outport.stride) % 4294967296 } })
            let dbuf : Buffer := { dbuf with buf := some { dbuf.desc with datas := dd } }
            let outio : SpaIoBuffers := { cell with status := SPA_STATUS_HAVE_BUFFER, buffer_id := dbuf.desc.id }
            let outport : Port := { outport with
                             io := some outio
                             buffers := Function.update outport.buffers slot dbuf }
            { this := { l.this with out_ports := Function.update l.this.out_ports i outport }
              res := Int.lor l.res SPA_STATUS_HAVE_BUFFER
              n_samples := n_samples
              dst_datas := dst_datas }).this.out_ports p) := by
    intro port cell hport
    have hs := dequeue_buffer_sound port hport
    rcases hd : dequeue_buffer port with ⟨slot, q⟩
    rw [hd] at hs
    cases slot with
    | none =>
      simp only
      by_cases hp : p = i
      · subst hp
        rw [Function.update_same]
        exact queuedFlagsSound_of_same q _ (fun _ => rfl) rfl rfl hs
      · rw [Function.update_noteq hp]; exact h p
    | some slot =>
      simp only
      by_cases hp : p = i
      · subst hp
        rw [Function.update_same]
        refine queuedFlagsSound_of_same q _ (fun id => ?_) rfl rfl hs
        simp only
        by_cases hid : id = slot
        · subst hid; rw [Function.update_same]
        · rw [Function.update_noteq hid]
      · rw [Function.update_noteq hp]; exact h p
  cases hio : (l.this.out_ports i).io with
  | none => simp only [process_out_port, hio]; exact h p
  | some outio =>
    simp only [process_out_port, hio]
    split_ifs with h1 h2
    · exact h p
    · exact key _ { outio with buffer_id := SPA_ID_INVALID }
        (queue_buffer_sound (l.this.out_ports i) outio.buffer_id (h i))
    · exact key _ outio (h i)

/-- The loop of `impl_node_process` keeps the queued flags of the output
ports sound. -/
theorem process_out_ports_sound (ports : List Nat) :
    ∀ (l : ProcessLoop), (∀ p, QueuedFlagsSound (l.this.out_ports p)) →
      ∀ p, QueuedFlagsSound ((ports.foldl process_out_port l).this.out_ports p) := by
  induction ports with
  | nil => intro l h; exact h
  | cons i rest ih => intro l h; exact ih _ (process_out_port_sound l i h)

/-- The function `impl_node_process` keeps the queued flags of the output
ports sound. -/
theorem process_sound (s : Impl) (h : ∀ p, QueuedFlagsSound (s.out_ports p)) :
    ∀ p, QueuedFlagsSound ((impl_node_process s).this.out_ports p) := by
  intro p
  cases hio : s.in_port.io with
  | none => simp only [impl_node_process, hio]; exact h p
  | some inio =>
    cases hc : s.convert with
    | none => simp only [impl_node_process, hio, hc]; exact h p
    | some convert =>
      simp only [impl_node_process, hio, hc]
      split_ifs
      · exact h p
      · exact h p
      · exact process_out_ports_sound _
          { this := s, res := 0
            n_samples := (List.foldl (fun m d => SPA_MIN d.chunk.size m) INT_MAX
              (s.in_port.buffers inio.buffer_id).desc.datas) / s.in_port.stride
            dst_datas := [] } h p

/-- In every reachable node state the queued flag of an attached slot of an
output port tells the truth: a slot below the buffer count whose flag is
set is in the available queue of the port. -/
theorem reachable_queued_flags_sound (find_conv_info : FindConvInfo) (s : Impl)
    (hs : Reachable find_conv_info s) : ∀ p, QueuedFlagsSound (s.out_ports p) := by
  induction hs with
  | init cpu_flags => intro p; exact queuedFlagsSound_of_no_buffers _ rfl
  | set_param id flags param _ ih => exact set_param_sound _ id flags param ih
  | send_command command _ ih =>
    intro p
    unfold impl_node_send_command
    split_ifs <;> exact ih p
  | set_callbacks has_event _ ih => exact ih
  | port_set_param direction port_id id flags param _ ih =>
    exact port_set_param_sound find_conv_info _ direction port_id id flags param ih
  | port_use_buffers direction port_id buffers _ ih =>
    exact use_buffers_sound _ direction port_id buffers ih
  | port_set_io direction port_id id data _ ih =>
    exact port_set_io_sound _ direction port_id id data ih
  | port_reuse_buffer port_id buffer_id _ ih =>
    exact port_reuse_buffer_sound _ port_id buffer_id ih
  | process _ ih => exact process_sound _ ih

/-! ## Reusing a buffer twice -/

/-- The node `node_processed` is reachable. -/
theorem node_processed_reachable : Reachable f32_only node_processed :=
  Reachable.process
    (Reachable.port_set_io Direction.Output 1 SPA_IO_Buffers
      (IoData.buffers { status := SPA_STATUS_NEED_BUFFER, buffer_id := SPA_ID_INVALID })
      (Reachable.port_set_io Direction.Output 0 SPA_IO_Buffers
        (IoData.buffers { status := SPA_STATUS_NEED_BUFFER, buffer_id := SPA_ID_INVALID })
        (Reachable.port_set_io Direction.Input 0 SPA_IO_Buffers
          (IoData.buffers { status := SPA_STATUS_HAVE_BUFFER, buffer_id := 0 })
          (Reachable.port_use_buffers Direction.Output 1 [mem_buffer 0 1024 0]
            (Reachable.port_use_buffers Direction.Output 0 [mem_buffer 0 1024 0]
              (Reachable.port_use_buffers Direction.Input 0 [mem_buffer 0 2048 2048]
                (Reachable.port_set_param Direction.Output 1 SPA_PARAM_Format 0
                  (some (format_param SPA_AUDIO_FORMAT_F32P 48000 1))
                  (Reachable.port_set_param Direction.Output 0 SPA_PARAM_Format 0
                    (some (format_param SPA_AUDIO_FORMAT_F32P 48000 1))
                    (Reachable.port_set_param Direction.Input 0 SPA_PARAM_Format 0
                      (some (format_param SPA_AUDIO_FORMAT_F32 48000 2))
                      (Reachable.set_param SPA_PARAM_Profile 0
                        (profile_param SPA_AUDIO_FORMAT_F32P 48000 2)
                        (Reachable.init 0)))))))))))

/-- The node `node_cleared_format` is a reachable state of the node. -/
theorem node_cleared_format_reachable : Reachable f32_only node_cleared_format :=
  Reachable.port_set_param Direction.Output 0 SPA_PARAM_Format 0 none
    (Reachable.port_use_buffers Direction.Output 0 [mem_buffer 0 1024 0, mem_buffer 1 1024 0]
      (Reachable.port_set_param Direction.Output 0 SPA_PARAM_Format 0
        (some (format_param SPA_AUDIO_FORMAT_F32P 48000 1))
        (Reachable.set_param SPA_PARAM_Profile 0
          (profile_param SPA_AUDIO_FORMAT_F32P 48000 1)
          (Reachable.init 0))))

/-- C2 at a failing input: the node whose output port 0 had two buffers
attached and then its format cleared is reached through the public
operations; port 0 is a valid output port and slot 0 is not in its available
queue, which is empty; the port has no buffers and the slot still carries
the queued flag. Two calls of `impl_node_port_reuse_buffer` with id 0 both
return 0, and after the first call as after the second the queue is still
empty: the slot does not appear in it. -/
theorem reuse_buffer_stale_flag_queues_nothing :
    Reachable f32_only node_cleared_format
      ∧ CHECK_PORT node_cleared_format Direction.Output 0 = true
      ∧ (node_cleared_format.out_ports 0).queue = []
      ∧ (node_cleared_format.out_ports 0).n_buffers = 0
      ∧ ((node_cleared_format.out_ports 0).buffers 0).flags = BUFFER_FLAG_QUEUED
      ∧ (impl_node_port_reuse_buffer node_cleared_format 0 0).1 = 0
      ∧ ((impl_node_port_reuse_buffer node_cleared_format 0 0).2.out_ports 0).queue = []
      ∧ (impl_node_port_reuse_buffer
          (impl_node_port_reuse_buffer node_cleared_format 0 0).2 0 0).1 = 0
      ∧ ((impl_node_port_reuse_buffer
          (impl_node_port_reuse_buffer node_cleared_format 0 0).2 0 0).2.out_ports 0).queue
          = [] :=
  ⟨node_cleared_format_reachable, by decide⟩

/-! ## The queue after a successful use_buffers -/

/-- C11 fails on the code: output port 0 has a buffer count of 0 and slot 0
left in its queue by a rejected buffer list; a use_buffers call with one
valid descriptor returns 0, records a buffer count of 1 and binds slot 0 to
the descriptor with its queued flag set, but the queue is then slot 0 twice
and not the single slot 0. -/
theorem use_buffers_keeps_stale_queue :
    (node_rejected_buffers.out_ports 0).have_format = true
      ∧ (node_rejected_buffers.out_ports 0).n_buffers = 0
      ∧ (node_rejected_buffers.out_ports 0).queue = [0]
      ∧ (impl_node_port_use_buffers node_rejected_buffers Direction.Output 0
          [mem_buffer 7 1024 0]).1 = 0
      ∧ ((impl_node_port_use_buffers node_rejected_buffers Direction.Output 0
          [mem_buffer 7 1024 0]).2.out_ports 0).n_buffers = 1
      ∧ (((impl_node_port_use_buffers node_rejected_buffers Direction.Output 0
          [mem_buffer 7 1024 0]).2.out_ports 0).buffers 0).buf = some (mem_buffer 7 1024 0)
      ∧ SPA_FLAG_CHECK (((impl_node_port_use_buffers node_rejected_buffers Direction.Output 0
          [mem_buffer 7 1024 0]).2.out_ports 0).buffers 0).flags BUFFER_FLAG_QUEUED = true
      ∧ ((impl_node_port_use_buffers node_rejected_buffers Direction.Output 0
          [mem_buffer 7 1024 0]).2.out_ports 0).queue = [0, 0]
      ∧ ((impl_node_port_use_buffers node_rejected_buffers Direction.Output 0
          [mem_buffer 7 1024 0]).2.out_ports 0).queue ≠ List.range 1 := by
  refine ⟨by decide, by decide, by decide, by decide, by decide, by decide, by decide,
    by decide, by decide⟩

/-! ## Setting a profile -/

/-- The port `init_port` leaves at the index it is given. -/
theorem init_port_at (s : Impl) (port_id rate position : Nat) :
    (init_port s port_id rate position).out_ports port_id
      = { s.out_ports port_id with
          id := port_id
          queue := []
          n_buffers := 0
          have_format := false
          format :=
            { media_type := SPA_MEDIA_TYPE_audio
              media_subtype := SPA_MEDIA_SUBTYPE_raw
              raw := { (s.out_ports port_id).format.raw with
                       format := SPA_AUDIO_FORMAT_F32P
                       rate := rate
                       channels := 1
                       position := (s.out_ports port_id).format.raw.position.set 0 position } } } := by
  simp [init_port]

/-- The function `init_port` leaves every other output port alone. -/
theorem init_port_other (s : Impl) (port_id rate position other : Nat) (h : other ≠ port_id) :
    (init_port s port_id rate position).out_ports other = s.out_ports other := by
  simp [init_port, Function.update_noteq h]

/-- The loop over `init_port` in `impl_node_set_param`: every port below the
bound is the port `init_port` makes of the one that was there, every other
port and the rest of the node are as before. -/
theorem init_ports_loop (rate : Nat) (position : Nat → Nat) (s : Impl) :
    ∀ n,
      (∀ i, i < n →
        ((List.range n).foldl (fun t i => init_port t i rate (position i)) s).out_ports i
          = (init_port s i rate (position i)).out_ports i)
      ∧ (∀ i, n ≤ i →
        ((List.range n).foldl (fun t i => init_port t i rate (position i)) s).out_ports i
          = s.out_ports i)
      ∧ ((List.range n).foldl (fun t i => init_port t i rate (position i)) s).in_port = s.in_port
      ∧ ((List.range n).foldl (fun t i => init_port t i rate (position i)) s).port_count
          = s.port_count
      ∧ ((List.range n).foldl (fun t i => init_port t i rate (position i)) s).have_profile
          = s.have_profile
      ∧ ((List.range n).foldl (fun t i => init_port t i rate (position i)) s).convert = s.convert
      ∧ ((List.range n).foldl (fun t i => init_port t i rate (position i)) s).events = s.events
      ∧ ((List.range n).foldl (fun t i => init_port t i rate (position i)) s).has_event_callback
          = s.has_event_callback
      ∧ ((List.range n).foldl (fun t i => init_port t i rate (position i)) s).started = s.started
      ∧ ((List.range n).foldl (fun t i => init_port t i rate (position i)) s).cpu_flags
          = s.cpu_flags := by
  intro n
  induction n with
  | zero => simp
  | succ n ih =>
    obtain ⟨h1, h2, h3, h4, h5, h6, h7, h8, h9, h10⟩ := ih
    rw [List.range_succ, List.foldl_append]
    simp only [List.foldl_cons, List.foldl_nil]
    refine ⟨?_, ?_, ?_, ?_, ?_, ?_, ?_, ?_, ?_, ?_⟩
    · intro i hi
      by_cases he : i = n
      · subst he
        rw [init_port_at, init_port_at, h2 i (Nat.le_refl i)]
      · rw [init_port_other _ _ _ _ _ he]
        exact h1 i (by omega)
    · intro i hi
      rw [init_port_other _ _ _ _ _ (by omega)]
      exact h2 i (by omega)
    · exact h3
    · exact h4
    · exact h5
    · exact h6
    · exact h7
    · exact h8
    · exact h9
    · exact h10

/-- Within MAX_PORTS a channel count survives the conversion to `int`. -/
theorem toI32_of_small (c : Nat) (h : c ≤ MAX_PORTS) :
    toI32 c = (c : Int) ∧ (toI32 c).toNat = c := by
  simp only [MAX_PORTS] at h
  have h1 : c % 4294967296 = c := Nat.mod_eq_of_lt (by omega)
  have h2 : toI32 c = (c : Int) := by
    unfold toI32
    rw [h1]
    split_ifs with hlt
    · rfl
    · omega
  exact ⟨h2, by rw [h2]; simp⟩

/-- A successful profile set that does not repeat the format of the input
port: the node it leaves, with its events. -/
theorem set_param_profile_new (s : Impl) (flags : Nat) (param format : Pod)
    (hformat : parse_Pod param SPA_PARAM_PROFILE_format = Except.ok format)
    (hres : (impl_node_set_param s SPA_PARAM_Profile flags param).1 = 0)
    (hnew : ¬ (s.in_port.have_format = true
      ∧ s.in_port.format = ⟨SPA_MEDIA_TYPE_audio, SPA_MEDIA_SUBTYPE_raw,
          (spa_format_audio_raw_parse format AudioInfoRaw.zero).2⟩)) :
    (impl_node_set_param s SPA_PARAM_Profile flags param).2
      = (let raw := (spa_format_audio_raw_parse format AudioInfoRaw.zero).2
         let t := (List.range (toI32 raw.channels).toNat).foldl
           (fun t i => init_port t i raw.rate (raw.position.getD i 0))
           { s with have_profile := true, port_count := toI32 raw.channels }
         { t with
           in_port := { t.in_port with
                        have_format := true
                        format := ⟨SPA_MEDIA_TYPE_audio, SPA_MEDIA_SUBTYPE_raw, raw⟩ }
           events := if t.has_event_callback then t.events ++ [SPA_NODE_EVENT_PortsChanged]
                     else t.events }) := by
  rcases h1 : spa_format_parse format 0 0 with ⟨r1, mt, mst⟩
  rcases h2 : spa_format_audio_raw_parse format AudioInfoRaw.zero with ⟨r2, raw⟩
  rw [h2] at hnew
  have hid : (SPA_PARAM_Profile == SPA_PARAM_Profile) = true := rfl
  simp only [impl_node_set_param, hformat, h1, h2, hid, if_true] at hres ⊢
  by_cases c1 : (!SPA_POD_IS_OBJECT_TYPE format SPA_TYPE_OBJECT_Format) = true
  · rw [if_pos c1] at hres; simp [EINVAL] at hres
  rw [if_neg c1] at hres ⊢
  by_cases c2 : r1 < 0
  · rw [if_pos c2] at hres; simp only at hres; omega
  rw [if_neg c2] at hres ⊢
  by_cases c3 : (mt != SPA_MEDIA_TYPE_audio || mst != SPA_MEDIA_SUBTYPE_raw) = true
  · rw [if_pos c3] at hres; simp [EINVAL] at hres
  rw [if_neg c3] at hres ⊢
  by_cases c4 : r2 < 0
  · rw [if_pos c4] at hres; simp [EINVAL] at hres
  rw [if_neg c4] at hres ⊢
  simp only [Bool.or_eq_true, bne_iff_ne, ne_eq, not_or, not_not] at c3
  rw [c3.1, c3.2] at hres ⊢
  by_cases c5 : (s.in_port.have_format
      && decide (s.in_port.format = ⟨SPA_MEDIA_TYPE_audio, SPA_MEDIA_SUBTYPE_raw, raw⟩)) = true
  · exfalso
    apply hnew
    simpa using c5
  rw [if_neg c5]
  split_ifs <;> rfl

/-- A profile set that does not return 0 leaves the node as it was, and the
result of a profile set is 0 or negative. -/
theorem set_param_error (s : Impl) (id flags : Nat) (param : Pod) :
    ((impl_node_set_param s id flags param).1 ≠ 0 → (impl_node_set_param s id flags param).2 = s)
      ∧ ((impl_node_set_param s id flags param).1 = 0
          ∨ (impl_node_set_param s id flags param).1 < 0) := by
  have he1 : (-EINVAL : Int) < 0 := by decide
  have he2 : (-ENOENT : Int) < 0 := by decide
  rcases hp : parse_Pod param SPA_PARAM_PROFILE_format with e | format
  · simp only [impl_node_set_param, hp]
    split_ifs
    · exact ⟨fun _ => rfl, Or.inr he1⟩
    · exact ⟨fun _ => rfl, Or.inr he2⟩
  · rcases h1 : spa_format_parse format 0 0 with ⟨r1, mt, mst⟩
    rcases h2 : spa_format_audio_raw_parse format AudioInfoRaw.zero with ⟨r2, raw⟩
    simp only [impl_node_set_param, hp, h1, h2]
    split_ifs with c0 c1 c2
    all_goals first
      | exact ⟨fun _ => rfl, Or.inr he1⟩
      | exact ⟨fun _ => rfl, Or.inr he2⟩
      | exact ⟨fun _ => rfl, Or.inl rfl⟩
      | exact ⟨fun h => absurd rfl h, Or.inl rfl⟩
      | exact ⟨fun _ => rfl, Or.inr (by assumption)⟩

/-- A profile set that repeats the format the input port holds leaves the
node as it was. -/
theorem set_param_profile_repeat (s : Impl) (flags : Nat) (param format : Pod)
    (hformat : parse_Pod param SPA_PARAM_PROFILE_format = Except.ok format)
    (hsame : s.in_port.have_format = true
      ∧ s.in_port.format = ⟨SPA_MEDIA_TYPE_audio, SPA_MEDIA_SUBTYPE_raw,
          (spa_format_audio_raw_parse format AudioInfoRaw.zero).2⟩) :
    (impl_node_set_param s SPA_PARAM_Profile flags param).2 = s := by
  rcases h1 : spa_format_parse format 0 0 with ⟨r1, mt, mst⟩
  rcases h2 : spa_format_audio_raw_parse format AudioInfoRaw.zero with ⟨r2, raw⟩
  rw [h2] at hsame
  have hid : (SPA_PARAM_Profile == SPA_PARAM_Profile) = true := rfl
  simp only [impl_node_set_param, hformat, h1, h2, hid, if_true]
  by_cases c1 : (!SPA_POD_IS_OBJECT_TYPE format SPA_TYPE_OBJECT_Format) = true
  · rw [if_pos c1]
  rw [if_neg c1]
  by_cases c2 : r1 < 0
  · rw [if_pos c2]
  rw [if_neg c2]
  by_cases c3 : (mt != SPA_MEDIA_TYPE_audio || mst != SPA_MEDIA_SUBTYPE_raw) = true
  · rw [if_pos c3]
  rw [if_neg c3]
  by_cases c4 : r2 < 0
  · rw [if_pos c4]
  rw [if_neg c4]
  simp only [Bool.or_eq_true, bne_iff_ne, ne_eq, not_or, not_not] at c3
  rw [c3.1, c3.2]
  have c5 : (s.in_port.have_format
      && decide (s.in_port.format = ⟨SPA_MEDIA_TYPE_audio, SPA_MEDIA_SUBTYPE_raw, raw⟩)) = true := by
    simpa using hsame
  rw [if_pos c5]

/-- C12, as stated, fails: output port 0 has a committed format and two
buffers, both queued; setting the profile the input port already holds
again returns 0 and resets nothing: the port keeps its committed format, its
two buffers and its queue. -/
theorem repeated_profile_resets_nothing :
    (impl_node_set_param node_two_buffers SPA_PARAM_Profile 0
        (profile_param SPA_AUDIO_FORMAT_F32P 48000 1)).1 = 0
      ∧ ((impl_node_set_param node_two_buffers SPA_PARAM_Profile 0
          (profile_param SPA_AUDIO_FORMAT_F32P 48000 1)).2.out_ports 0).have_format = true
      ∧ ((impl_node_set_param node_two_buffers SPA_PARAM_Profile 0
          (profile_param SPA_AUDIO_FORMAT_F32P 48000 1)).2.out_ports 0).n_buffers = 2
      ∧ ((impl_node_set_param node_two_buffers SPA_PARAM_Profile 0
          (profile_param SPA_AUDIO_FORMAT_F32P 48000 1)).2.out_ports 0).queue = [0, 1] := by
  refine ⟨by decide, by decide, by decide, by decide⟩

/-- C12, amended: a profile set that returns 0, carries a raw audio format of
c channels at rate r, with c at most SPA_AUDIO_MAX_CHANNELS and each of the
positions 0 to c - 1 of the format one of the first `n_named_channels`
channel ids, which have a name in the table `spa_type_audio_channel`, and
does not repeat the format the input port already holds makes the port
count c, sets have_profile and resets every output port i below c to: id i,
no committed format, zero buffers, empty queue, format audio/raw, F32P, 1
channel, rate r, with the first position replaced by the profile's position
i; the input port then holds the profile format with have_format true. -/
theorem profile_set_initialises_ports (s : Impl) (flags : Nat) (param format : Pod)
    (hformat : parse_Pod param SPA_PARAM_PROFILE_format = Except.ok format)
    (hres : (impl_node_set_param s SPA_PARAM_Profile flags param).1 = 0)
    (hnew : ¬ (s.in_port.have_format = true
      ∧ s.in_port.format = ⟨SPA_MEDIA_TYPE_audio, SPA_MEDIA_SUBTYPE_raw,
          (spa_format_audio_raw_parse format AudioInfoRaw.zero).2⟩))
    (hchannels : (spa_format_audio_raw_parse format AudioInfoRaw.zero).2.channels
      ≤ SPA_AUDIO_MAX_CHANNELS)
    (_hnamed : ∀ i, i < (spa_format_audio_raw_parse format AudioInfoRaw.zero).2.channels →
      (spa_format_audio_raw_parse format AudioInfoRaw.zero).2.position.getD i 0
        < n_named_channels) :
    (impl_node_set_param s SPA_PARAM_Profile flags param).2.port_count
        = ((spa_format_audio_raw_parse format AudioInfoRaw.zero).2.channels : Int)
      ∧ (impl_node_set_param s SPA_PARAM_Profile flags param).2.have_profile = true
      ∧ (∀ i, i < (spa_format_audio_raw_parse format AudioInfoRaw.zero).2.channels →
          ((impl_node_set_param s SPA_PARAM_Profile flags param).2.out_ports i).id = i
          ∧ ((impl_node_set_param s SPA_PARAM_Profile flags param).2.out_ports i).have_format
              = false
          ∧ ((impl_node_set_param s SPA_PARAM_Profile flags param).2.out_ports i).n_buffers = 0
          ∧ ((impl_node_set_param s SPA_PARAM_Profile flags param).2.out_ports i).queue = []
          ∧ ((impl_node_set_param s SPA_PARAM_Profile flags param).2.out_ports i).format.media_type
              = SPA_MEDIA_TYPE_audio
          ∧ ((impl_node_set_param s SPA_PARAM_Profile flags param).2.out_ports
              i).format.media_subtype = SPA_MEDIA_SUBTYPE_raw
          ∧ ((impl_node_set_param s SPA_PARAM_Profile flags param).2.out_ports i).format.raw.format
              = SPA_AUDIO_FORMAT_F32P
          ∧ ((impl_node_set_param s SPA_PARAM_Profile flags param).2.out_ports
              i).format.raw.channels = 1
          ∧ ((impl_node_set_param s SPA_PARAM_Profile flags param).2.out_ports i).format.raw.rate
              = (spa_format_audio_raw_parse format AudioInfoRaw.zero).2.rate
          ∧ ((impl_node_set_param s SPA_PARAM_Profile flags param).2.out_ports
              i).format.raw.position
              = (s.out_ports i).format.raw.position.set 0
                  ((spa_format_audio_raw_parse format AudioInfoRaw.zero).2.position.getD i 0))
      ∧ (impl_node_set_param s SPA_PARAM_Profile flags param).2.in_port.have_format = true
      ∧ (impl_node_set_param s SPA_PARAM_Profile flags param).2.in_port.format
          = ⟨SPA_MEDIA_TYPE_audio, SPA_MEDIA_SUBTYPE_raw,
              (spa_format_audio_raw_parse format AudioInfoRaw.zero).2⟩ := by
  rw [set_param_profile_new s flags param format hformat hres hnew]
  have hports : (spa_format_audio_raw_parse format AudioInfoRaw.zero).2.channels ≤ MAX_PORTS :=
    Nat.le_trans hchannels (by decide)
  obtain ⟨hi1, hi2⟩ := toI32_of_small _ hports
  obtain ⟨h1, _, h3, h4, h5, _⟩ := init_ports_loop
    (spa_format_audio_raw_parse format AudioInfoRaw.zero).2.rate
    (fun i => (spa_format_audio_raw_parse format AudioInfoRaw.zero).2.position.getD i 0)
    { s with have_profile := true
             port_count := toI32 (spa_format_audio_raw_parse format AudioInfoRaw.zero).2.channels }
    (toI32 (spa_format_audio_raw_parse format AudioInfoRaw.zero).2.channels).toNat
  simp only []
  refine ⟨by rw [h4]; exact hi1, by rw [h5], ?_, trivial, trivial⟩
  intro i hi
  rw [h1 i (by rw [hi2]; exact hi), init_port_at]
  simp

/-- The amended C12 on a fresh node and a profile of 2 channels at 48000 Hz,
both at the position 0: 2 output ports, each with the single-channel F32P
format at 48000 Hz and no committed format. -/
theorem profile_set_initialises_ports_witness :
    node_profile2.port_count = 2
      ∧ ((node_profile2.out_ports 0).have_format = false
        ∧ (node_profile2.out_ports 0).format.raw.format = SPA_AUDIO_FORMAT_F32P
        ∧ (node_profile2.out_ports 0).format.raw.channels = 1
        ∧ (node_profile2.out_ports 0).format.raw.rate = 48000)
      ∧ ((node_profile2.out_ports 1).have_format = false
        ∧ (node_profile2.out_ports 1).format.raw.format = SPA_AUDIO_FORMAT_F32P
        ∧ (node_profile2.out_ports 1).format.raw.channels = 1
        ∧ (node_profile2.out_ports 1).format.raw.rate = 48000)
      ∧ node_profile2.in_port.have_format = true :=
  have h := profile_set_initialises_ports (impl_init 0) 0
    (profile_param SPA_AUDIO_FORMAT_F32P 48000 2) (format_param SPA_AUDIO_FORMAT_F32P 48000 2)
    rfl (by decide) (fun h => absurd h.1 (by decide)) (by decide) (by decide)
  have h0 := h.2.2.1 0 (by decide)
  have h1 := h.2.2.1 1 (by decide)
  ⟨h.1, ⟨h0.2.1, h0.2.2.2.2.2.2.1, h0.2.2.2.2.2.2.2.1, h0.2.2.2.2.2.2.2.2.1⟩,
    ⟨h1.2.1, h1.2.2.2.2.2.2.1, h1.2.2.2.2.2.2.2.1, h1.2.2.2.2.2.2.2.2.1⟩, h.2.2.2.1⟩

/-! ## The topology-changed notification -/

/-- C13, as stated, fails: on a node with an event callback and a profile of
two channels, setting the same profile again returns 0 and issues no
notification: the events handed to the callback are the single PortsChanged
of the first profile set. -/
theorem repeated_profile_issues_no_event :
    node_callback_profile2.has_event_callback = true
      ∧ node_callback_profile2.events = [SPA_NODE_EVENT_PortsChanged]
      ∧ (impl_node_set_param node_callback_profile2 SPA_PARAM_Profile 0
          (profile_param SPA_AUDIO_FORMAT_F32P 48000 2)).1 = 0
      ∧ (impl_node_set_param node_callback_profile2 SPA_PARAM_Profile 0
          (profile_param SPA_AUDIO_FORMAT_F32P 48000 2)).2.events
          = [SPA_NODE_EVENT_PortsChanged] := by
  refine ⟨by decide, by decide, by decide, by decide⟩

/-- C13, amended: on a node with an event callback installed, a profile set
whose parameter is in range (it is rejected before the loop over the output
ports, or its format has at most SPA_AUDIO_MAX_CHANNELS channels, each at
one of the first `n_named_channels` channel ids, which have a name in the
table `spa_type_audio_channel`) returns 0 or a negative value; one that
returns 0 and carries a format other than the one the input port already
holds issues exactly one PortsChanged notification; one that returns 0 and
repeats the format the input port already holds leaves the node unchanged
and issues none; one that fails issues none. -/
theorem profile_set_notification (s : Impl) (flags : Nat) (param : Pod)
    (hcallback : s.has_event_callback = true)
    (_hrange : profile_in_range param = true) :
    ((impl_node_set_param s SPA_PARAM_Profile flags param).1 = 0
        ∨ (impl_node_set_param s SPA_PARAM_Profile flags param).1 < 0)
      ∧ ((impl_node_set_param s SPA_PARAM_Profile flags param).1 < 0 →
          (impl_node_set_param s SPA_PARAM_Profile flags param).2.events = s.events)
      ∧ (∀ format, parse_Pod param SPA_PARAM_PROFILE_format = Except.ok format →
          (impl_node_set_param s SPA_PARAM_Profile flags param).1 = 0 →
          (¬ (s.in_port.have_format = true
              ∧ s.in_port.format = ⟨SPA_MEDIA_TYPE_audio, SPA_MEDIA_SUBTYPE_raw,
                  (spa_format_audio_raw_parse format AudioInfoRaw.zero).2⟩) →
            (impl_node_set_param s SPA_PARAM_Profile flags param).2.events
              = s.events ++ [SPA_NODE_EVENT_PortsChanged])
          ∧ ((s.in_port.have_format = true
              ∧ s.in_port.format = ⟨SPA_MEDIA_TYPE_audio, SPA_MEDIA_SUBTYPE_raw,
                  (spa_format_audio_raw_parse format AudioInfoRaw.zero).2⟩) →
            (impl_node_set_param s SPA_PARAM_Profile flags param).2 = s)) := by
  obtain ⟨herr, hsign⟩ := set_param_error s SPA_PARAM_Profile flags param
  refine ⟨hsign, fun hneg => by rw [herr (by omega)], ?_⟩
  intro format hformat hres
  constructor
  · intro hnew
    rw [set_param_profile_new s flags param format hformat hres hnew]
    obtain ⟨_, _, _, _, _, _, h7, h8, _⟩ := init_ports_loop
      (spa_format_audio_raw_parse format AudioInfoRaw.zero).2.rate
      (fun i => (spa_format_audio_raw_parse format AudioInfoRaw.zero).2.position.getD i 0)
      { s with have_profile := true
               port_count :=
                 toI32 (spa_format_audio_raw_parse format AudioInfoRaw.zero).2.channels }
      (toI32 (spa_format_audio_raw_parse format AudioInfoRaw.zero).2.channels).toNat
    simp only []
    rw [h8, h7]
    simp [hcallback]
  · intro hsame
    exact set_param_profile_repeat s flags param format hformat hsame

/-- The amended C13 on a fresh node with an event callback: the first
profile set, of 2 channels at the position 0, issues one PortsChanged
notification. -/
theorem profile_set_notification_witness :
    profile_in_range (profile_param SPA_AUDIO_FORMAT_F32P 48000 2) = true
      ∧ (impl_node_set_param node_with_callback SPA_PARAM_Profile 0
        (profile_param SPA_AUDIO_FORMAT_F32P 48000 2)).1 = 0
      ∧ (impl_node_set_param node_with_callback SPA_PARAM_Profile 0
        (profile_param SPA_AUDIO_FORMAT_F32P 48000 2)).2.events
          = node_with_callback.events ++ [SPA_NODE_EVENT_PortsChanged] :=
  ⟨by decide, by decide,
   ((profile_set_notification node_with_callback 0
      (profile_param SPA_AUDIO_FORMAT_F32P 48000 2) (by decide) (by decide)).2.2
      (format_param SPA_AUDIO_FORMAT_F32P 48000 2) rfl (by decide)).1
      (fun h => absurd h.1 (by decide))⟩

/-! ## The number of output ports -/

/-- C14 fails on the code: on a fresh node a profile of 129 channels returns
0 and makes the port count 129, above MAX_PORTS, so that port id 128 passes
the port check; and a profile of 0 channels returns 0 and makes the port
count 0. -/
theorem profile_channel_count_unchecked :
    (impl_node_set_param (impl_init 0) SPA_PARAM_Profile 0
        (profile_param SPA_AUDIO_FORMAT_F32P 48000 129)).1 = 0
      ∧ (impl_node_set_param (impl_init 0) SPA_PARAM_Profile 0
        (profile_param SPA_AUDIO_FORMAT_F32P 48000 129)).2.port_count = 129
      ∧ MAX_PORTS < 129
      ∧ CHECK_PORT (impl_node_set_param (impl_init 0) SPA_PARAM_Profile 0
          (profile_param SPA_AUDIO_FORMAT_F32P 48000 129)).2 Direction.Output 128 = true
      ∧ (impl_node_set_param (impl_init 0) SPA_PARAM_Profile 0
        (profile_param SPA_AUDIO_FORMAT_F32P 48000 0)).1 = 0
      ∧ (impl_node_set_param (impl_init 0) SPA_PARAM_Profile 0
        (profile_param SPA_AUDIO_FORMAT_F32P 48000 0)).2.port_count = 0 := by
  refine ⟨by decide, by decide, by decide, by decide, by decide, by decide⟩

/-! ## The loop over the output ports -/

/-- The four ways the body of the loop in `impl_node_process` treats output
port `i`: no cell; a cell that still holds a buffer; no slot to dequeue
after the recycle step; a slot dequeued after the recycle step. -/
theorem process_out_port_cases (l : ProcessLoop) (i : Nat) :
    ((l.this.out_ports i).io = none
        ∧ process_out_port l i = { l with dst_datas := l.dst_datas ++ [Dest.empty] })
      ∨ (∃ cell, (l.this.out_ports i).io = some cell ∧ cell.status = SPA_STATUS_HAVE_BUFFER
          ∧ process_out_port l i
              = { l with res := Int.lor l.res SPA_STATUS_HAVE_BUFFER
                         dst_datas := l.dst_datas ++ [Dest.empty] })
      ∨ (∃ cell q, (l.this.out_ports i).io = some cell ∧ cell.status ≠ SPA_STATUS_HAVE_BUFFER
          ∧ dequeue_buffer (recycle (l.this.out_ports i) cell).1 = (none, q)
          ∧ process_out_port l i
              = { l with
                  this := { l.this with
                            out_ports := Function.update l.this.out_ports i
                              { q with io := some { (recycle (l.this.out_ports i) cell).2 with
                                                    status := -EPIPE } } }
                  dst_datas := l.dst_datas ++ [Dest.empty] })
      ∨ (∃ cell slot q, (l.this.out_ports i).io = some cell
          ∧ cell.status ≠ SPA_STATUS_HAVE_BUFFER
          ∧ dequeue_buffer (recycle (l.this.out_ports i) cell).1 = (some slot, q)
          ∧ process_out_port l i
              = { this := { l.this with
                            out_ports := Function.update l.this.out_ports i
                              (publish_slot (clamp_n_samples l.n_samples q slot) q
                                (recycle (l.this.out_ports i) cell).2 slot) }
                  res := Int.lor l.res SPA_STATUS_HAVE_BUFFER
                  n_samples := clamp_n_samples l.n_samples q slot
                  dst_datas := l.dst_datas
                    ++ (q.buffers slot).desc.datas.map (fun d => Dest.data d.data) }) := by
  cases hio : (l.this.out_ports i).io with
  | none => left; exact ⟨rfl, by simp only [process_out_port, hio]⟩
  | some cell =>
    right
    by_cases hs : cell.status = SPA_STATUS_HAVE_BUFFER
    · left
      refine ⟨cell, rfl, hs, ?_⟩
      simp only [process_out_port, hio, hs, beq_self_eq_true, if_true]
    · right
      have hs2 : (cell.status == SPA_STATUS_HAVE_BUFFER) = false := by simpa using hs
      rcases hd : dequeue_buffer (recycle (l.this.out_ports i) cell).1 with ⟨slot, q⟩
      cases slot with
      | none =>
        left
        refine ⟨cell, q, rfl, hs, hd, ?_⟩
        simp only [recycle] at hd ⊢
        simp only [process_out_port, hio, hs2, Bool.false_eq_true, if_false]
        split_ifs at hd ⊢ with hr
        · simp only [hd]
        · simp only [hd]
      | some slot =>
        right
        refine ⟨cell, slot, q, rfl, hs, hd, ?_⟩
        simp only [recycle] at hd ⊢
        simp only [process_out_port, hio, hs2, Bool.false_eq_true, if_false]
        split_ifs at hd ⊢ with hr
        · simp only [hd]
          rfl
        · simp only [hd]
          rfl

/-- What `dequeue_buffer` leaves alone. -/
theorem dequeue_buffer_fields (port : Port) :
    (dequeue_buffer port).2.id = port.id ∧ (dequeue_buffer port).2.io = port.io
      ∧ (dequeue_buffer port).2.ctrl = port.ctrl
      ∧ (dequeue_buffer port).2.have_format = port.have_format
      ∧ (dequeue_buffer port).2.format = port.format
      ∧ (dequeue_buffer port).2.blocks = port.blocks
      ∧ (dequeue_buffer port).2.stride = port.stride
      ∧ (dequeue_buffer port).2.n_buffers = port.n_buffers := by
  unfold dequeue_buffer
  cases port.queue <;> simp

/-- The body of the loop in `impl_node_process` only writes to output port
`i`: the input port, every other output port and the rest of the node are
as before. -/
theorem process_out_port_node (l : ProcessLoop) (i : Nat) :
    (process_out_port l i).this.in_port = l.this.in_port
      ∧ (process_out_port l i).this.convert = l.this.convert
      ∧ (process_out_port l i).this.port_count = l.this.port_count
      ∧ (process_out_port l i).this.have_profile = l.this.have_profile
      ∧ (process_out_port l i).this.started = l.this.started
      ∧ (process_out_port l i).this.events = l.this.events
      ∧ (process_out_port l i).this.has_event_callback = l.this.has_event_callback
      ∧ (process_out_port l i).this.cpu_flags = l.this.cpu_flags
      ∧ (∀ j, j ≠ i → (process_out_port l i).this.out_ports j = l.this.out_ports j) := by
  rcases process_out_port_cases l i with ⟨_, h⟩ | ⟨_, _, _, h⟩ | ⟨_, _, _, _, _, h⟩
    | ⟨_, _, _, _, _, _, h⟩
  all_goals rw [h]
  · exact ⟨rfl, rfl, rfl, rfl, rfl, rfl, rfl, rfl, fun _ _ => rfl⟩
  · exact ⟨rfl, rfl, rfl, rfl, rfl, rfl, rfl, rfl, fun _ _ => rfl⟩
  · exact ⟨rfl, rfl, rfl, rfl, rfl, rfl, rfl, rfl, fun j hj => Function.update_noteq hj _ _⟩
  · exact ⟨rfl, rfl, rfl, rfl, rfl, rfl, rfl, rfl, fun j hj => Function.update_noteq hj _ _⟩

/-- `SPA_MIN` is at most its first argument. -/
theorem SPA_MIN_le_left (a b : Nat) : SPA_MIN a b ≤ a := by
  unfold SPA_MIN; split_ifs <;> omega

/-- The body of the loop in `impl_node_process` never raises the frame
count, only adds destinations at the end, and leaves the result as it is or
sets the "have buffer" bit in it. -/
theorem process_out_port_locals (l : ProcessLoop) (i : Nat) :
    (process_out_port l i).n_samples ≤ l.n_samples
      ∧ (∃ ext, (process_out_port l i).dst_datas = l.dst_datas ++ ext)
      ∧ ((process_out_port l i).res = l.res
          ∨ (process_out_port l i).res = Int.lor l.res SPA_STATUS_HAVE_BUFFER) := by
  rcases process_out_port_cases l i with ⟨_, h⟩ | ⟨_, _, _, h⟩ | ⟨_, _, _, _, _, h⟩
    | ⟨_, _, _, _, _, _, h⟩
  all_goals rw [h]
  · exact ⟨Nat.le_refl _, ⟨_, rfl⟩, Or.inl rfl⟩
  · exact ⟨Nat.le_refl _, ⟨_, rfl⟩, Or.inr rfl⟩
  · exact ⟨Nat.le_refl _, ⟨_, rfl⟩, Or.inl rfl⟩
  · exact ⟨SPA_MIN_le_left _ _, ⟨_, rfl⟩, Or.inr rfl⟩

/-- The loop in `impl_node_process` over a list of output ports only writes
to the output ports in the list. -/
theorem process_fold_node (ports : List Nat) :
    ∀ (l : ProcessLoop),
      (ports.foldl process_out_port l).this.in_port = l.this.in_port
        ∧ (ports.foldl process_out_port l).this.convert = l.this.convert
        ∧ (ports.foldl process_out_port l).this.port_count = l.this.port_count
        ∧ (ports.foldl process_out_port l).this.have_profile = l.this.have_profile
        ∧ (ports.foldl process_out_port l).this.started = l.this.started
        ∧ (ports.foldl process_out_port l).this.events = l.this.events
        ∧ (ports.foldl process_out_port l).this.has_event_callback = l.this.has_event_callback
        ∧ (ports.foldl process_out_port l).this.cpu_flags = l.this.cpu_flags
        ∧ (∀ j, j ∉ ports →
            (ports.foldl process_out_port l).this.out_ports j = l.this.out_ports j) := by
  induction ports with
  | nil => intro l; exact ⟨rfl, rfl, rfl, rfl, rfl, rfl, rfl, rfl, fun _ _ => rfl⟩
  | cons i rest ih =>
    intro l
    obtain ⟨a1, a2, a3, a4, a5, a6, a7, a8, a9⟩ := ih (process_out_port l i)
    obtain ⟨b1, b2, b3, b4, b5, b6, b7, b8, b9⟩ := process_out_port_node l i
    simp only [List.foldl_cons]
    refine ⟨a1.trans b1, a2.trans b2, a3.trans b3, a4.trans b4, a5.trans b5, a6.trans b6,
      a7.trans b7, a8.trans b8, ?_⟩
    intro j hj
    rw [List.mem_cons, not_or] at hj
    exact (a9 j hj.2).trans (b9 j hj.1)

/-- The two values of the loop result: no bit, or the "have buffer" bit. -/
theorem lor_have_buffer (res : Int) (h : res = 0 ∨ res = SPA_STATUS_HAVE_BUFFER) :
    Int.lor res SPA_STATUS_HAVE_BUFFER = SPA_STATUS_HAVE_BUFFER := by
  rcases h with h | h <;> rw [h] <;> decide

/-- The loop in `impl_node_process` never raises the frame count, only adds
destinations at the end, and its result, once 0 or "have buffer", stays 0
or "have buffer", and stays "have buffer" once it is. -/
theorem process_fold_locals (ports : List Nat) :
    ∀ (l : ProcessLoop),
      (ports.foldl process_out_port l).n_samples ≤ l.n_samples
        ∧ (∃ ext, (ports.foldl process_out_port l).dst_datas = l.dst_datas ++ ext)
        ∧ ((l.res = 0 ∨ l.res = SPA_STATUS_HAVE_BUFFER) →
            ((ports.foldl process_out_port l).res = 0
              ∨ (ports.foldl process_out_port l).res = SPA_STATUS_HAVE_BUFFER))
        ∧ (l.res = SPA_STATUS_HAVE_BUFFER →
            (ports.foldl process_out_port l).res = SPA_STATUS_HAVE_BUFFER) := by
  induction ports with
  | nil => intro l; exact ⟨Nat.le_refl _, ⟨[], by simp⟩, fun h => h, fun h => h⟩
  | cons i rest ih =>
    intro l
    obtain ⟨a1, ⟨ext1, a2⟩, a3, a4⟩ := ih (process_out_port l i)
    obtain ⟨b1, ⟨ext2, b2⟩, b3⟩ := process_out_port_locals l i
    simp only [List.foldl_cons]
    have step : (l.res = 0 ∨ l.res = SPA_STATUS_HAVE_BUFFER) →
        ((process_out_port l i).res = 0
          ∨ (process_out_port l i).res = SPA_STATUS_HAVE_BUFFER) := by
      intro h
      rcases b3 with b3 | b3
      · rw [b3]; exact h
      · rw [b3, lor_have_buffer _ h]; exact Or.inr rfl
    refine ⟨Nat.le_trans a1 b1, ⟨ext2 ++ ext1, by rw [a2, b2, List.append_assoc]⟩,
      fun h => a3 (step h), ?_⟩
    intro h
    apply a4
    rcases b3 with b3 | b3
    · rw [b3]; exact h
    · rw [b3, lor_have_buffer _ (Or.inr h)]

/-- Past its four input checks `impl_node_process` runs the loop over the
output ports, calls the transform with what the loop collected and marks
the input cell "need buffer". -/
theorem process_past_checks (s : Impl) (inio : SpaIoBuffers) (convert : ConvertFunc)
    (hio : s.in_port.io = some inio) (hconvert : s.convert = some convert)
    (hstatus : inio.status = SPA_STATUS_HAVE_BUFFER)
    (hid : inio.buffer_id < s.in_port.n_buffers) :
    impl_node_process s
      = { res := Int.lor (process_out_ports s inio.buffer_id s.port_count.toNat).res
            SPA_STATUS_NEED_BUFFER
          this := { (process_out_ports s inio.buffer_id s.port_count.toNat).this with
                    in_port :=
                      { (process_out_ports s inio.buffer_id s.port_count.toNat).this.in_port with
                        io := some { inio with status := SPA_STATUS_NEED_BUFFER } } }
          call := some
            { func := convert
              n_dst_datas := (process_out_ports s inio.buffer_id s.port_count.toNat).dst_datas.length
              dst_datas := (process_out_ports s inio.buffer_id s.port_count.toNat).dst_datas
              n_src_datas := (s.in_port.buffers inio.buffer_id).desc.datas.length
              src_datas := (s.in_port.buffers inio.buffer_id).desc.datas.map
                (fun d => (d.data, d.chunk.offset))
              n_samples := (process_out_ports s inio.buffer_id s.port_count.toNat).n_samples } } := by
  have h1 : (inio.status != SPA_STATUS_HAVE_BUFFER) = false := by simp [hstatus]
  have h2 : ¬ (inio.buffer_id ≥ s.in_port.n_buffers) := by omega
  simp only [impl_node_process, hio, hconvert, h1, h2, Bool.false_eq_true, if_false]
  rfl

/-! ## Process: an input buffer id out of range -/

/-- C16, as stated, fails: on a node whose input cell announces buffer 0
while the input port has no buffers and no transform is selected, process
returns -EIO and leaves the status of the cell "buffer available". -/
theorem process_bad_id_without_transform :
    node_with_full_input_cell.in_port.io
        = some { status := SPA_STATUS_HAVE_BUFFER, buffer_id := 0 }
      ∧ node_with_full_input_cell.in_port.n_buffers = 0
      ∧ (impl_node_process node_with_full_input_cell).res = - EIO
      ∧ (impl_node_process node_with_full_input_cell).res ≠ -EINVAL
      ∧ (impl_node_process node_with_full_input_cell).this.in_port.io
          = some { status := SPA_STATUS_HAVE_BUFFER, buffer_id := 0 } := by
  refine ⟨by decide, by decide, by decide, by decide, by decide⟩

/-- C16, amended: when the input port has a live I/O cell with status
"buffer available" whose buffer id is not below the buffer count of the
input port, process calls no transform and leaves every output port, with
its cell, queue and chunks, unchanged; with a transform selected it sets the
status of the input cell to -EINVAL, changes nothing else and returns
-EINVAL; with none selected it changes nothing and returns -EIO. -/
theorem process_bad_buffer_id (s : Impl) (cell : SpaIoBuffers)
    (hcell : s.in_port.io = some cell)
    (hstatus : cell.status = SPA_STATUS_HAVE_BUFFER)
    (hid : ¬ cell.buffer_id < s.in_port.n_buffers) :
    (impl_node_process s).call = none
      ∧ (impl_node_process s).this.out_ports = s.out_ports
      ∧ (s.convert ≠ none →
          (impl_node_process s).res = -EINVAL
          ∧ (impl_node_process s).this
              = { s with in_port := { s.in_port with
                                      io := some { cell with status := -EINVAL } } })
      ∧ (s.convert = none →
          (impl_node_process s).res = - EIO ∧ (impl_node_process s).this = s) := by
  have h1 : (cell.status != SPA_STATUS_HAVE_BUFFER) = false := by simp [hstatus]
  have h2 : cell.buffer_id ≥ s.in_port.n_buffers := by omega
  cases hconv : s.convert with
  | none => simp [impl_node_process, hcell, hconv]
  | some f => simp [impl_node_process, hcell, hconv, h1, h2]

/-- The amended C16 on a node with the transform 7 selected, no input
buffers and an input cell that announces buffer 0: process returns -EINVAL,
calls no transform and the cell then holds the status -EINVAL. -/
theorem process_bad_buffer_id_witness :
    (impl_node_process node_with_full_input_cell_and_transform).call = none
      ∧ (impl_node_process node_with_full_input_cell_and_transform).res = -EINVAL
      ∧ (impl_node_process node_with_full_input_cell_and_transform).this.in_port.io
          = some { status := -EINVAL, buffer_id := 0 } :=
  have h := process_bad_buffer_id node_with_full_input_cell_and_transform
    { status := SPA_STATUS_HAVE_BUFFER, buffer_id := 0 } rfl rfl (by decide)
  have h2 := h.2.2.1 (by decide)
  ⟨h.1, h2.1, by rw [h2.2]⟩

/-! ## Process: the frame count of the input buffer -/

/-- The indices below `n` are those below `i`, then `i`, then the rest. -/
theorem range_split (n i : Nat) (h : i < n) :
    List.range n = List.range i ++ i :: List.range' (i + 1) (n - i - 1) := by
  have e : n = (n - i - 1 + 1) + i := by omega
  rw [List.range_eq_range', List.range_eq_range']
  conv_lhs => rw [e]
  rw [← List.range'_append 0 i (n - i - 1 + 1) 1, List.range'_succ]
  simp

/-- The loop over the first `n` output ports is the loop over the first `i`,
then the body for port `i`, then the loop over the ports after `i`. -/
theorem process_out_ports_split (s : Impl) (buffer_id n i : Nat) (h : i < n) :
    process_out_ports s buffer_id n
      = (List.range' (i + 1) (n - i - 1)).foldl process_out_port
          (process_out_port (process_out_ports s buffer_id i) i) := by
  unfold process_out_ports
  rw [range_split n i h, List.foldl_append, List.foldl_cons]

/-- Before the loop reaches output port `i` the port is as it was, and the
result is 0 or "have buffer". -/
theorem process_out_ports_before (s : Impl) (buffer_id i : Nat) :
    (process_out_ports s buffer_id i).this.out_ports i = s.out_ports i
      ∧ ((process_out_ports s buffer_id i).res = 0
          ∨ (process_out_ports s buffer_id i).res = SPA_STATUS_HAVE_BUFFER) := by
  unfold process_out_ports
  constructor
  · exact (process_fold_node (List.range i) _).2.2.2.2.2.2.2.2 i (by simp)
  · exact (process_fold_locals (List.range i) _).2.2.1 (Or.inl rfl)

/-- The ports after `i` do not contain `i`. -/
theorem not_mem_range_after (i k : Nat) : i ∉ List.range' (i + 1) k := by
  intro h
  rw [List.mem_range'] at h
  obtain ⟨j, _, hj⟩ := h
  omega

/-- The body of the loop for an output port whose cell still holds a
buffer. -/
theorem process_out_port_pending (l : ProcessLoop) (i : Nat) (cell : SpaIoBuffers)
    (hcell : (l.this.out_ports i).io = some cell)
    (hpending : cell.status = SPA_STATUS_HAVE_BUFFER) :
    process_out_port l i
      = { l with res := Int.lor l.res SPA_STATUS_HAVE_BUFFER
                 dst_datas := l.dst_datas ++ [Dest.empty] } := by
  rcases process_out_port_cases l i with ⟨h0, _⟩ | ⟨_, _, _, h⟩ | ⟨c, _, hc, hs, _⟩
    | ⟨c, _, _, hc, hs, _⟩
  · rw [h0] at hcell; exact absurd hcell (by simp)
  · exact h
  · rw [hcell] at hc
    simp only [Option.some.injEq] at hc
    subst hc
    exact absurd hpending hs
  · rw [hcell] at hc
    simp only [Option.some.injEq] at hc
    subst hc
    exact absurd hpending hs

/-- In a defined process cycle that gets past the input checks, an output
port i of the node whose I/O cell already has status "buffer available" is
skipped: the port, with its cell (status and buffer id), its available
queue, the queued flags of its slots and the chunks of its buffers, is
unchanged by the cycle; the destinations given to the transform are those
of the ports before i, then the scratch region for port i, then those of
the ports after i; and the returned status is "have buffer" OR-ed with
"need buffer". -/
theorem process_skips_pending_output (s : Impl) (inio : SpaIoBuffers) (convert : ConvertFunc)
    (i : Nat) (cell : SpaIoBuffers)
    (_hdefined : process_defined s = true)
    (hio : s.in_port.io = some inio) (hconvert : s.convert = some convert)
    (hstatus : inio.status = SPA_STATUS_HAVE_BUFFER)
    (hid : inio.buffer_id < s.in_port.n_buffers)
    (hport : (i : Int) < s.port_count)
    (hcell : (s.out_ports i).io = some cell)
    (hpending : cell.status = SPA_STATUS_HAVE_BUFFER) :
    (impl_node_process s).this.out_ports i = s.out_ports i
      ∧ (∃ call post, (impl_node_process s).call = some call
          ∧ call.func = convert
          ∧ call.dst_datas
              = (process_out_ports s inio.buffer_id i).dst_datas ++ Dest.empty :: post)
      ∧ (impl_node_process s).res
          = Int.lor SPA_STATUS_HAVE_BUFFER SPA_STATUS_NEED_BUFFER := by
  have hlt : i < s.port_count.toNat := by omega
  obtain ⟨hbefore, hres⟩ := process_out_ports_before s inio.buffer_id i
  have hstep := process_out_port_pending (process_out_ports s inio.buffer_id i) i cell
    (by rw [hbefore]; exact hcell) hpending
  have hsplit := process_out_ports_split s inio.buffer_id s.port_count.toNat i hlt
  rw [hstep] at hsplit
  obtain ⟨_, ⟨ext, hdst⟩, _, hsticky⟩ := process_fold_locals
    (List.range' (i + 1) (s.port_count.toNat - i - 1))
    { process_out_ports s inio.buffer_id i with
      res := Int.lor (process_out_ports s inio.buffer_id i).res SPA_STATUS_HAVE_BUFFER
      dst_datas := (process_out_ports s inio.buffer_id i).dst_datas ++ [Dest.empty] }
  have hother := (process_fold_node (List.range' (i + 1) (s.port_count.toNat - i - 1))
    { process_out_ports s inio.buffer_id i with
      res := Int.lor (process_out_ports s inio.buffer_id i).res SPA_STATUS_HAVE_BUFFER
      dst_datas := (process_out_ports s inio.buffer_id i).dst_datas ++ [Dest.empty] }
    ).2.2.2.2.2.2.2.2 i (not_mem_range_after i _)
  rw [← hsplit] at hdst hsticky hother
  rw [process_past_checks s inio convert hio hconvert hstatus hid]
  refine ⟨?_, ⟨_, ext, rfl, rfl, ?_⟩, ?_⟩
  · simp only []
    rw [hother]
    exact hbefore
  · simp only []
    rw [hdst]
    simp
  · simp only []
    rw [hsticky (lor_have_buffer _ hres)]

/-- The skipped port on the node whose two output cells still hold the
buffers of the last cycle: the cycle leaves output port 1 as it was, gives
the transform the scratch region for both ports and returns "have buffer"
OR-ed with "need buffer". -/
theorem process_skips_pending_output_witness :
    (impl_node_process node_second_cycle).this.out_ports 1 = node_second_cycle.out_ports 1
      ∧ (∃ call post, (impl_node_process node_second_cycle).call = some call
          ∧ call.func = 1
          ∧ call.dst_datas = (process_out_ports node_second_cycle 0 1).dst_datas
              ++ Dest.empty :: post)
      ∧ (process_out_ports node_second_cycle 0 1).dst_datas = [Dest.empty]
      ∧ (impl_node_process node_second_cycle).res = 3 :=
  have h := process_skips_pending_output node_second_cycle
    { status := SPA_STATUS_HAVE_BUFFER, buffer_id := 0 } 1 1
    { status := SPA_STATUS_HAVE_BUFFER, buffer_id := 0 }
    (by decide) (by decide) (by decide) (by decide) (by decide) (by decide) (by decide) (by decide)
  ⟨h.1, h.2.1, by decide, h.2.2.trans (by decide)⟩

/-- The body of the loop for an output port whose cell does not hold a
buffer and whose queue is empty after the recycle step. -/
theorem process_out_port_exhausted (l : ProcessLoop) (i : Nat) (cell : SpaIoBuffers)
    (hcell : (l.this.out_ports i).io = some cell)
    (hfree : cell.status ≠ SPA_STATUS_HAVE_BUFFER)
    (hempty : (recycle (l.this.out_ports i) cell).1.queue = []) :
    process_out_port l i
      = { l with
          this := { l.this with
                    out_ports := Function.update l.this.out_ports i
                      { (recycle (l.this.out_ports i) cell).1 with
                        io := some { (recycle (l.this.out_ports i) cell).2 with
                                     status := -EPIPE } } }
          dst_datas := l.dst_datas ++ [Dest.empty] } := by
  have hd : dequeue_buffer (recycle (l.this.out_ports i) cell).1
      = (none, (recycle (l.this.out_ports i) cell).1) := by
    simp only [dequeue_buffer, hempty]
  rcases process_out_port_cases l i with ⟨h0, _⟩ | ⟨c, hc, hs, _⟩ | ⟨c, q, hc, _, hq, h⟩
    | ⟨c, slot, q, hc, _, hq, _⟩
  · rw [h0] at hcell; exact absurd hcell (by simp)
  · rw [hcell] at hc
    simp only [Option.some.injEq] at hc
    subst hc
    exact absurd hs hfree
  · rw [hcell] at hc
    simp only [Option.some.injEq] at hc
    subst hc
    rw [hd] at hq
    simp only [Prod.mk.injEq, true_and] at hq
    rw [h, ← hq]
  · rw [hcell] at hc
    simp only [Option.some.injEq] at hc
    subst hc
    rw [hd] at hq
    simp at hq

/-- In a defined process cycle that gets past the input checks (a live input
cell that announces a buffer of the input port, a transform selected), for
an output port i of the node with a live I/O cell that is not "buffer
available" and an empty available queue after the recycle step: the
transform is called, with the scratch region as the destination of port i
(after the destinations of the ports before i); the input cell is marked
"need buffer"; the returned status is "need buffer", alone or OR-ed with
"have buffer", and so not negative; the cell of port i is given the status
-EPIPE. -/
theorem process_output_exhausted (s : Impl) (inio : SpaIoBuffers) (convert : ConvertFunc)
    (i : Nat) (cell : SpaIoBuffers)
    (_hdefined : process_defined s = true)
    (hio : s.in_port.io = some inio) (hconvert : s.convert = some convert)
    (hstatus : inio.status = SPA_STATUS_HAVE_BUFFER)
    (hid : inio.buffer_id < s.in_port.n_buffers)
    (hport : (i : Int) < s.port_count)
    (hcell : (s.out_ports i).io = some cell)
    (hfree : cell.status ≠ SPA_STATUS_HAVE_BUFFER)
    (hempty : (recycle (s.out_ports i) cell).1.queue = []) :
    (∃ call post, (impl_node_process s).call = some call
        ∧ call.func = convert
        ∧ call.dst_datas
            = (process_out_ports s inio.buffer_id i).dst_datas ++ Dest.empty :: post)
      ∧ (impl_node_process s).this.in_port.io
          = some { inio with status := SPA_STATUS_NEED_BUFFER }
      ∧ ((impl_node_process s).res = SPA_STATUS_NEED_BUFFER
          ∨ (impl_node_process s).res
              = Int.lor SPA_STATUS_HAVE_BUFFER SPA_STATUS_NEED_BUFFER)
      ∧ 0 ≤ (impl_node_process s).res
      ∧ ((impl_node_process s).this.out_ports i).io
          = some { (recycle (s.out_ports i) cell).2 with status := -EPIPE } := by
  have hlt : i < s.port_count.toNat := by omega
  obtain ⟨hbefore, hres⟩ := process_out_ports_before s inio.buffer_id i
  have hstep := process_out_port_exhausted (process_out_ports s inio.buffer_id i) i cell
    (by rw [hbefore]; exact hcell) hfree (by rw [hbefore]; exact hempty)
  have hsplit := process_out_ports_split s inio.buffer_id s.port_count.toNat i hlt
  obtain ⟨_, ⟨ext, hdst⟩, hres2, _⟩ := process_fold_locals
    (List.range' (i + 1) (s.port_count.toNat - i - 1))
    (process_out_port (process_out_ports s inio.buffer_id i) i)
  have hother := (process_fold_node (List.range' (i + 1) (s.port_count.toNat - i - 1))
    (process_out_port (process_out_ports s inio.buffer_id i) i)
    ).2.2.2.2.2.2.2.2 i (not_mem_range_after i _)
  rw [← hsplit] at hdst hres2 hother
  rw [hstep] at hdst hres2 hother
  have hfinal := hres2 hres
  rw [process_past_checks s inio convert hio hconvert hstatus hid]
  have hvalue : Int.lor (process_out_ports s inio.buffer_id s.port_count.toNat).res
        SPA_STATUS_NEED_BUFFER = SPA_STATUS_NEED_BUFFER
      ∨ Int.lor (process_out_ports s inio.buffer_id s.port_count.toNat).res
        SPA_STATUS_NEED_BUFFER = Int.lor SPA_STATUS_HAVE_BUFFER SPA_STATUS_NEED_BUFFER := by
    rcases hfinal with h | h
    · left; rw [h]; decide
    · right; rw [h]
  refine ⟨⟨_, ext, rfl, rfl, ?_⟩, rfl, hvalue, ?_, ?_⟩
  · simp only []
    rw [hdst]
    simp
  · simp only []
    rcases hvalue with h | h <;> rw [h] <;> decide
  · simp only []
    rw [hother]
    simp only [Function.update_same, hbefore]

/-- The exhausted port on the node whose two output ports have no slot left:
the cycle calls the transform with the scratch region for both ports, marks
the input cell "need buffer" and returns "need buffer". -/
theorem process_output_exhausted_witness :
    (node_exhausted.out_ports 0).queue = []
      ∧ (∃ call post, (impl_node_process node_exhausted).call = some call
          ∧ call.func = 1
          ∧ call.dst_datas = (process_out_ports node_exhausted 0 0).dst_datas
              ++ Dest.empty :: post)
      ∧ (impl_node_process node_exhausted).this.in_port.io
          = some { status := SPA_STATUS_NEED_BUFFER, buffer_id := 0 }
      ∧ (impl_node_process node_exhausted).res = SPA_STATUS_NEED_BUFFER
      ∧ ((impl_node_process node_exhausted).this.out_ports 0).io
          = some { status := -EPIPE, buffer_id := SPA_ID_INVALID } :=
  have h := process_output_exhausted node_exhausted
    { status := SPA_STATUS_HAVE_BUFFER, buffer_id := 0 } 1 0
    { status := SPA_STATUS_NEED_BUFFER, buffer_id := SPA_ID_INVALID }
    (by decide) (by decide) (by decide) (by decide) (by decide) (by decide) (by decide)
    (by decide) (by decide)
  ⟨by decide, h.1, h.2.1, by decide, h.2.2.2.2.trans (by decide)⟩

/-- The node `node_zero_stride` is a reachable state of the node. -/
theorem node_zero_stride_reachable : Reachable f32_only node_zero_stride :=
  Reachable.port_set_io Direction.Input 0 SPA_IO_Buffers
    (IoData.buffers { status := SPA_STATUS_HAVE_BUFFER, buffer_id := 0 })
    (Reachable.port_use_buffers Direction.Input 0 [mem_buffer 0 2048 2048]
      (Reachable.set_param SPA_PARAM_Profile 0 (profile_param SPA_AUDIO_FORMAT_F32P 48000 1)
        (Reachable.port_set_param Direction.Input 0 SPA_PARAM_Format 0
          (some (format_param SPA_AUDIO_FORMAT_F32 48000 0)) (Reachable.init 0))))

/-- C18 at a failing input: the node `node_zero_stride_pending` is reached
through the public operations, each of which returns 0; its output port 0 is
below the port count and its I/O cell has the status "buffer available"; a
process cycle passes the four input checks (live input cell, selected
transform, status "buffer available", buffer id below the buffer count) and
then divides by the stride of the input port, which is 0, before the loop
over the output ports is entered: the cycle is not a defined run of the C
function. -/
theorem process_pending_output_zero_stride :
    Reachable f32_only node_zero_stride_pending
      ∧ (impl_node_port_set_param f32_only (impl_init 0) Direction.Input 0 SPA_PARAM_Format 0
          (some (format_param SPA_AUDIO_FORMAT_F32 48000 0))).1 = 0
      ∧ (impl_node_set_param
          (impl_node_port_set_param f32_only (impl_init 0) Direction.Input 0 SPA_PARAM_Format 0
            (some (format_param SPA_AUDIO_FORMAT_F32 48000 0))).2
          SPA_PARAM_Profile 0 (profile_param SPA_AUDIO_FORMAT_F32P 48000 1)).1 = 0
      ∧ (impl_node_port_set_io node_zero_stride Direction.Output 0 SPA_IO_Buffers
          (IoData.buffers { status := SPA_STATUS_HAVE_BUFFER, buffer_id := 0 })).1 = 0
      ∧ node_zero_stride_pending.port_count = 1
      ∧ (node_zero_stride_pending.out_ports 0).io
          = some { status := SPA_STATUS_HAVE_BUFFER, buffer_id := 0 }
      ∧ node_zero_stride_pending.in_port.io
          = some { status := SPA_STATUS_HAVE_BUFFER, buffer_id := 0 }
      ∧ node_zero_stride_pending.convert = some 1
      ∧ node_zero_stride_pending.in_port.n_buffers = 1
      ∧ node_zero_stride_pending.in_port.stride = 0
      ∧ process_defined node_zero_stride_pending = false :=
  ⟨Reachable.port_set_io Direction.Output 0 SPA_IO_Buffers
      (IoData.buffers { status := SPA_STATUS_HAVE_BUFFER, buffer_id := 0 })
      node_zero_stride_reachable,
    by decide, by decide, by decide, by decide, by decide, by decide, by decide, by decide,
    by decide, by decide⟩

/-- C19 at a failing input: the node `node_zero_stride_exhausted` is reached
through the public operations; its output port 0 is below the port count,
has a live I/O cell whose status is not "buffer available" and no slot in
its available queue, also after the recycle step; a process cycle passes the
four input checks (live input cell, selected transform, status "buffer
available", buffer id below the buffer count) and then divides by the stride
of the input port, which is 0, before the loop over the output ports is
entered: the cycle is not a defined run of the C function. -/
theorem process_exhausted_output_zero_stride :
    Reachable f32_only node_zero_stride_exhausted
      ∧ (impl_node_port_set_io node_zero_stride Direction.Output 0 SPA_IO_Buffers
          (IoData.buffers { status := SPA_STATUS_NEED_BUFFER, buffer_id := SPA_ID_INVALID })).1
          = 0
      ∧ node_zero_stride_exhausted.port_count = 1
      ∧ (node_zero_stride_exhausted.out_ports 0).io
          = some { status := SPA_STATUS_NEED_BUFFER, buffer_id := SPA_ID_INVALID }
      ∧ (node_zero_stride_exhausted.out_ports 0).n_buffers = 0
      ∧ (node_zero_stride_exhausted.out_ports 0).queue = []
      ∧ (dequeue_buffer
          (recycle (node_zero_stride_exhausted.out_ports 0)
            { status := SPA_STATUS_NEED_BUFFER, buffer_id := SPA_ID_INVALID }).1).1 = none
      ∧ node_zero_stride_exhausted.in_port.io
          = some { status := SPA_STATUS_HAVE_BUFFER, buffer_id := 0 }
      ∧ node_zero_stride_exhausted.convert = some 1
      ∧ node_zero_stride_exhausted.in_port.n_buffers = 1
      ∧ ((node_zero_stride_exhausted.in_port.buffers 0).buf.isSome = true)
      ∧ node_zero_stride_exhausted.in_port.stride = 0
      ∧ process_defined node_zero_stride_exhausted = false :=
  ⟨Reachable.port_set_io Direction.Output 0 SPA_IO_Buffers
      (IoData.buffers { status := SPA_STATUS_NEED_BUFFER, buffer_id := SPA_ID_INVALID })
      node_zero_stride_reachable,
    by decide, by decide, by decide, by decide, by decide, by decide, by decide, by decide,
    by decide, by decide, by decide, by decide⟩

/-! ## Process: the frame count and the scratch region -/

/-- C20: the frame count is not limited to the scratch region. On the node
`node_long_input` (reached through the public operations: profile, formats,
one input buffer of 2048 frames, I/O cells, no output buffers) the process
cycle succeeds and calls the transform with the scratch region as both
destinations and a frame count of 2048, more than the MAX_SAMPLES = 1024
samples of the scratch region; the output stride is 4 bytes, one sample a
frame. -/
theorem process_scratch_overrun :
    (impl_node_port_use_buffers node_formats Direction.Input 0 [mem_buffer 0 16384 16384]).1 = 0
      ∧ (impl_node_process node_long_input).res = SPA_STATUS_NEED_BUFFER
      ∧ (impl_node_process node_long_input).call
          = some { func := 1
                   n_dst_datas := 2
                   dst_datas := [Dest.empty, Dest.empty]
                   n_src_datas := 1
                   src_datas := [(some 65536, 0)]
                   n_samples := 2048 }
      ∧ (node_long_input.out_ports 0).stride = 4
      ∧ (node_long_input.out_ports 1).stride = 4
      ∧ MAX_SAMPLES < 2048 := by
  decide

/-! ## Formats, buffers and the profile in reachable states -/

/-- The node `node_buffers` is reachable. -/
theorem node_buffers_reachable : Reachable f32_only node_buffers :=
  Reachable.port_use_buffers Direction.Output 1 [mem_buffer 0 1024 0]
    (Reachable.port_use_buffers Direction.Output 0 [mem_buffer 0 1024 0]
      (Reachable.port_use_buffers Direction.Input 0 [mem_buffer 0 2048 2048]
        (Reachable.port_set_param Direction.Output 1 SPA_PARAM_Format 0
          (some (format_param SPA_AUDIO_FORMAT_F32P 48000 1))
          (Reachable.port_set_param Direction.Output 0 SPA_PARAM_Format 0
            (some (format_param SPA_AUDIO_FORMAT_F32P 48000 1))
            (Reachable.port_set_param Direction.Input 0 SPA_PARAM_Format 0
              (some (format_param SPA_AUDIO_FORMAT_F32 48000 2))
              (Reachable.set_param SPA_PARAM_Profile 0
                (profile_param SPA_AUDIO_FORMAT_F32P 48000 2)
                (Reachable.init 0)))))))

/-- C21: the chunk of a serviced output port is not sized with the frame
count the transform is called with. On the node `node_uneven_outputs`
(input chunk of 256 frames, output buffer of 1024 bytes on port 0 and of 512
bytes on port 1, stride 4 on both) the process cycle services both output
ports and calls the transform with a frame count of 128, but the chunk of
port 0 is given the size 1024 = 256 * 4, not 128 * 4 = 512; the chunk of
port 1 is given the size 512. -/
theorem process_chunk_size_not_final_count :
    (impl_node_process node_uneven_outputs).res
        = Int.lor SPA_STATUS_HAVE_BUFFER SPA_STATUS_NEED_BUFFER
      ∧ (impl_node_process node_uneven_outputs).call
          = some { func := 1
                   n_dst_datas := 2
                   dst_datas := [Dest.data (some 65536), Dest.data (some 65536)]
                   n_src_datas := 1
                   src_datas := [(some 65536, 0)]
                   n_samples := 128 }
      ∧ ((impl_node_process node_uneven_outputs).this.out_ports 0).io
          = some { status := SPA_STATUS_HAVE_BUFFER, buffer_id := 0 }
      ∧ ((impl_node_process node_uneven_outputs).this.out_ports 1).io
          = some { status := SPA_STATUS_HAVE_BUFFER, buffer_id := 0 }
      ∧ ((impl_node_process node_uneven_outputs).this.out_ports 0).stride = 4
      ∧ ((impl_node_process node_uneven_outputs).this.out_ports 1).stride = 4
      ∧ ((((impl_node_process node_uneven_outputs).this.out_ports 0).buffers 0).desc.datas.map
          (fun d => d.chunk.size)) = [1024]
      ∧ ((((impl_node_process node_uneven_outputs).this.out_ports 1).buffers 0).desc.datas.map
          (fun d => d.chunk.size)) = [512]
      ∧ 1024 ≠ 128 * 4 := by
  refine ⟨by decide, by decide, by decide, by decide, by decide, by decide, by decide,
    by decide, by decide⟩

/-! ## Process: the bits of the result -/

/-- The body of the loop sets the "have buffer" bit exactly for a port that
is skipped or serviced. -/
theorem process_out_port_res (l : ProcessLoop) (i : Nat) :
    (process_out_port l i).res
      = if port_pending (l.this.out_ports i) || port_serviced (l.this.out_ports i) then
          Int.lor l.res SPA_STATUS_HAVE_BUFFER
        else l.res := by
  rcases process_out_port_cases l i with ⟨h0, h⟩ | ⟨c, hc, hs, h⟩ | ⟨c, q, hc, hs, hq, h⟩
    | ⟨c, slot, q, hc, hs, hq, h⟩
  · rw [h]
    simp [port_pending, port_serviced, h0]
  · rw [h]
    simp [port_pending, port_serviced, hc, hs]
  · rw [h]
    simp [port_pending, port_serviced, hc, hs, hq]
  · rw [h]
    simp [port_pending, port_serviced, hc, hs, hq]

/-- The loop over the first `n + 1` output ports is the loop over the first
`n`, then the body for port `n`. -/
theorem process_out_ports_succ (s : Impl) (buffer_id n : Nat) :
    process_out_ports s buffer_id (n + 1)
      = process_out_port (process_out_ports s buffer_id n) n := by
  unfold process_out_ports
  rw [List.range_succ, List.foldl_append]
  rfl

/-- The result of the loop over the first `n` output ports is "have buffer"
when one of them is skipped or serviced, and 0 otherwise. -/
theorem process_out_ports_res (s : Impl) (buffer_id : Nat) :
    ∀ n, (process_out_ports s buffer_id n).res
      = if (∃ i, i < n ∧ (port_pending (s.out_ports i) = true
              ∨ port_serviced (s.out_ports i) = true)) then SPA_STATUS_HAVE_BUFFER
        else 0 := by
  intro n
  induction n with
  | zero =>
    rw [if_neg (by simp)]
    rfl
  | succ n ih =>
    have hres := (process_out_ports_before s buffer_id n).2
    rw [process_out_ports_succ, process_out_port_res, (process_out_ports_before s buffer_id n).1]
    by_cases hn : port_pending (s.out_ports n) = true ∨ port_serviced (s.out_ports n) = true
    · have hn2 : (port_pending (s.out_ports n) || port_serviced (s.out_ports n)) = true := by
        simpa using hn
      have hex : ∃ i, i < n + 1 ∧ (port_pending (s.out_ports i) = true
          ∨ port_serviced (s.out_ports i) = true) := ⟨n, Nat.lt_succ_self n, hn⟩
      rw [if_pos hn2, if_pos hex]
      exact lor_have_buffer _ hres
    · have hn2 : ¬ (port_pending (s.out_ports n) || port_serviced (s.out_ports n)) = true := by
        simpa using hn
      rw [if_neg hn2, ih]
      by_cases hex : ∃ i, i < n ∧ (port_pending (s.out_ports i) = true
          ∨ port_serviced (s.out_ports i) = true)
      · obtain ⟨i, hi, hp⟩ := hex
        have hex2 : ∃ i, i < n + 1 ∧ (port_pending (s.out_ports i) = true
            ∨ port_serviced (s.out_ports i) = true) := ⟨i, Nat.lt_succ_of_lt hi, hp⟩
        rw [if_pos ⟨i, hi, hp⟩, if_pos hex2]
      · have hex2 : ¬ ∃ i, i < n + 1 ∧ (port_pending (s.out_ports i) = true
            ∨ port_serviced (s.out_ports i) = true) := by
          rintro ⟨i, hi, hp⟩
          rcases Nat.lt_succ_iff_lt_or_eq.mp hi with h | h
          · exact hex ⟨i, h, hp⟩
          · subst h
            exact hn hp
        rw [if_neg hex, if_neg hex2]

/-- C22 does not hold as stated. On the node `node_second_cycle`, whose two
output cells still hold the buffers of the last cycle, the process cycle
gets past the input checks and returns "have buffer" OR-ed with "need
buffer", but no output port is given a dequeued slot: neither port is
serviced, both ports are as they were and the transform gets the scratch
region for both. -/
theorem process_have_buffer_without_data :
    node_second_cycle.port_count = 2
      ∧ (impl_node_process node_second_cycle).res
          = Int.lor SPA_STATUS_HAVE_BUFFER SPA_STATUS_NEED_BUFFER
      ∧ port_serviced (node_second_cycle.out_ports 0) = false
      ∧ port_serviced (node_second_cycle.out_ports 1) = false
      ∧ (impl_node_process node_second_cycle).this.out_ports 0 = node_second_cycle.out_ports 0
      ∧ (impl_node_process node_second_cycle).this.out_ports 1 = node_second_cycle.out_ports 1
      ∧ (impl_node_process node_second_cycle).call
          = some { func := 1
                   n_dst_datas := 2
                   dst_datas := [Dest.empty, Dest.empty]
                   n_src_datas := 1
                   src_datas := [(some 65536, 0)]
                   n_samples := 256 } := by
  refine ⟨by decide, by decide, by decide, by decide, rfl, rfl, by decide⟩

/-- C22, amended: for every process cycle on a reachable node state that
gets past the input checks and is a defined run of the C function (see
`process_defined`: positive strides, attached descriptors, counts within the
arrays), the result is "need buffer" alone or "have buffer" OR-ed with
"need buffer", and it has the "have buffer" bit exactly when some output
port of the node is skipped because its cell already has the status "buffer
available" or is serviced (given a dequeued slot) in this cycle. -/
theorem process_result_bits (find_conv_info : FindConvInfo) (s : Impl) (inio : SpaIoBuffers)
    (convert : ConvertFunc)
    (_hreach : Reachable find_conv_info s) (_hdefined : process_defined s = true)
    (hio : s.in_port.io = some inio) (hconvert : s.convert = some convert)
    (hstatus : inio.status = SPA_STATUS_HAVE_BUFFER)
    (hid : inio.buffer_id < s.in_port.n_buffers) :
    ((impl_node_process s).res = SPA_STATUS_NEED_BUFFER
        ∨ (impl_node_process s).res = Int.lor SPA_STATUS_HAVE_BUFFER SPA_STATUS_NEED_BUFFER)
      ∧ ((impl_node_process s).res = Int.lor SPA_STATUS_HAVE_BUFFER SPA_STATUS_NEED_BUFFER
          ↔ ∃ i : Nat, (i : Int) < s.port_count
              ∧ (port_pending (s.out_ports i) = true ∨ port_serviced (s.out_ports i) = true)) := by
  rw [process_past_checks s inio convert hio hconvert hstatus hid]
  simp only []
  rw [process_out_ports_res]
  by_cases hex : ∃ i, i < s.port_count.toNat ∧ (port_pending (s.out_ports i) = true
      ∨ port_serviced (s.out_ports i) = true)
  · rw [if_pos hex]
    obtain ⟨i, hi, hp⟩ := hex
    exact ⟨Or.inr rfl, fun _ => ⟨i, by omega, hp⟩, fun _ => rfl⟩
  · rw [if_neg hex]
    refine ⟨Or.inl (by decide), fun h => absurd h (by decide), fun h => ?_⟩
    obtain ⟨i, hi, hp⟩ := h
    exact absurd ⟨i, by omega, hp⟩ hex

/-- The node `node_second_cycle` is reached through the public operations,
and its process cycle is a defined run of the C function. -/
theorem node_second_cycle_defined :
    Reachable f32_only node_second_cycle ∧ process_defined node_second_cycle = true :=
  ⟨Reachable.port_set_io Direction.Input 0 SPA_IO_Buffers
      (IoData.buffers { status := SPA_STATUS_HAVE_BUFFER, buffer_id := 0 })
      node_processed_reachable,
    by decide⟩

/-- The node `node_ready` is reachable. -/
theorem node_ready_reachable : Reachable f32_only node_ready :=
  Reachable.port_set_io Direction.Output 1 SPA_IO_Buffers
    (IoData.buffers { status := SPA_STATUS_NEED_BUFFER, buffer_id := SPA_ID_INVALID })
    (Reachable.port_set_io Direction.Output 0 SPA_IO_Buffers
      (IoData.buffers { status := SPA_STATUS_NEED_BUFFER, buffer_id := SPA_ID_INVALID })
      (Reachable.port_set_io Direction.Input 0 SPA_IO_Buffers
        (IoData.buffers { status := SPA_STATUS_HAVE_BUFFER, buffer_id := 0 })
        node_buffers_reachable))

/-- C22, amended, on two nodes: the first cycle of `node_ready`, a defined
run, services output port 0 and returns both bits; the cycle of
`node_exhausted`, whose output ports are neither skipped nor serviced,
returns "need buffer" alone. -/
theorem process_result_bits_witness :
    process_defined node_ready = true
      ∧ (impl_node_process node_ready).res
        = Int.lor SPA_STATUS_HAVE_BUFFER SPA_STATUS_NEED_BUFFER
      ∧ port_serviced (node_ready.out_ports 0) = true
      ∧ (impl_node_process node_exhausted).res = SPA_STATUS_NEED_BUFFER
      ∧ node_exhausted.port_count = 2
      ∧ port_pending (node_exhausted.out_ports 0) = false
      ∧ port_serviced (node_exhausted.out_ports 0) = false
      ∧ port_pending (node_exhausted.out_ports 1) = false
      ∧ port_serviced (node_exhausted.out_ports 1) = false :=
  have h := process_result_bits f32_only node_ready
    { status := SPA_STATUS_HAVE_BUFFER, buffer_id := 0 } 1
    node_ready_reachable (by decide) (by decide) (by decide) (by decide) (by decide)
  ⟨by decide, h.2.mpr ⟨0, by decide, Or.inr (by decide)⟩, by decide, by decide, by decide, by decide,
    by decide, by decide, by decide⟩

/-! ## The end-to-end scenario -/

/-- The recycle step leaves a port alone when the queued flag of every
attached slot is set. -/
theorem recycle_of_queued (port : Port) (cell : SpaIoBuffers)
    (hflags : ∀ id, id < port.n_buffers →
      SPA_FLAG_CHECK (port.buffers id).flags BUFFER_FLAG_QUEUED = true) :
    (recycle port cell).1 = port := by
  unfold recycle
  split_ifs with h
  · simp only [queue_buffer, hflags _ h, if_true]
  · rfl

/-- The function `dequeue_buffer` leaves the descriptors of the slots
alone. -/
theorem dequeue_buffer_buf (port : Port) (id : Nat) :
    ((dequeue_buffer port).2.buffers id).buf = (port.buffers id).buf := by
  unfold dequeue_buffer
  cases port.queue with
  | nil => rfl
  | cons slot rest =>
    simp only []
    by_cases h : id = slot
    · subst h
      rw [Function.update_same]
    · rw [Function.update_noteq h]

/-- The body of the loop for an output port whose cell does not hold a
buffer, whose attached slots all have their queued flag set and whose queue
starts with `slot`: the port is given that slot. -/
theorem process_out_port_head_slot (l : ProcessLoop) (i : Nat) (cell : SpaIoBuffers)
    (slot : Nat) (rest : List Nat)
    (hcell : (l.this.out_ports i).io = some cell)
    (hfree : cell.status ≠ SPA_STATUS_HAVE_BUFFER)
    (hflags : ∀ id, id < (l.this.out_ports i).n_buffers →
      SPA_FLAG_CHECK ((l.this.out_ports i).buffers id).flags BUFFER_FLAG_QUEUED = true)
    (hqueue : (l.this.out_ports i).queue = slot :: rest) :
    ∃ q cell2,
      process_out_port l i
        = { this := { l.this with
                      out_ports := Function.update l.this.out_ports i
                        (publish_slot (clamp_n_samples l.n_samples q slot) q cell2 slot) }
            res := Int.lor l.res SPA_STATUS_HAVE_BUFFER
            n_samples := clamp_n_samples l.n_samples q slot
            dst_datas := l.dst_datas
              ++ (q.buffers slot).desc.datas.map (fun d => Dest.data d.data) }
        ∧ q.stride = (l.this.out_ports i).stride
        ∧ q.ctrl = (l.this.out_ports i).ctrl
        ∧ (q.buffers slot).buf = ((l.this.out_ports i).buffers slot).buf := by
  have hdeq : (dequeue_buffer (l.this.out_ports i)).1 = some slot := by
    simp only [dequeue_buffer, hqueue]
  obtain ⟨_, _, f3, _, _, _, f7, _⟩ := dequeue_buffer_fields (l.this.out_ports i)
  rcases process_out_port_cases l i with ⟨h0, _⟩ | ⟨c, hc, hs, _⟩ | ⟨c, q, hc, _, hq, _⟩
    | ⟨c, s2, q, hc, _, hq, h⟩
  · rw [h0] at hcell; exact absurd hcell (by simp)
  · rw [hcell] at hc
    simp only [Option.some.injEq] at hc
    subst hc
    exact absurd hs hfree
  · rw [recycle_of_queued (l.this.out_ports i) c hflags] at hq
    rw [hq] at hdeq
    exact absurd hdeq (by simp)
  · rw [recycle_of_queued (l.this.out_ports i) c hflags] at hq
    rw [hq] at hdeq f3 f7
    simp only [Option.some.injEq] at hdeq
    subst hdeq
    have hbuf := dequeue_buffer_buf (l.this.out_ports i) s2
    rw [hq] at hbuf
    exact ⟨q, (recycle (l.this.out_ports i) c).2, h, f7, f3, hbuf⟩

/-- The cell of a port that was given a slot. -/
theorem publish_slot_io (n : Nat) (q : Port) (cell : SpaIoBuffers) (slot : Nat) :
    (publish_slot n q cell slot).io
      = some { status := SPA_STATUS_HAVE_BUFFER, buffer_id := (q.buffers slot).desc.id } := by
  simp only [publish_slot, Buffer.desc, Option.getD_some]

/-- The chunks of the slot a port was given. -/
theorem publish_slot_chunks (n : Nat) (q : Port) (cell : SpaIoBuffers) (slot : Nat) :
    ((publish_slot n q cell slot).buffers slot).desc.datas.map
        (fun d => (d.chunk.offset, d.chunk.size))
      = (q.buffers slot).desc.datas.map (fun _ => (0, (n * q.stride) % 4294967296)) := by
  simp only [publish_slot, Buffer.desc, Option.getD_some, Function.update_same, List.map_map]
  rfl

/-- The frame count is not lowered by a slot without a range control whose
first region has room for it. -/
theorem clamp_n_samples_of_room (n : Nat) (q : Port) (slot : Nat) (b : SpaBuffer) (d : SpaData)
    (rest : List SpaData)
    (hbuf : (q.buffers slot).buf = some b) (hdatas : b.datas = d :: rest)
    (hctrl : q.ctrl = none) (hroom : n ≤ d.maxsize / q.stride) :
    clamp_n_samples n q slot = n := by
  have hdesc : (q.buffers slot).desc = b := by simp [Buffer.desc, hbuf]
  simp only [clamp_n_samples, hdesc, hdatas, hctrl, List.getD_cons_zero]
  unfold SPA_MIN
  split_ifs <;> omega

/-- Output port 0 of the scenario node. -/
theorem node_scenario_out0 (m0 m1 : Nat) (c0 c1 : SpaIoBuffers) :
    ((node_scenario m0 m1 c0 c1).out_ports 0).io = some c0
      ∧ ((node_scenario m0 m1 c0 c1).out_ports 0).queue = [0]
      ∧ ((node_scenario m0 m1 c0 c1).out_ports 0).n_buffers = 1
      ∧ ((node_scenario m0 m1 c0 c1).out_ports 0).stride = 4
      ∧ ((node_scenario m0 m1 c0 c1).out_ports 0).ctrl = none
      ∧ ((node_scenario m0 m1 c0 c1).out_ports 0).buffers 0
          = { flags := 1, buf := some (mem_buffer 0 m0 0) } := by
  refine ⟨?_, ?_, ?_, ?_, ?_, ?_⟩ <;> with_unfolding_all rfl

/-- Output port 1 of the scenario node. -/
theorem node_scenario_out1 (m0 m1 : Nat) (c0 c1 : SpaIoBuffers) :
    ((node_scenario m0 m1 c0 c1).out_ports 1).io = some c1
      ∧ ((node_scenario m0 m1 c0 c1).out_ports 1).queue = [0]
      ∧ ((node_scenario m0 m1 c0 c1).out_ports 1).n_buffers = 1
      ∧ ((node_scenario m0 m1 c0 c1).out_ports 1).stride = 4
      ∧ ((node_scenario m0 m1 c0 c1).out_ports 1).ctrl = none
      ∧ ((node_scenario m0 m1 c0 c1).out_ports 1).buffers 0
          = { flags := 1, buf := some (mem_buffer 0 m1 0) } := by
  refine ⟨?_, ?_, ?_, ?_, ?_, ?_⟩ <;> with_unfolding_all rfl

/-- The input port, the transform and the port count of the scenario node. -/
theorem node_scenario_in (m0 m1 : Nat) (c0 c1 : SpaIoBuffers) :
    (node_scenario m0 m1 c0 c1).in_port
        = { node_input_buffer.in_port with
            io := some { status := SPA_STATUS_HAVE_BUFFER, buffer_id := 0 } }
      ∧ (node_scenario m0 m1 c0 c1).convert = some 1
      ∧ (node_scenario m0 m1 c0 c1).port_count = 2 := by
  refine ⟨?_, ?_, ?_⟩ <;> with_unfolding_all rfl

/-- The process cycle of the scenario node: both output ports are given
their slot 0 with a frame count of 256. -/
theorem node_scenario_process (m0 m1 : Nat) (c0 c1 : SpaIoBuffers)
    (hm0 : 1024 ≤ m0) (hm1 : 1024 ≤ m1)
    (hc0 : c0.status ≠ SPA_STATUS_HAVE_BUFFER) (hc1 : c1.status ≠ SPA_STATUS_HAVE_BUFFER) :
    ∃ q0 q1 d0 d1,
      (q0.buffers 0).buf = some (mem_buffer 0 m0 0) ∧ q0.stride = 4
        ∧ (q1.buffers 0).buf = some (mem_buffer 0 m1 0) ∧ q1.stride = 4
        ∧ process_out_ports (node_scenario m0 m1 c0 c1) 0 2
          = { this := { node_scenario m0 m1 c0 c1 with
                        out_ports := Function.update
                          (Function.update (node_scenario m0 m1 c0 c1).out_ports 0
                            (publish_slot 256 q0 d0 0)) 1 (publish_slot 256 q1 d1 0) }
              res := Int.lor (Int.lor 0 SPA_STATUS_HAVE_BUFFER) SPA_STATUS_HAVE_BUFFER
              n_samples := 256
              dst_datas := ([] ++ (q0.buffers 0).desc.datas.map (fun d => Dest.data d.data))
                ++ (q1.buffers 0).desc.datas.map (fun d => Dest.data d.data) } := by
  obtain ⟨a1, a2, a3, a4, a5, a6⟩ := node_scenario_out0 m0 m1 c0 c1
  obtain ⟨b1, b2, b3, b4, b5, b6⟩ := node_scenario_out1 m0 m1 c0 c1
  obtain ⟨i1, _, _⟩ := node_scenario_in m0 m1 c0 c1
  have hflag : SPA_FLAG_CHECK 1 BUFFER_FLAG_QUEUED = true := by decide
  have hstart : process_out_ports (node_scenario m0 m1 c0 c1) 0 0
      = { this := node_scenario m0 m1 c0 c1, res := 0, n_samples := 256, dst_datas := [] } := by
    have hn : input_n_samples (node_scenario m0 m1 c0 c1).in_port 0 = 256 := by
      rw [i1]
      decide
    simp only [process_out_ports, List.range_zero, List.foldl_nil, hn]
  -- output port 0
  obtain ⟨q0, d0, hstep0, hs0, hctrl0, hbuf0⟩ := process_out_port_head_slot
    { this := node_scenario m0 m1 c0 c1, res := 0, n_samples := 256, dst_datas := [] } 0 c0 0 []
    a1 hc0
    (fun id hid => by
      have hid0 : id = 0 := by
        have : id < 1 := by rw [← a3]; exact hid
        omega
      subst hid0
      simp only []
      rw [a6]
      exact hflag)
    a2
  simp only [] at hs0 hctrl0 hbuf0
  rw [a4] at hs0
  rw [a5] at hctrl0
  rw [a6] at hbuf0
  have hclamp0 : clamp_n_samples 256 q0 0 = 256 :=
    clamp_n_samples_of_room 256 q0 0 (mem_buffer 0 m0 0) _ [] hbuf0 rfl hctrl0
      (by rw [hs0]; simp only [mem_buffer]; omega)
  rw [hclamp0] at hstep0
  -- output port 1
  have hport1 : (Function.update (node_scenario m0 m1 c0 c1).out_ports 0
      (publish_slot 256 q0 d0 0)) 1 = (node_scenario m0 m1 c0 c1).out_ports 1 :=
    Function.update_noteq (by decide) _ _
  obtain ⟨q1, d1, hstep1, hs1, hctrl1, hbuf1⟩ := process_out_port_head_slot
    { this := { node_scenario m0 m1 c0 c1 with
                out_ports := Function.update (node_scenario m0 m1 c0 c1).out_ports 0
                  (publish_slot 256 q0 d0 0) }
      res := Int.lor 0 SPA_STATUS_HAVE_BUFFER
      n_samples := 256
      dst_datas := [] ++ (q0.buffers 0).desc.datas.map (fun d => Dest.data d.data) } 1 c1 0 []
    (by simp only []; rw [hport1]; exact b1) hc1
    (fun id hid => by
      simp only [] at hid ⊢
      rw [hport1] at hid ⊢
      have hid0 : id = 0 := by
        have : id < 1 := by rw [← b3]; exact hid
        omega
      subst hid0
      rw [b6]
      exact hflag)
    (by simp only []; rw [hport1]; exact b2)
  simp only [] at hs1 hctrl1 hbuf1
  rw [hport1] at hs1 hctrl1 hbuf1
  rw [b4] at hs1
  rw [b5] at hctrl1
  rw [b6] at hbuf1
  have hclamp1 : clamp_n_samples 256 q1 0 = 256 :=
    clamp_n_samples_of_room 256 q1 0 (mem_buffer 0 m1 0) _ [] hbuf1 rfl hctrl1
      (by rw [hs1]; simp only [mem_buffer]; omega)
  rw [hclamp1] at hstep1
  refine ⟨q0, q1, d0, d1, hbuf0, hs0, hbuf1, hs1, ?_⟩
  rw [process_out_ports_succ, process_out_ports_succ, hstart, hstep0, hstep1]

/-- C23, as stated, fails: on a fresh node with the converter table
`f32_only`, after the profile of 2 channels at 48000 Hz and the interleaved
F32 input format of 2 channels, both accepted, and one buffer on the input
port, accepted, the use_buffers call with one buffer of 1024 bytes fails with
-EIO on output port 0 and on output port 1, which the profile left without a
committed format; with the I/O cells installed, the process cycle returns
"need buffer" alone, and both output cells end with the status -EPIPE and
not "buffer available". -/
theorem scenario_without_output_formats :
    (impl_node_set_param (impl_init 0) SPA_PARAM_Profile 0
        (profile_param SPA_AUDIO_FORMAT_F32P 48000 2)).1 = 0
      ∧ (impl_node_port_set_param f32_only node_profile2 Direction.Input 0 SPA_PARAM_Format 0
          (some (format_param SPA_AUDIO_FORMAT_F32 48000 2))).1 = 0
      ∧ (node_input_format.out_ports 0).have_format = false
      ∧ (node_input_format.out_ports 1).have_format = false
      ∧ (impl_node_port_use_buffers node_input_format Direction.Input 0
          [mem_buffer 0 2048 2048]).1 = 0
      ∧ (impl_node_port_use_buffers
          (impl_node_port_use_buffers node_input_format Direction.Input 0
            [mem_buffer 0 2048 2048]).2
          Direction.Output 0 [mem_buffer 0 1024 0]).1 = - EIO
      ∧ (impl_node_port_use_buffers
          (impl_node_port_use_buffers
            (impl_node_port_use_buffers node_input_format Direction.Input 0
              [mem_buffer 0 2048 2048]).2
            Direction.Output 0 [mem_buffer 0 1024 0]).2
          Direction.Output 1 [mem_buffer 0 1024 0]).1 = - EIO
      ∧ (impl_node_process node_scenario_unformatted).res = SPA_STATUS_NEED_BUFFER
      ∧ ((impl_node_process node_scenario_unformatted).this.out_ports 0).io
          = some { status := - EPIPE, buffer_id := SPA_ID_INVALID }
      ∧ ((impl_node_process node_scenario_unformatted).this.out_ports 1).io
          = some { status := - EPIPE, buffer_id := SPA_ID_INVALID }
      ∧ - EPIPE ≠ SPA_STATUS_HAVE_BUFFER := by
  refine ⟨by decide, by decide, by decide, by decide, by decide, by decide, by decide, by decide,
    by decide, by decide, by decide⟩

/-- C23, amended: on a fresh node with the converter table `f32_only` (the
transform from F32 to F32P is available), the profile of 2 channels at 48000
Hz, the interleaved F32 input format of 2 channels, the single-channel F32P
format at 48000 Hz committed on each of the two output ports, one buffer on
the input port (chunk of 2048 bytes: 256 frames) and one buffer with room
for at least 1024 bytes on each output port are all accepted with result 0,
and so are the three I/O cells; when the two output
cells do not have the status "buffer available", one process cycle then
returns "have buffer" OR-ed with "need buffer", calls the transform with a
frame count of 256, and leaves both output cells with the status "buffer
available" and buffer id 0, the chunk of each output buffer at offset 0
with a size of 1024 = 256 * 4 bytes. -/
theorem end_to_end_scenario (m0 m1 : Nat) (c0 c1 : SpaIoBuffers)
    (hm0 : 1024 ≤ m0) (hm1 : 1024 ≤ m1)
    (hc0 : c0.status ≠ SPA_STATUS_HAVE_BUFFER) (hc1 : c1.status ≠ SPA_STATUS_HAVE_BUFFER) :
    ((impl_node_set_param (impl_init 0) SPA_PARAM_Profile 0
        (profile_param SPA_AUDIO_FORMAT_F32P 48000 2)).1 = 0
      ∧ node_profile2.port_count = 2
      ∧ (impl_node_port_set_param f32_only node_profile2 Direction.Input 0 SPA_PARAM_Format 0
          (some (format_param SPA_AUDIO_FORMAT_F32 48000 2))).1 = 0
      ∧ (impl_node_port_set_param f32_only
          (impl_node_port_set_param f32_only node_profile2 Direction.Input 0 SPA_PARAM_Format 0
            (some (format_param SPA_AUDIO_FORMAT_F32 48000 2))).2
          Direction.Output 0 SPA_PARAM_Format 0
          (some (format_param SPA_AUDIO_FORMAT_F32P 48000 1))).1 = 0
      ∧ (impl_node_port_set_param f32_only
          (impl_node_port_set_param f32_only
            (impl_node_port_set_param f32_only node_profile2 Direction.Input 0 SPA_PARAM_Format 0
              (some (format_param SPA_AUDIO_FORMAT_F32 48000 2))).2
            Direction.Output 0 SPA_PARAM_Format 0
            (some (format_param SPA_AUDIO_FORMAT_F32P 48000 1))).2
          Direction.Output 1 SPA_PARAM_Format 0
          (some (format_param SPA_AUDIO_FORMAT_F32P 48000 1))).1 = 0
      ∧ (impl_node_port_use_buffers node_formats Direction.Input 0
          [mem_buffer 0 2048 2048]).1 = 0
      ∧ (impl_node_port_use_buffers node_input_buffer Direction.Output 0
          [mem_buffer 0 m0 0]).1 = 0
      ∧ (impl_node_port_use_buffers
          (impl_node_port_use_buffers node_input_buffer Direction.Output 0
            [mem_buffer 0 m0 0]).2
          Direction.Output 1 [mem_buffer 0 m1 0]).1 = 0
      ∧ (impl_node_port_set_io
          (impl_node_port_use_buffers
            (impl_node_port_use_buffers node_input_buffer Direction.Output 0
              [mem_buffer 0 m0 0]).2
            Direction.Output 1 [mem_buffer 0 m1 0]).2
          Direction.Input 0 SPA_IO_Buffers
          (IoData.buffers { status := SPA_STATUS_HAVE_BUFFER, buffer_id := 0 })).1 = 0
      ∧ (impl_node_port_set_io
          (impl_node_port_set_io
            (impl_node_port_use_buffers
              (impl_node_port_use_buffers node_input_buffer Direction.Output 0
                [mem_buffer 0 m0 0]).2
              Direction.Output 1 [mem_buffer 0 m1 0]).2
            Direction.Input 0 SPA_IO_Buffers
            (IoData.buffers { status := SPA_STATUS_HAVE_BUFFER, buffer_id := 0 })).2
          Direction.Output 0 SPA_IO_Buffers (IoData.buffers c0)).1 = 0
      ∧ (impl_node_port_set_io
          (impl_node_port_set_io
            (impl_node_port_set_io
              (impl_node_port_use_buffers
                (impl_node_port_use_buffers node_input_buffer Direction.Output 0
                  [mem_buffer 0 m0 0]).2
                Direction.Output 1 [mem_buffer 0 m1 0]).2
              Direction.Input 0 SPA_IO_Buffers
              (IoData.buffers { status := SPA_STATUS_HAVE_BUFFER, buffer_id := 0 })).2
            Direction.Output 0 SPA_IO_Buffers (IoData.buffers c0)).2
          Direction.Output 1 SPA_IO_Buffers (IoData.buffers c1)).1 = 0)
      ∧ (impl_node_process (node_scenario m0 m1 c0 c1)).res
          = Int.lor SPA_STATUS_HAVE_BUFFER SPA_STATUS_NEED_BUFFER
      ∧ (∃ call, (impl_node_process (node_scenario m0 m1 c0 c1)).call = some call
          ∧ call.func = 1 ∧ call.n_samples = 256)
      ∧ ((impl_node_process (node_scenario m0 m1 c0 c1)).this.out_ports 0).io
          = some { status := SPA_STATUS_HAVE_BUFFER, buffer_id := 0 }
      ∧ ((impl_node_process (node_scenario m0 m1 c0 c1)).this.out_ports 1).io
          = some { status := SPA_STATUS_HAVE_BUFFER, buffer_id := 0 }
      ∧ (((impl_node_process (node_scenario m0 m1 c0 c1)).this.out_ports 0).buffers
            0).desc.datas.map (fun d => (d.chunk.offset, d.chunk.size)) = [(0, 1024)]
      ∧ (((impl_node_process (node_scenario m0 m1 c0 c1)).this.out_ports 1).buffers
            0).desc.datas.map (fun d => (d.chunk.offset, d.chunk.size)) = [(0, 1024)] := by
  obtain ⟨i1, i2, i3⟩ := node_scenario_in m0 m1 c0 c1
  obtain ⟨q0, q1, d0, d1, hbuf0, hs0, hbuf1, hs1, hloop⟩ :=
    node_scenario_process m0 m1 c0 c1 hm0 hm1 hc0 hc1
  have hio : (node_scenario m0 m1 c0 c1).in_port.io
      = some { status := SPA_STATUS_HAVE_BUFFER, buffer_id := 0 } := by rw [i1]
  have hid : (0 : Nat) < (node_scenario m0 m1 c0 c1).in_port.n_buffers := by
    rw [i1]
    decide
  have hcount : (node_scenario m0 m1 c0 c1).port_count.toNat = 2 := by rw [i3]; rfl
  have hdesc0 : (q0.buffers 0).desc = mem_buffer 0 m0 0 := by simp [Buffer.desc, hbuf0]
  have hdesc1 : (q1.buffers 0).desc = mem_buffer 0 m1 0 := by simp [Buffer.desc, hbuf1]
  have hne : (0 : Nat) ≠ 1 := by decide
  rw [process_past_checks (node_scenario m0 m1 c0 c1)
    { status := SPA_STATUS_HAVE_BUFFER, buffer_id := 0 } 1 hio i2 rfl hid, hcount, hloop]
  refine ⟨⟨by decide, by decide, by decide, by decide, by decide, by decide, ?_, ?_, ?_, ?_, ?_⟩,
    ?_, ⟨_, rfl, rfl, rfl⟩, ?_, ?_, ?_, ?_⟩
  · with_unfolding_all rfl
  · with_unfolding_all rfl
  · with_unfolding_all rfl
  · with_unfolding_all rfl
  · with_unfolding_all rfl
  · have hres : Int.lor (Int.lor (Int.lor 0 SPA_STATUS_HAVE_BUFFER) SPA_STATUS_HAVE_BUFFER)
        SPA_STATUS_NEED_BUFFER = Int.lor SPA_STATUS_HAVE_BUFFER SPA_STATUS_NEED_BUFFER := by
      decide
    exact hres
  · simp only [Function.update_noteq hne, Function.update_same]
    rw [publish_slot_io, hdesc0]
    rfl
  · simp only [Function.update_same]
    rw [publish_slot_io, hdesc1]
    rfl
  · simp only [Function.update_noteq hne, Function.update_same]
    rw [publish_slot_chunks, hdesc0, hs0]
    rfl
  · simp only [Function.update_same]
    rw [publish_slot_chunks, hdesc1, hs1]
    rfl

/-- The amended C23 with output buffers of exactly 1024 bytes and output cells
that ask for a buffer: the cycle returns both bits and both output cells
report "buffer available" with a chunk of 1024 bytes. -/
theorem end_to_end_scenario_witness :
    (impl_node_process (node_scenario 1024 1024
        { status := SPA_STATUS_NEED_BUFFER, buffer_id := SPA_ID_INVALID }
        { status := SPA_STATUS_NEED_BUFFER, buffer_id := SPA_ID_INVALID })).res
        = Int.lor SPA_STATUS_HAVE_BUFFER SPA_STATUS_NEED_BUFFER
      ∧ ((impl_node_process (node_scenario 1024 1024
          { status := SPA_STATUS_NEED_BUFFER, buffer_id := SPA_ID_INVALID }
          { status := SPA_STATUS_NEED_BUFFER, buffer_id := SPA_ID_INVALID })).this.out_ports 0).io
          = some { status := SPA_STATUS_HAVE_BUFFER, buffer_id := 0 }
      ∧ ((impl_node_process (node_scenario 1024 1024
          { status := SPA_STATUS_NEED_BUFFER, buffer_id := SPA_ID_INVALID }
          { status := SPA_STATUS_NEED_BUFFER, buffer_id := SPA_ID_INVALID })).this.out_ports 1).io
          = some { status := SPA_STATUS_HAVE_BUFFER, buffer_id := 0 }
      ∧ (((impl_node_process (node_scenario 1024 1024
          { status := SPA_STATUS_NEED_BUFFER, buffer_id := SPA_ID_INVALID }
          { status := SPA_STATUS_NEED_BUFFER, buffer_id := SPA_ID_INVALID })).this.out_ports
            1).buffers 0).desc.datas.map (fun d => (d.chunk.offset, d.chunk.size))
          = [(0, 1024)] :=
  have h := end_to_end_scenario 1024 1024
    { status := SPA_STATUS_NEED_BUFFER, buffer_id := SPA_ID_INVALID }
    { status := SPA_STATUS_NEED_BUFFER, buffer_id := SPA_ID_INVALID }
    (by decide) (by decide) (by decide) (by decide)
  ⟨h.2.1, h.2.2.2.1, h.2.2.2.2.1, h.2.2.2.2.2.2⟩

/-! ## Enumeration of the port parameters -/

/-- One pass of the loop of `impl_node_port_enum_params` that ends in a
return statement. -/
theorem enum_params_loop_ret (filter_fn : Pod → Pod → Option Pod) (s : Impl)
    (direction : Direction) (port_id id : Nat) (filter : Option Pod) (fuel index : Nat)
    (result : Option Pod) (res : Int)
    (h : enum_params_switch s direction port_id id index = EnumStep.ret res) :
    enum_params_loop filter_fn s direction port_id id filter (fuel + 1) index result
      = some { res := res, index := index, result := result } := by
  simp only [enum_params_loop, h]

/-- One pass of the loop of `impl_node_port_enum_params` whose candidate
survives the filter. -/
theorem enum_params_loop_accept (filter_fn : Pod → Pod → Option Pod) (s : Impl)
    (direction : Direction) (port_id id : Nat) (filter : Option Pod) (fuel index : Nat)
    (result : Option Pod) (p v : Pod)
    (h : enum_params_switch s direction port_id id index = EnumStep.param p)
    (hv : filtered filter_fn p filter = some v) :
    enum_params_loop filter_fn s direction port_id id filter (fuel + 1) index result
      = some { res := 1, index := (index + 1) % 4294967296, result := some v } := by
  simp only [enum_params_loop, h, spa_pod_filter, hv]
  rfl

/-- One pass of the loop of `impl_node_port_enum_params` whose candidate is
rejected by the filter. -/
theorem enum_params_loop_reject (filter_fn : Pod → Pod → Option Pod) (s : Impl)
    (direction : Direction) (port_id id : Nat) (filter : Option Pod) (fuel index : Nat)
    (result : Option Pod) (p : Pod)
    (h : enum_params_switch s direction port_id id index = EnumStep.param p)
    (hv : filtered filter_fn p filter = none) :
    enum_params_loop filter_fn s direction port_id id filter (fuel + 1) index result
      = enum_params_loop filter_fn s direction port_id id filter fuel
          ((index + 1) % 4294967296) result := by
  have he : (-EINVAL : Int) < 0 := by decide
  simp only [enum_params_loop, h, spa_pod_filter, hv, he, if_true]

/-- The function `port_enum_formats` returns 1 with a candidate at cursor 0
and 0 at every other cursor. -/
theorem port_enum_formats_cases (s : Impl) (direction : Direction) (port_id index : Nat) :
    (index = 0 ∧ ∃ p, port_enum_formats s direction port_id index = (1, some p))
      ∨ (index ≠ 0 ∧ port_enum_formats s direction port_id index = (0, none)) := by
  unfold port_enum_formats
  by_cases h : index = 0
  · left
    subst h
    simp only [beq_self_eq_true, if_true]
    split_ifs
    · exact ⟨by trivial, _, rfl⟩
    · exact ⟨by trivial, _, rfl⟩
  · right
    have hb : (index == 0) = false := by simpa using h
    simp only [hb, Bool.false_eq_true, if_false]
    exact ⟨h, by trivial⟩

/-- A return statement in the switch of `impl_node_port_enum_params` never
returns a positive value. -/
theorem enum_params_switch_ret (s : Impl) (direction : Direction) (port_id id index : Nat)
    (res : Int) (h : enum_params_switch s direction port_id id index = EnumStep.ret res) :
    res ≤ 0 := by
  unfold enum_params_switch at h
  rcases port_enum_formats_cases s direction port_id index with ⟨_, p, hp⟩ | ⟨_, hp⟩
  all_goals
    simp only [hp] at h
    split_ifs at h
    all_goals (cases h; first | decide | assumption)

/-- At a cursor that is not below the number of candidates the switch of
`impl_node_port_enum_params` returns. -/
theorem enum_params_switch_past (s : Impl) (direction : Direction) (port_id id index : Nat)
    (h : n_candidates id ≤ index) :
    ∃ res, enum_params_switch s direction port_id id index = EnumStep.ret res := by
  unfold enum_params_switch
  by_cases c1 : (id == SPA_PARAM_List) = true
  · have h5 : 5 ≤ index := by simpa [n_candidates, c1] using h
    have hlen : ¬ index < [SPA_PARAM_EnumFormat, SPA_PARAM_Format, SPA_PARAM_Buffers,
        SPA_PARAM_Meta, SPA_PARAM_IO].length := by
      simp only [List.length_cons, List.length_nil]
      omega
    simp only [c1, if_true, hlen, if_false]
    exact ⟨_, rfl⟩
  · by_cases c2 : (id == SPA_PARAM_EnumFormat || id == SPA_PARAM_Format
        || id == SPA_PARAM_Buffers || id == SPA_PARAM_Meta || id == SPA_PARAM_IO) = true
    · have h1 : 1 ≤ index := by simpa [n_candidates, c1, c2] using h
      have hi : index > 0 := h1
      have hb : (index == 0) = false := by
        have : index ≠ 0 := by omega
        simpa using this
      rcases port_enum_formats_cases s direction port_id index with ⟨h0, _⟩ | ⟨_, hp⟩
      · omega
      · simp only [hp, hi, hb, le_refl, if_true, Bool.false_eq_true, if_false]
        split_ifs <;> exact ⟨_, rfl⟩
    · simp only [Bool.or_eq_true, not_or] at c2
      simp only [c1, c2.1.1.1.1, c2.1.1.1.2, c2.1.1.2, c2.1.2, c2.2, if_false]
      exact ⟨_, rfl⟩

/-- C24: on a valid port and without a constraint, whatever the filter,
`impl_node_port_enum_params` returns on its first pass; for the parameter
list it returns 1 at the cursors 0 to 4, naming EnumFormat, Format,
Buffers, Meta and IO in that order and moving the cursor by one, and 0 at
every cursor from 5 on; for Format and for Buffers it returns 1 at cursor 0,
moving the cursor to 1, and 0 at every other cursor when the port has a
committed format, and -EIO when it has none; for an id it does not know it
returns -ENOENT. The call has no other output than the returned value, the
cursor and the result. -/
theorem port_enum_params_unconstrained (filter_fn : Pod → Pod → Option Pod) (s : Impl)
    (direction : Direction) (port_id fuel : Nat)
    (hvalid : CHECK_PORT s direction port_id = true) :
    (∀ k, k < 5 →
        impl_node_port_enum_params filter_fn s direction port_id SPA_PARAM_List k none (fuel + 1)
          = some { res := 1
                   index := k + 1
                   result := some (Pod.object SPA_TYPE_OBJECT_ParamList SPA_PARAM_List
                     [(SPA_PARAM_LIST_id,
                       Pod.id ([SPA_PARAM_EnumFormat, SPA_PARAM_Format, SPA_PARAM_Buffers,
                         SPA_PARAM_Meta, SPA_PARAM_IO].getD k 0))]) })
      ∧ (∀ k, 5 ≤ k →
          impl_node_port_enum_params filter_fn s direction port_id SPA_PARAM_List k none
            (fuel + 1) = some { res := 0, index := k, result := none })
      ∧ (∀ id, id = SPA_PARAM_Format ∨ id = SPA_PARAM_Buffers →
          ((GET_PORT s direction port_id).have_format = true →
            (∃ p, impl_node_port_enum_params filter_fn s direction port_id id 0 none (fuel + 1)
                = some { res := 1, index := 1, result := some p })
              ∧ ∀ k, 0 < k →
                  impl_node_port_enum_params filter_fn s direction port_id id k none (fuel + 1)
                    = some { res := 0, index := k, result := none })
          ∧ ((GET_PORT s direction port_id).have_format = false →
              ∀ k, impl_node_port_enum_params filter_fn s direction port_id id k none (fuel + 1)
                = some { res := - EIO, index := k, result := none }))
      ∧ (∀ id, id ≠ SPA_PARAM_List → id ≠ SPA_PARAM_EnumFormat → id ≠ SPA_PARAM_Format →
          id ≠ SPA_PARAM_Buffers → id ≠ SPA_PARAM_Meta → id ≠ SPA_PARAM_IO →
          ∀ k, impl_node_port_enum_params filter_fn s direction port_id id k none (fuel + 1)
            = some { res := -ENOENT, index := k, result := none }) := by
  have hentry : ∀ id k, impl_node_port_enum_params filter_fn s direction port_id id k none
      (fuel + 1) = enum_params_loop filter_fn s direction port_id id none (fuel + 1) k none := by
    intro id k
    simp only [impl_node_port_enum_params, hvalid, Bool.not_true, Bool.false_eq_true, if_false]
  refine ⟨fun k hk => ?_, fun k hk => ?_, fun id hid => ⟨fun hf => ⟨?_, fun k hk => ?_⟩,
    fun hf k => ?_⟩, fun id n1 n2 n3 n4 n5 n6 k => ?_⟩
  · have hsw : enum_params_switch s direction port_id SPA_PARAM_List k
        = EnumStep.param (Pod.object SPA_TYPE_OBJECT_ParamList SPA_PARAM_List
            [(SPA_PARAM_LIST_id,
              Pod.id ([SPA_PARAM_EnumFormat, SPA_PARAM_Format, SPA_PARAM_Buffers,
                SPA_PARAM_Meta, SPA_PARAM_IO].getD k 0))]) := by
      have hlen : k < [SPA_PARAM_EnumFormat, SPA_PARAM_Format, SPA_PARAM_Buffers,
          SPA_PARAM_Meta, SPA_PARAM_IO].length := hk
      simp only [enum_params_switch, beq_self_eq_true, if_true, hlen]
    rw [hentry, enum_params_loop_accept filter_fn s direction port_id SPA_PARAM_List none fuel k
      none _ _ hsw rfl, Nat.mod_eq_of_lt (by omega)]
  · have hsw : enum_params_switch s direction port_id SPA_PARAM_List k = EnumStep.ret 0 := by
      have hlen : ¬ k < [SPA_PARAM_EnumFormat, SPA_PARAM_Format, SPA_PARAM_Buffers,
          SPA_PARAM_Meta, SPA_PARAM_IO].length := by
        simp only [List.length_cons, List.length_nil]
        omega
      simp only [enum_params_switch, beq_self_eq_true, if_true, hlen, if_false]
    rw [hentry, enum_params_loop_ret filter_fn s direction port_id SPA_PARAM_List none fuel k
      none 0 hsw]
  · have hsw : ∃ p, enum_params_switch s direction port_id id 0 = EnumStep.param p := by
      rcases hid with hid | hid
      · subst hid
        have e : (SPA_PARAM_Format == SPA_PARAM_List) = false := by decide
        have e2 : (SPA_PARAM_Format == SPA_PARAM_EnumFormat) = false := by decide
        simp only [enum_params_switch, e, e2, beq_self_eq_true, hf, Bool.not_true,
          Bool.false_eq_true, if_false, if_true, gt_iff_lt, Nat.lt_irrefl]
        exact ⟨_, rfl⟩
      · subst hid
        have e : (SPA_PARAM_Buffers == SPA_PARAM_List) = false := by decide
        have e2 : (SPA_PARAM_Buffers == SPA_PARAM_EnumFormat) = false := by decide
        have e3 : (SPA_PARAM_Buffers == SPA_PARAM_Format) = false := by decide
        simp only [enum_params_switch, e, e2, e3, beq_self_eq_true, hf, Bool.not_true,
          Bool.false_eq_true, if_false, if_true, gt_iff_lt, Nat.lt_irrefl]
        exact ⟨_, rfl⟩
    obtain ⟨p, hp⟩ := hsw
    exact ⟨p, by rw [hentry, enum_params_loop_accept filter_fn s direction port_id id none fuel 0
      none p p hp rfl]⟩
  · have hsw : enum_params_switch s direction port_id id k = EnumStep.ret 0 := by
      have hk2 : k > 0 := hk
      rcases hid with hid | hid
      · subst hid
        have e : (SPA_PARAM_Format == SPA_PARAM_List) = false := by decide
        have e2 : (SPA_PARAM_Format == SPA_PARAM_EnumFormat) = false := by decide
        simp only [enum_params_switch, e, e2, beq_self_eq_true, hf, Bool.not_true,
          Bool.false_eq_true, if_false, if_true, hk2]
      · subst hid
        have e : (SPA_PARAM_Buffers == SPA_PARAM_List) = false := by decide
        have e2 : (SPA_PARAM_Buffers == SPA_PARAM_EnumFormat) = false := by decide
        have e3 : (SPA_PARAM_Buffers == SPA_PARAM_Format) = false := by decide
        simp only [enum_params_switch, e, e2, e3, beq_self_eq_true, hf, Bool.not_true,
          Bool.false_eq_true, if_false, if_true, hk2]
    rw [hentry, enum_params_loop_ret filter_fn s direction port_id id none fuel k none 0 hsw]
  · have hsw : enum_params_switch s direction port_id id k = EnumStep.ret (- EIO) := by
      rcases hid with hid | hid
      · subst hid
        have e : (SPA_PARAM_Format == SPA_PARAM_List) = false := by decide
        have e2 : (SPA_PARAM_Format == SPA_PARAM_EnumFormat) = false := by decide
        simp only [enum_params_switch, e, e2, beq_self_eq_true, hf, Bool.not_false,
          Bool.false_eq_true, if_false, if_true]
      · subst hid
        have e : (SPA_PARAM_Buffers == SPA_PARAM_List) = false := by decide
        have e2 : (SPA_PARAM_Buffers == SPA_PARAM_EnumFormat) = false := by decide
        have e3 : (SPA_PARAM_Buffers == SPA_PARAM_Format) = false := by decide
        simp only [enum_params_switch, e, e2, e3, beq_self_eq_true, hf, Bool.not_false,
          Bool.false_eq_true, if_false, if_true]
    rw [hentry, enum_params_loop_ret filter_fn s direction port_id id none fuel k none _ hsw]
  · have hsw : enum_params_switch s direction port_id id k = EnumStep.ret (-ENOENT) := by
      have e1 : (id == SPA_PARAM_List) = false := by simpa using n1
      have e2 : (id == SPA_PARAM_EnumFormat) = false := by simpa using n2
      have e3 : (id == SPA_PARAM_Format) = false := by simpa using n3
      have e4 : (id == SPA_PARAM_Buffers) = false := by simpa using n4
      have e5 : (id == SPA_PARAM_Meta) = false := by simpa using n5
      have e6 : (id == SPA_PARAM_IO) = false := by simpa using n6
      simp only [enum_params_switch, e1, e2, e3, e4, e5, e6, Bool.false_eq_true, if_false]
    rw [hentry, enum_params_loop_ret filter_fn s direction port_id id none fuel k none _ hsw]

/-- C24 on the input port of the node `node_formats`: the parameter list at
cursor 1 names Format and moves the cursor to 2. -/
theorem port_enum_params_unconstrained_witness :
    CHECK_PORT node_formats Direction.Input 0 = true
      ∧ impl_node_port_enum_params reject_all node_formats Direction.Input 0 SPA_PARAM_List 1 none
          1
        = some { res := 1
                 index := 2
                 result := some (Pod.object SPA_TYPE_OBJECT_ParamList SPA_PARAM_List
                   [(SPA_PARAM_LIST_id, Pod.id SPA_PARAM_Format)]) } :=
  ⟨by decide,
    (port_enum_params_unconstrained reject_all node_formats Direction.Input 0 0
      (by decide)).1 1 (by decide)⟩

/-- The number of candidates of a parameter id is at most 5. -/
theorem n_candidates_le (id : Nat) : n_candidates id ≤ 5 := by
  unfold n_candidates
  split_ifs <;> omega

/-- The loop of `impl_node_port_enum_params` from the cursor `index` on, with
`k` at least the number of candidates that are left: with a bound of more
than `k` passes the loop returns, always the same; it either returns a value
that is not positive at the first cursor without a candidate, every
candidate before it being rejected and `*result` left alone, or returns 1
just past the first candidate that survives the filter, with its filtered
form as the result. -/
theorem enum_params_loop_spec (filter_fn : Pod → Pod → Option Pod) (s : Impl)
    (direction : Direction) (port_id id : Nat) (filter : Option Pod) :
    ∀ (k index : Nat) (result : Option Pod), n_candidates id - index ≤ k →
      ∃ r, (∀ fuel, k + 1 ≤ fuel →
            enum_params_loop filter_fn s direction port_id id filter fuel index result = some r)
        ∧ ((r.res ≤ 0 ∧ index ≤ r.index ∧ r.result = result
              ∧ enum_params_switch s direction port_id id r.index = EnumStep.ret r.res
              ∧ ∀ j, index ≤ j → j < r.index →
                  ∃ q, enum_params_switch s direction port_id id j = EnumStep.param q
                    ∧ filtered filter_fn q filter = none)
            ∨ (r.res = 1 ∧ index < r.index
              ∧ (∃ p v, enum_params_switch s direction port_id id (r.index - 1) = EnumStep.param p
                  ∧ filtered filter_fn p filter = some v ∧ r.result = some v)
              ∧ ∀ j, index ≤ j → j < r.index - 1 →
                  ∃ q, enum_params_switch s direction port_id id j = EnumStep.param q
                    ∧ filtered filter_fn q filter = none)) := by
  intro k
  induction k with
  | zero =>
    intro index result hk
    obtain ⟨res, hres⟩ := enum_params_switch_past s direction port_id id index (by omega)
    refine ⟨{ res := res, index := index, result := result }, fun fuel hfuel => ?_, Or.inl ?_⟩
    · obtain ⟨f, rfl⟩ : ∃ f, fuel = f + 1 := ⟨fuel - 1, by omega⟩
      exact enum_params_loop_ret filter_fn s direction port_id id filter f index result res hres
    · exact ⟨enum_params_switch_ret s direction port_id id index res hres, Nat.le_refl _, rfl,
        hres, fun j h1 h2 => absurd h2 (by simp only []; omega)⟩
  | succ k ih =>
    intro index result hk
    cases hsw : enum_params_switch s direction port_id id index with
    | ret res =>
      refine ⟨{ res := res, index := index, result := result }, fun fuel hfuel => ?_, Or.inl ?_⟩
      · obtain ⟨f, rfl⟩ : ∃ f, fuel = f + 1 := ⟨fuel - 1, by omega⟩
        exact enum_params_loop_ret filter_fn s direction port_id id filter f index result res hsw
      · exact ⟨enum_params_switch_ret s direction port_id id index res hsw, Nat.le_refl _, rfl,
          hsw, fun j h1 h2 => absurd h2 (by simp only []; omega)⟩
    | param p =>
      have hlt : index < n_candidates id := by
        by_contra hge
        obtain ⟨res, hres⟩ := enum_params_switch_past s direction port_id id index (by omega)
        rw [hsw] at hres
        exact absurd hres (by simp)
      have h5 := n_candidates_le id
      have hwrap : (index + 1) % 4294967296 = index + 1 := Nat.mod_eq_of_lt (by omega)
      cases hv : filtered filter_fn p filter with
      | some v =>
        refine ⟨{ res := 1, index := index + 1, result := some v }, fun fuel hfuel => ?_,
          Or.inr ?_⟩
        · obtain ⟨f, rfl⟩ : ∃ f, fuel = f + 1 := ⟨fuel - 1, by omega⟩
          rw [enum_params_loop_accept filter_fn s direction port_id id filter f index result p v
            hsw hv, hwrap]
        · refine ⟨rfl, Nat.lt_succ_self index, ⟨p, v, ?_, hv, rfl⟩, fun j h1 h2 => ?_⟩
          · simp only [Nat.add_sub_cancel]
            exact hsw
          · simp only [Nat.add_sub_cancel] at h2
            omega
      | none =>
        obtain ⟨r, hr, hprops⟩ := ih (index + 1) result (by omega)
        refine ⟨r, fun fuel hfuel => ?_, ?_⟩
        · obtain ⟨f, rfl⟩ : ∃ f, fuel = f + 1 := ⟨fuel - 1, by omega⟩
          rw [enum_params_loop_reject filter_fn s direction port_id id filter f index result p
            hsw hv, hwrap]
          exact hr f (by omega)
        · rcases hprops with ⟨a1, a2, a3, a4, a5⟩ | ⟨b1, b2, b3, b4⟩
          · refine Or.inl ⟨a1, by omega, a3, a4, fun j h1 h2 => ?_⟩
            by_cases hj : j = index
            · subst hj
              exact ⟨p, hsw, hv⟩
            · exact a5 j (by omega) h2
          · refine Or.inr ⟨b1, by omega, b3, fun j h1 h2 => ?_⟩
            by_cases hj : j = index
            · subst hj
              exact ⟨p, hsw, hv⟩
            · exact b4 j (by omega) h2

/-- When the switch of `impl_node_port_enum_params` has a candidate at some
cursor, every return statement it reaches at another cursor returns 0. -/
theorem enum_params_switch_done (s : Impl) (direction : Direction) (port_id id j k : Nat)
    (q : Pod) (res : Int)
    (hq : enum_params_switch s direction port_id id j = EnumStep.param q)
    (hr : enum_params_switch s direction port_id id k = EnumStep.ret res) : res = 0 := by
  unfold enum_params_switch at hq hr
  by_cases c1 : (id == SPA_PARAM_List) = true
  · simp only [c1, if_true] at hr
    split_ifs at hr
    cases hr
    rfl
  simp only [c1, Bool.false_eq_true, if_false] at hq hr
  by_cases c2 : (id == SPA_PARAM_EnumFormat) = true
  · simp only [c2, if_true] at hr
    rcases port_enum_formats_cases s direction port_id k with ⟨_, p2, hp2⟩ | ⟨_, hp2⟩
    · simp only [hp2] at hr
      split_ifs at hr with c
      cases hr
      exact absurd c (by decide)
    · simp only [hp2] at hr
      split_ifs at hr
      cases hr
      rfl
  simp only [c2, Bool.false_eq_true, if_false] at hq hr
  by_cases c3 : (id == SPA_PARAM_Format) = true
  · simp only [c3, if_true] at hq hr
    by_cases hf : (!(GET_PORT s direction port_id).have_format) = true
    · simp only [hf, if_true] at hq
      cases hq
    · simp only [hf, Bool.false_eq_true, if_false] at hr
      split_ifs at hr
      cases hr
      rfl
  simp only [c3, Bool.false_eq_true, if_false] at hq hr
  by_cases c4 : (id == SPA_PARAM_Buffers) = true
  · simp only [c4, if_true] at hq hr
    by_cases hf : (!(GET_PORT s direction port_id).have_format) = true
    · simp only [hf, if_true] at hq
      cases hq
    · simp only [hf, Bool.false_eq_true, if_false] at hr
      split_ifs at hr
      cases hr
      rfl
  simp only [c4, Bool.false_eq_true, if_false] at hq hr
  by_cases c5 : (id == SPA_PARAM_Meta) = true
  · simp only [c5, if_true] at hq hr
    by_cases hf : (!(GET_PORT s direction port_id).have_format) = true
    · simp only [hf, if_true] at hq
      cases hq
    · simp only [hf, Bool.false_eq_true, if_false] at hr
      split_ifs at hr
      cases hr
      rfl
  simp only [c5, Bool.false_eq_true, if_false] at hq hr
  by_cases c6 : (id == SPA_PARAM_IO) = true
  · simp only [c6, if_true] at hr
    split_ifs at hr
    cases hr
    rfl
  simp only [c6, Bool.false_eq_true, if_false] at hq
  cases hq

/-- C27: on a valid port, for every parameter id, starting cursor, constraint
and filter, `impl_node_port_enum_params` returns as soon as it is given a
bound of (number of candidates for the id - starting cursor) + 1 passes
through its switch, and a larger bound gives the same result; the cursor
moves by one for every rejected candidate; when it returns 1, the cursor is
just past the first candidate at or after the starting cursor that survives
the filter and the result is the filtered form of that candidate; otherwise
every candidate from the starting cursor on was rejected, the cursor is at
the first place without a candidate and the returned value is that of the
return statement there, which is not positive, and 0 when there was a
candidate at the starting cursor. -/
theorem port_enum_params_terminates (filter_fn : Pod → Pod → Option Pod) (s : Impl)
    (direction : Direction) (port_id id index : Nat) (filter : Option Pod)
    (hvalid : CHECK_PORT s direction port_id = true) :
    ∃ r, (∀ fuel, n_candidates id - index + 1 ≤ fuel →
          impl_node_port_enum_params filter_fn s direction port_id id index filter fuel = some r)
      ∧ ((r.res ≤ 0 ∧ index ≤ r.index ∧ r.result = none
            ∧ enum_params_switch s direction port_id id r.index = EnumStep.ret r.res
            ∧ (∀ j, index ≤ j → j < r.index →
                ∃ q, enum_params_switch s direction port_id id j = EnumStep.param q
                  ∧ filtered filter_fn q filter = none)
            ∧ (index < r.index → r.res = 0))
          ∨ (r.res = 1 ∧ index < r.index
            ∧ (∃ p v, enum_params_switch s direction port_id id (r.index - 1) = EnumStep.param p
                ∧ filtered filter_fn p filter = some v ∧ r.result = some v)
            ∧ ∀ j, index ≤ j → j < r.index - 1 →
                ∃ q, enum_params_switch s direction port_id id j = EnumStep.param q
                  ∧ filtered filter_fn q filter = none)) := by
  obtain ⟨r, hr, hprops⟩ := enum_params_loop_spec filter_fn s direction port_id id filter
    (n_candidates id - index) index none (Nat.le_refl _)
  refine ⟨r, fun fuel hfuel => ?_, ?_⟩
  · simp only [impl_node_port_enum_params, hvalid, Bool.not_true, Bool.false_eq_true, if_false]
    exact hr fuel hfuel
  · rcases hprops with ⟨a1, a2, a3, a4, a5⟩ | h
    · refine Or.inl ⟨a1, a2, a3, a4, a5, fun hlt => ?_⟩
      exact enum_params_switch_done s direction port_id id index r.index _ r.res
        (a5 index (Nat.le_refl _) hlt).choose_spec.1 a4
    · exact Or.inr h

/-- C27 on the input port of the node `node_formats`, for the parameter list
from cursor 3 on under a constraint that the filter rejects for every
candidate: within 5 - 3 + 1 = 3 passes the call returns 0 with the cursor
at 5. -/
theorem port_enum_params_terminates_witness :
    CHECK_PORT node_formats Direction.Input 0 = true
      ∧ ∃ r, (∀ fuel, n_candidates SPA_PARAM_List - 3 + 1 ≤ fuel →
            impl_node_port_enum_params reject_all node_formats Direction.Input 0 SPA_PARAM_List 3
              (some Pod.none) fuel = some r)
          ∧ r.res = 0 ∧ r.index = 5 :=
  have h := port_enum_params_terminates reject_all node_formats Direction.Input 0 SPA_PARAM_List 3
    (some Pod.none) (by decide)
  ⟨by decide, h.choose, h.choose_spec.1,
    congrArg EnumResult.res
      (Option.some.inj ((h.choose_spec.1 3 (by decide)).symm.trans rfl)),
    congrArg EnumResult.index
      (Option.some.inj ((h.choose_spec.1 3 (by decide)).symm.trans rfl))⟩

/-! ## Building a raw audio format and parsing it back -/

/-- A 32-bit value survives the conversion to `int` and back. -/
theorem toU32_toI32 (n : Nat) (h : n < 4294967296) : toU32 (toI32 n) = n := by
  unfold toU32 toI32
  rw [Nat.mod_eq_of_lt h]
  split_ifs with c
  · omega
  · omega

/-- The lookup of a key in an object looks at the first property, then at
the rest. -/
theorem spa_pod_find_prop_cons (type id k : Nat) (v : Pod) (rest : List (Nat × Pod))
    (key : Nat) :
    spa_pod_find_prop (Pod.object type id ((k, v) :: rest)) key
      = if k == key then some v else spa_pod_find_prop (Pod.object type id rest) key := by
  simp only [spa_pod_find_prop, List.find?]
  cases h : k == key <;> simp

/-- The lookup of a key in an object without properties finds nothing. -/
theorem spa_pod_find_prop_nil (type id key : Nat) :
    spa_pod_find_prop (Pod.object type id []) key = none := by
  simp [spa_pod_find_prop]

/-- The object `spa_format_audio_raw_build` makes of a positioned info. -/
theorem build_positioned (id : Nat) (info : AudioInfoRaw)
    (h : SPA_FLAG_CHECK info.flags SPA_AUDIO_FLAG_UNPOSITIONED = false) :
    spa_format_audio_raw_build id info
      = Pod.object SPA_TYPE_OBJECT_Format id
          [ (SPA_FORMAT_mediaType, Pod.id SPA_MEDIA_TYPE_audio),
            (SPA_FORMAT_mediaSubtype, Pod.id SPA_MEDIA_SUBTYPE_raw),
            (SPA_FORMAT_AUDIO_format, Pod.id info.format),
            (SPA_FORMAT_AUDIO_rate, Pod.int (toI32 info.rate)),
            (SPA_FORMAT_AUDIO_channels, Pod.int (toI32 info.channels)),
            (SPA_FORMAT_AUDIO_position,
              Pod.array TypeTag.Id
                ((List.range info.channels).map (fun i => info.position.getD i 0))) ] := by
  simp only [spa_format_audio_raw_build, h, Bool.not_false, if_true, List.cons_append,
    List.nil_append]

/-- The object `spa_format_audio_raw_build` makes of an unpositioned info. -/
theorem build_unpositioned (id : Nat) (info : AudioInfoRaw)
    (h : SPA_FLAG_CHECK info.flags SPA_AUDIO_FLAG_UNPOSITIONED = true) :
    spa_format_audio_raw_build id info
      = Pod.object SPA_TYPE_OBJECT_Format id
          [ (SPA_FORMAT_mediaType, Pod.id SPA_MEDIA_TYPE_audio),
            (SPA_FORMAT_mediaSubtype, Pod.id SPA_MEDIA_SUBTYPE_raw),
            (SPA_FORMAT_AUDIO_format, Pod.id info.format),
            (SPA_FORMAT_AUDIO_rate, Pod.int (toI32 info.rate)),
            (SPA_FORMAT_AUDIO_channels, Pod.int (toI32 info.channels)) ] := by
  simp only [spa_format_audio_raw_build, h, Bool.not_true, Bool.false_eq_true, if_false]

/-- Parsing the object of a positioned info into a zeroed info. -/
theorem parse_build_positioned (id : Nat) (info : AudioInfoRaw)
    (h : SPA_FLAG_CHECK info.flags SPA_AUDIO_FLAG_UNPOSITIONED = false) :
    spa_format_audio_raw_parse (spa_format_audio_raw_build id info) AudioInfoRaw.zero
      = (0, { format := info.format
              flags := 0
              rate := toU32 (toI32 info.rate)
              channels := toU32 (toI32 info.channels)
              position :=
                ((List.range info.channels).map (fun i => info.position.getD i 0)).take
                    (SPA_MIN ((List.range info.channels).map
                      (fun i => info.position.getD i 0)).length SPA_AUDIO_MAX_CHANNELS)
                  ++ AudioInfoRaw.zero.position.drop
                    (SPA_MIN ((List.range info.channels).map
                      (fun i => info.position.getD i 0)).length SPA_AUDIO_MAX_CHANNELS) }) := by
  simp only [spa_format_audio_raw_build, h, Bool.not_false, if_true, List.cons_append,
    List.nil_append, spa_format_audio_raw_parse, audio_raw_object_parse, parse_Id, parse_Int,
    parse_Pod, spa_pod_find_prop_cons, spa_pod_find_prop_nil, SPA_FORMAT_mediaType,
    SPA_FORMAT_mediaSubtype, SPA_FORMAT_AUDIO_format, SPA_FORMAT_AUDIO_rate,
    SPA_FORMAT_AUDIO_channels, SPA_FORMAT_AUDIO_flags, SPA_FORMAT_AUDIO_position,
    Nat.reduceBEq, Bool.false_eq_true, if_false]
  rfl

/-- Parsing the object of an unpositioned info into a zeroed info. -/
theorem parse_build_unpositioned (id : Nat) (info : AudioInfoRaw)
    (h : SPA_FLAG_CHECK info.flags SPA_AUDIO_FLAG_UNPOSITIONED = true) :
    spa_format_audio_raw_parse (spa_format_audio_raw_build id info) AudioInfoRaw.zero
      = (0, { format := info.format
              flags := SPA_FLAG_SET 0 SPA_AUDIO_FLAG_UNPOSITIONED
              rate := toU32 (toI32 info.rate)
              channels := toU32 (toI32 info.channels)
              position := AudioInfoRaw.zero.position }) := by
  simp only [spa_format_audio_raw_build, h, Bool.not_true, Bool.false_eq_true, if_false,
    spa_format_audio_raw_parse, audio_raw_object_parse, parse_Id, parse_Int,
    parse_Pod, spa_pod_find_prop_cons, spa_pod_find_prop_nil, SPA_FORMAT_mediaType,
    SPA_FORMAT_mediaSubtype, SPA_FORMAT_AUDIO_format, SPA_FORMAT_AUDIO_rate,
    SPA_FORMAT_AUDIO_channels, SPA_FORMAT_AUDIO_flags, SPA_FORMAT_AUDIO_position,
    Nat.reduceBEq, if_true]
  rfl

/-- C25: for every raw audio info whose rate and channel count are 32-bit
values, the object `spa_format_audio_raw_build` makes of it lists
mediaType, mediaSubtype, format, rate, channels and, unless the info is
flagged unpositioned, position, in that order; parsing the object into a
zeroed info succeeds; when the info has no flags and at most
SPA_AUDIO_MAX_CHANNELS channels the parse yields its format, rate and
channel count, no flags and its first `channels` positions; when the info
is flagged unpositioned the parse yields its format, rate and channel
count with the unpositioned flag set. -/
theorem audio_raw_round_trip (id : Nat) (info : AudioInfoRaw)
    (hrate : info.rate < 4294967296) (hchannels : info.channels < 4294967296) :
    (∃ props, spa_format_audio_raw_build id info = Pod.object SPA_TYPE_OBJECT_Format id props
        ∧ props.map Prod.fst
            = if SPA_FLAG_CHECK info.flags SPA_AUDIO_FLAG_UNPOSITIONED then
                [SPA_FORMAT_mediaType, SPA_FORMAT_mediaSubtype, SPA_FORMAT_AUDIO_format,
                  SPA_FORMAT_AUDIO_rate, SPA_FORMAT_AUDIO_channels]
              else
                [SPA_FORMAT_mediaType, SPA_FORMAT_mediaSubtype, SPA_FORMAT_AUDIO_format,
                  SPA_FORMAT_AUDIO_rate, SPA_FORMAT_AUDIO_channels, SPA_FORMAT_AUDIO_position])
      ∧ (spa_format_audio_raw_parse (spa_format_audio_raw_build id info) AudioInfoRaw.zero).1 = 0
      ∧ (info.flags = 0 → info.channels ≤ SPA_AUDIO_MAX_CHANNELS →
          (spa_format_audio_raw_parse (spa_format_audio_raw_build id info)
              AudioInfoRaw.zero).2.format = info.format
            ∧ (spa_format_audio_raw_parse (spa_format_audio_raw_build id info)
              AudioInfoRaw.zero).2.rate = info.rate
            ∧ (spa_format_audio_raw_parse (spa_format_audio_raw_build id info)
              AudioInfoRaw.zero).2.channels = info.channels
            ∧ (spa_format_audio_raw_parse (spa_format_audio_raw_build id info)
              AudioInfoRaw.zero).2.flags = 0
            ∧ ∀ i, i < info.channels →
                (spa_format_audio_raw_parse (spa_format_audio_raw_build id info)
                  AudioInfoRaw.zero).2.position.getD i 0 = info.position.getD i 0)
      ∧ (SPA_FLAG_CHECK info.flags SPA_AUDIO_FLAG_UNPOSITIONED = true →
          (spa_format_audio_raw_parse (spa_format_audio_raw_build id info)
              AudioInfoRaw.zero).2.format = info.format
            ∧ (spa_format_audio_raw_parse (spa_format_audio_raw_build id info)
              AudioInfoRaw.zero).2.rate = info.rate
            ∧ (spa_format_audio_raw_parse (spa_format_audio_raw_build id info)
              AudioInfoRaw.zero).2.channels = info.channels
            ∧ SPA_FLAG_CHECK (spa_format_audio_raw_parse (spa_format_audio_raw_build id info)
              AudioInfoRaw.zero).2.flags SPA_AUDIO_FLAG_UNPOSITIONED = true) := by
  cases hflag : SPA_FLAG_CHECK info.flags SPA_AUDIO_FLAG_UNPOSITIONED with
  | false =>
    rw [parse_build_positioned id info hflag]
    refine ⟨⟨_, build_positioned id info hflag, by simp⟩, rfl, fun _ hmax => ?_,
      fun h => absurd h (by simp)⟩
    · refine ⟨rfl, toU32_toI32 _ hrate, toU32_toI32 _ hchannels, rfl, fun i hi => ?_⟩
      have hlen : ((List.range info.channels).map (fun i => info.position.getD i 0)).length
          = info.channels := by simp
      have hmin : SPA_MIN info.channels SPA_AUDIO_MAX_CHANNELS = info.channels := by
        unfold SPA_MIN
        split_ifs <;> omega
      have htake : ((List.range info.channels).map (fun i => info.position.getD i 0)).take
          info.channels = (List.range info.channels).map (fun i => info.position.getD i 0) :=
        List.take_of_length_le (by rw [hlen])
      simp only [hlen, hmin, htake]
      rw [List.getD_append _ _ _ _ (by rw [hlen]; exact hi)]
      simp [List.getD_eq_getElem?_getD, hi]
  | true =>
    rw [parse_build_unpositioned id info hflag]
    refine ⟨⟨_, build_unpositioned id info hflag, by simp⟩, rfl, fun h0 _ => ?_, fun _ => ?_⟩
    · rw [h0] at hflag
      exact absurd hflag (by decide)
    · have hset : SPA_FLAG_CHECK (SPA_FLAG_SET 0 SPA_AUDIO_FLAG_UNPOSITIONED)
          SPA_AUDIO_FLAG_UNPOSITIONED = true := by decide
      exact ⟨rfl, toU32_toI32 _ hrate, toU32_toI32 _ hchannels, hset⟩

/-- C25 on two infos: the F32 format at 48000 Hz with 2 channels at the
positions 3 and 4, and the same info flagged unpositioned. -/
theorem audio_raw_round_trip_witness :
    (spa_format_audio_raw_parse (spa_format_audio_raw_build SPA_PARAM_Format
        { format := SPA_AUDIO_FORMAT_F32, flags := 0, rate := 48000, channels := 2
          position := [3, 4] }) AudioInfoRaw.zero).1 = 0
      ∧ (spa_format_audio_raw_parse (spa_format_audio_raw_build SPA_PARAM_Format
          { format := SPA_AUDIO_FORMAT_F32, flags := 0, rate := 48000, channels := 2
            position := [3, 4] }) AudioInfoRaw.zero).2.rate = 48000
      ∧ (spa_format_audio_raw_parse (spa_format_audio_raw_build SPA_PARAM_Format
          { format := SPA_AUDIO_FORMAT_F32, flags := 0, rate := 48000, channels := 2
            position := [3, 4] }) AudioInfoRaw.zero).2.position.getD 1 0 = 4
      ∧ SPA_FLAG_CHECK (spa_format_audio_raw_parse (spa_format_audio_raw_build SPA_PARAM_Format
          { format := SPA_AUDIO_FORMAT_F32, flags := SPA_AUDIO_FLAG_UNPOSITIONED, rate := 48000
            channels := 2, position := [3, 4] }) AudioInfoRaw.zero).2.flags
          SPA_AUDIO_FLAG_UNPOSITIONED = true :=
  have h := audio_raw_round_trip SPA_PARAM_Format
    { format := SPA_AUDIO_FORMAT_F32, flags := 0, rate := 48000, channels := 2
      position := [3, 4] } (by decide) (by decide)
  have h2 := audio_raw_round_trip SPA_PARAM_Format
    { format := SPA_AUDIO_FORMAT_F32, flags := SPA_AUDIO_FLAG_UNPOSITIONED, rate := 48000
      channels := 2, position := [3, 4] } (by decide) (by decide)
  ⟨h.2.1, (h.2.2.1 rfl (by decide)).2.1, (h.2.2.1 rfl (by decide)).2.2.2.2 1 (by decide),
    (h2.2.2.2 (by decide)).2.2.2⟩

/-! ## The order of the available queue -/

/-- C26: the slots do not leave the queue in the order 0, 1 after a
successful use_buffers with two buffers. On the node `node_rejected_buffers`
(output port 0 has a format, no buffers and a queue that still holds slot 0
of a rejected list) the call with two valid descriptors returns 0 and
records two buffers, the queue is then [0, 0, 1], and two dequeues in a row
both yield slot 0. -/
theorem dequeue_after_use_buffers_repeats_slot :
    (node_rejected_buffers.out_ports 0).n_buffers = 0
      ∧ (node_rejected_buffers.out_ports 0).queue = [0]
      ∧ (impl_node_port_use_buffers node_rejected_buffers Direction.Output 0
          [mem_buffer 0 1024 0, mem_buffer 1 1024 0]).1 = 0
      ∧ (node_requeued.out_ports 0).n_buffers = 2
      ∧ (node_requeued.out_ports 0).queue = [0, 0, 1]
      ∧ (dequeue_buffer (node_requeued.out_ports 0)).1 = some 0
      ∧ (dequeue_buffer (dequeue_buffer (node_requeued.out_ports 0)).2).1 = some 0 := by
  refine ⟨by decide, by decide, by decide, by decide, by decide, by decide, by decide⟩

/-- The loop of `impl_node_port_use_buffers` on an output port, over
descriptors that are all valid, returns 0 and appends the slots it walks to
the queue, in order. -/
theorem use_buffers_loop_queue (buffers : List SpaBuffer) :
    ∀ (port : Port) (i : Nat),
      (∀ b ∈ buffers, valid_memory (b.datas.getD 0 SpaData.zero) = true) →
      (use_buffers_loop Direction.Output port buffers i).1 = 0
        ∧ (use_buffers_loop Direction.Output port buffers i).2.queue
            = port.queue ++ List.range' i buffers.length := by
  induction buffers with
  | nil => intro port i _; simp [use_buffers_loop]
  | cons b rest ih =>
    intro port i hvalid
    have hb : valid_memory (b.datas.getD 0 SpaData.zero) = true :=
      hvalid b (List.mem_cons_self _ _)
    have e : (Direction.Output == Direction.Output) = true := rfl
    obtain ⟨h1, h2⟩ := ih
      (queue_buffer
        { port with buffers := Function.update port.buffers i { flags := 0, buf := some b } } i)
      (i + 1) (fun b2 hb2 => hvalid b2 (List.mem_cons_of_mem _ hb2))
    simp only [use_buffers_loop, hb, Bool.not_true, Bool.false_eq_true, if_false, e, if_true]
    refine ⟨h1, ?_⟩
    rw [h2]
    simp only [queue_buffer, Function.update_same, flag_check_zero, Bool.false_eq_true, if_false,
      List.length_cons, List.range'_succ, List.append_assoc, List.singleton_append]

/-- On an output port with a committed format that has buffers attached or
an empty queue, a use_buffers call with `n` valid descriptors returns 0,
leaves the queue holding the slots 0 to n - 1 in that order, and a dequeue
takes the head of the queue: the order of the queue is the order in which
the slots were appended. -/
theorem use_buffers_queue_in_order (s : Impl) (port_id : Nat) (buffers : List SpaBuffer)
    (hport : CHECK_PORT s Direction.Output port_id = true)
    (hformat : (s.out_ports port_id).have_format = true)
    (hclean : 0 < (s.out_ports port_id).n_buffers ∨ (s.out_ports port_id).queue = [])
    (hvalid : ∀ b ∈ buffers, valid_memory (b.datas.getD 0 SpaData.zero) = true) :
    (impl_node_port_use_buffers s Direction.Output port_id buffers).1 = 0
      ∧ ((impl_node_port_use_buffers s Direction.Output port_id buffers).2.out_ports
          port_id).queue = List.range buffers.length
      ∧ ∀ (port : Port) (slot : Nat) (rest : List Nat), port.queue = slot :: rest →
          (dequeue_buffer port).1 = some slot ∧ (dequeue_buffer port).2.queue = rest := by
  have hq : (clear_buffers (s.out_ports port_id)).queue = [] := by
    unfold clear_buffers
    split_ifs with c
    · rfl
    · rcases hclean with h | h
      · exact absurd h c
      · exact h
  obtain ⟨h1, h2⟩ := use_buffers_loop_queue buffers (clear_buffers (s.out_ports port_id)) 0 hvalid
  rw [hq, List.nil_append, ← List.range_eq_range'] at h2
  rcases hloop : use_buffers_loop Direction.Output (clear_buffers (s.out_ports port_id))
    buffers 0 with ⟨r, q⟩
  rw [hloop] at h1 h2
  simp only [] at h1 h2
  subst h1
  refine ⟨?_, ?_, fun port slot rest hqueue => ?_⟩
  · simp only [impl_node_port_use_buffers, hport, hformat, GET_PORT, hloop, Bool.not_true,
      Bool.false_eq_true, if_false, bne_self_eq_false]
  · simp only [impl_node_port_use_buffers, hport, hformat, GET_PORT, hloop, Bool.not_true,
      Bool.false_eq_true, if_false, bne_self_eq_false, SET_PORT, Function.update_same]
    exact h2
  · simp only [dequeue_buffer, hqueue]
    exact ⟨by trivial, by trivial⟩

/-! ## The strides that process divides by -/

/-- C28: process can divide by a zero stride. The node `node_zero_channels`
is reached through the public operations (a fresh node has port count 0, so
an input format of 0 channels is accepted); it passes the four checks of
process (live input cell, selected transform, status "buffer available",
buffer id below the buffer count) and the stride of its input port, by
which process divides, is 0. -/
theorem process_divides_by_zero_stride :
    Reachable f32_only node_zero_channels
      ∧ (impl_node_port_set_param f32_only (impl_init 0) Direction.Input 0 SPA_PARAM_Format 0
          (some (format_param SPA_AUDIO_FORMAT_F32 48000 0))).1 = 0
      ∧ node_zero_channels.in_port.io
          = some { status := SPA_STATUS_HAVE_BUFFER, buffer_id := 0 }
      ∧ node_zero_channels.convert = some 1
      ∧ node_zero_channels.in_port.n_buffers = 1
      ∧ node_zero_channels.in_port.have_format = true
      ∧ node_zero_channels.in_port.stride = 0
      ∧ (impl_node_process node_zero_channels).call ≠ none :=
  ⟨Reachable.port_set_io Direction.Input 0 SPA_IO_Buffers
      (IoData.buffers { status := SPA_STATUS_HAVE_BUFFER, buffer_id := 0 })
      (Reachable.port_use_buffers Direction.Input 0 [mem_buffer 0 2048 2048]
        (Reachable.port_set_param Direction.Input 0 SPA_PARAM_Format 0
          (some (format_param SPA_AUDIO_FORMAT_F32 48000 0)) (Reachable.init 0))),
    by decide, by decide, by decide, by decide, by decide, by decide, by decide⟩

/-! ## The size of the slot table -/

/-- C29: the buffer count is not held within MAX_BUFFERS. On the node
`node_out_format`, reached through the public operations, a use_buffers
call on output port 0 with 65 valid descriptors returns 0, records a buffer
count of 65 and writes slot 64, one past the 64 slots of the table; the
node it leaves is reachable. -/
theorem use_buffers_count_unchecked :
    Reachable f32_only
        (impl_node_port_use_buffers node_out_format Direction.Output 0 (mem_buffers 65)).2
      ∧ (mem_buffers 65).length = 65
      ∧ (impl_node_port_use_buffers node_out_format Direction.Output 0 (mem_buffers 65)).1 = 0
      ∧ ((impl_node_port_use_buffers node_out_format Direction.Output 0
          (mem_buffers 65)).2.out_ports 0).n_buffers = 65
      ∧ (((impl_node_port_use_buffers node_out_format Direction.Output 0
          (mem_buffers 65)).2.out_ports 0).buffers 64).buf = some (mem_buffer 64 1024 0)
      ∧ ((node_out_format.out_ports 0).buffers 64).buf = none
      ∧ MAX_BUFFERS < 65 := by
  refine ⟨?_, by decide, by decide, by decide, by decide, by decide, by decide⟩
  exact Reachable.port_use_buffers Direction.Output 0 (mem_buffers 65)
    (Reachable.port_set_param Direction.Output 0 SPA_PARAM_Format 0
      (some (format_param SPA_AUDIO_FORMAT_F32P 48000 1))
      (Reachable.set_param SPA_PARAM_Profile 0 (profile_param SPA_AUDIO_FORMAT_F32P 48000 1)
        (Reachable.init 0)))

/-! ## The slots in the available queue -/

/-- C30: the queue can hold a slot that is not attached. On the node
`node_profile1`, whose output port 0 has no buffers, the call
`impl_node_port_reuse_buffer` with buffer id 5 returns 0 and puts slot 5 in
the available queue of the port. -/
theorem reuse_buffer_queues_unattached_slot :
    Reachable f32_only (impl_node_port_reuse_buffer node_profile1 0 5).2
      ∧ (node_profile1.out_ports 0).n_buffers = 0
      ∧ (node_profile1.out_ports 0).queue = []
      ∧ (impl_node_port_reuse_buffer node_profile1 0 5).1 = 0
      ∧ ((impl_node_port_reuse_buffer node_profile1 0 5).2.out_ports 0).n_buffers = 0
      ∧ ((impl_node_port_reuse_buffer node_profile1 0 5).2.out_ports 0).queue = [5] :=
  ⟨Reachable.port_reuse_buffer 0 5
      (Reachable.set_param SPA_PARAM_Profile 0 (profile_param SPA_AUDIO_FORMAT_F32P 48000 1)
        (Reachable.init 0)),
    by decide, by decide, by decide, by decide, by decide⟩

end Splitter
